import Mathlib

/-!
# A verification of the gameboy-rs emulator core

This file is a shallow embedding of the emulator core written in Rust
(`src/instruction.rs`, `src/cpu.rs`, `src/timer.rs`, `src/gpu.rs`,
`src/cartridge.rs`, `src/memory/mmu.rs`) together with theorems checking
the specification's claims about it.

Modelling conventions:
* `u8`/`u16`/`usize` values are `Nat`; wrapping arithmetic is written
  explicitly (`% 256`, `% 65536`), casts `as u8` / `as u16` become
  `% 256` / `% 65536`, bitwise operators map to `&&&`, `|||`, `^^^`,
  `<<<`, `>>>`.
* Fixed-size byte arrays (`[u8; N]`) are modelled as total functions
  `Nat → Nat`; an in-place store becomes a functional update.
* Rust's `Result` plus the possibility of a `panic!`/failed `assert!`/
  out-of-bounds index is modelled by the three-valued `Res` type.
* `i8`/`i16` casts are modelled on two's-complement bit patterns
  (`i8ToU16` below).
-/

namespace GB

/-- Outcome of a fallible Rust operation: `Ok`, `Err`, or a panic
(assertion failure, out-of-bounds index, explicit `panic!`). -/
inductive Res (ε : Type) (α : Type) where
  | ok : α → Res ε α
  | err : ε → Res ε α
  | panic : Res ε α
deriving DecidableEq, Repr

instance : Monad (Res ε) where
  pure := .ok
  bind x f := match x with
    | .ok a => f a
    | .err e => .err e
    | .panic => .panic

/-- Whether the outcome is `ok`. -/
def Res.isOk : Res ε α → Bool
  | .ok _ => true
  | _ => false

/-- Whether the outcome is `err`. -/
def Res.isErr : Res ε α → Bool
  | .err _ => true
  | _ => false

/-- `src/memory/mod.rs` `MemoryOperation`. -/
inductive MemoryOperation where
  | read
  | write
deriving DecidableEq, Repr

/-- `src/memory/mod.rs` `MemoryError`. -/
inductive MemoryError where
  | unmapped (address : Nat)
  | illegal (address : Nat) (op : MemoryOperation)
  | readOnly (address : Nat)
deriving DecidableEq, Repr

/-- `src/cpu.rs` `InstructionError`. -/
inductive InstructionError where
  | invalidOpcode (opcode : Nat)
  | memErr (e : MemoryError)
deriving DecidableEq, Repr

/-- `src/cpu.rs` `CpuRegister` (from `src/instruction.rs`). -/
inductive CpuRegister where
  | A | B | C | D | E | H | L | F | AF | BC | DE | HL | SP
deriving DecidableEq, Repr

/-- `CpuRegister::is_16bit`. -/
def CpuRegister.is16bit : CpuRegister → Bool
  | .A => false
  | .B => false
  | .C => false
  | .D => false
  | .E => false
  | .H => false
  | .L => false
  | .F => false
  | .AF => true
  | .BC => true
  | .DE => true
  | .HL => true
  | .SP => true

/-- `src/instruction.rs` `InstructionOperand`. -/
inductive InstructionOperand where
  | register (reg : CpuRegister)
  | immediate8 (value : Nat)
  | immediate16 (value : Nat)
  | offsetMemoryLocationRegister (offset : Nat) (reg : CpuRegister)
  | memoryLocationRegister (reg : CpuRegister)
  | memoryLocationRegisterDecrement (reg : CpuRegister)
  | memoryLocationRegisterIncrement (reg : CpuRegister)
  | offsetMemoryLocationImmediate8 (offset : Nat) (address : Nat)
  | memoryLocationImmediate16 (address : Nat)
  | doubleMemoryLocationImmediate16 (address : Nat)
deriving DecidableEq, Repr

/-- `InstructionOperand::is_16bit`. -/
def InstructionOperand.is16bit : InstructionOperand → Bool
  | .register reg => reg.is16bit
  | .immediate8 _ => false
  | .immediate16 _ => true
  | .offsetMemoryLocationRegister _ _ => false
  | .memoryLocationRegister _ => false
  | .memoryLocationRegisterDecrement _ => false
  | .memoryLocationRegisterIncrement _ => false
  | .offsetMemoryLocationImmediate8 _ _ => false
  | .memoryLocationImmediate16 _ => false
  | .doubleMemoryLocationImmediate16 _ => true

/-- `InstructionOperand::cycles`. -/
def InstructionOperand.cycles (op : InstructionOperand) (affect16bitReg : Bool) : Nat :=
  match op with
  | .register reg => if affect16bitReg && reg.is16bit then 1 else 0
  | .immediate8 _ => 1
  | .immediate16 _ => 2
  | .offsetMemoryLocationRegister _ _ => 1
  | .memoryLocationRegister reg => if affect16bitReg && reg.is16bit then 2 else 1
  | .memoryLocationRegisterDecrement reg => if affect16bitReg && reg.is16bit then 2 else 1
  | .memoryLocationRegisterIncrement reg => if affect16bitReg && reg.is16bit then 2 else 1
  | .offsetMemoryLocationImmediate8 _ _ => 2
  | .memoryLocationImmediate16 _ => 3
  | .doubleMemoryLocationImmediate16 _ => 4

/-- `src/instruction.rs` `SPOps`; `i8` payloads are kept as their raw byte. -/
inductive SPOps where
  | addOffset (offset : Nat)
  | loadIntoHL (offset : Nat)
  | loadFromHL
deriving DecidableEq, Repr

/-- `SPOps::cycles`. -/
def SPOps.cycles : SPOps → Nat
  | .addOffset _ => 4
  | .loadIntoHL _ => 3
  | .loadFromHL => 2

/-- `src/cpu.rs` `CpuFlag`. -/
inductive CpuFlag where
  | zero
  | subtraction
  | halfCarry
  | carry
deriving DecidableEq, Repr

/-- `CpuFlag::bit`. -/
def CpuFlag.bit : CpuFlag → Nat
  | .zero => 1 <<< 7
  | .subtraction => 1 <<< 6
  | .halfCarry => 1 <<< 5
  | .carry => 1 <<< 4

/-- `src/instruction.rs` `Instruction`; relative-jump and `SP` offsets keep
their raw byte value (sign-extension happens at execution, as in the
source's `as u16` casts). -/
inductive Instruction where
  | noop
  | stop
  | load (dst src : InstructionOperand)
  | and_ (src : InstructionOperand)
  | or_ (src : InstructionOperand)
  | xor_ (src : InstructionOperand)
  | bit (b : Nat) (src : InstructionOperand)
  | jump (dst : InstructionOperand)
  | jumpIf (flag : CpuFlag) (expected : Bool) (dst : Nat)
  | jumpRelative (offset : Nat)
  | jumpRelativeIf (flag : CpuFlag) (expected : Bool) (offset : Nat)
  | increment (dst : InstructionOperand)
  | decrement (dst : InstructionOperand)
  | call (address : Nat)
  | callIf (flag : CpuFlag) (expected : Bool) (address : Nat)
  | compare (src : InstructionOperand)
  | add8 (dst : CpuRegister) (src : InstructionOperand) (useCarry : Bool)
  | add16 (dst : CpuRegister) (src : InstructionOperand)
  | subtract (src : InstructionOperand) (useCarry : Bool)
  | push (src : CpuRegister)
  | pop (src : CpuRegister)
  | rotateLeftA (useCarry : Bool)
  | rotateLeft (dst : InstructionOperand) (useCarry : Bool)
  | rotateRightA (useCarry : Bool)
  | rotateRight (dst : InstructionOperand) (useCarry : Bool)
  | shiftLeft (dst : InstructionOperand)
  | shiftRight (dst : InstructionOperand) (zero : Bool)
  | ret
  | retIf (flag : CpuFlag) (expected : Bool)
  | reti
  | disableInterrupts
  | enableInterrupts
  | complement
  | swap (dst : InstructionOperand)
  | rst (address : Nat)
  | daa
  | setBit (b : Nat) (dst : InstructionOperand) (set : Bool)
  | spops (op : SPOps)
  | setCarryFlag (toggle : Bool)
  | halt
deriving DecidableEq, Repr

/-- `Instruction::cycles`. -/
def Instruction.cycles : Instruction → Nat
  | .noop => 1
  | .stop => 0
  | .load dst src => 1 + dst.cycles false + src.cycles false
  | .and_ src => 1 + src.cycles false
  | .or_ src => 1 + src.cycles false
  | .xor_ src => 1 + src.cycles false
  | .bit _ src => 2 + src.cycles false
  | .jump dst =>
    match dst with
    | .register _ => 1
    | _ => 4
  | .jumpIf _ _ _ => 3
  | .jumpRelative _ => 3
  | .jumpRelativeIf _ _ _ => 2
  | .increment dst => 1 + dst.cycles true
  | .decrement dst => 1 + dst.cycles true
  | .call _ => 6
  | .callIf _ _ _ => 3
  | .compare dst => 1 + dst.cycles false
  | .add8 _ src _ => 1 + src.cycles false
  | .add16 _ src => 2 + src.cycles false
  | .subtract src _ => 1 + src.cycles false
  | .push _ => 4
  | .pop _ => 3
  | .rotateLeftA _ => 1
  | .rotateLeft dst _ => 2 + dst.cycles true
  | .rotateRightA _ => 1
  | .rotateRight dst _ => 2 + dst.cycles true
  | .shiftRight dst _ => 2 + dst.cycles true
  | .shiftLeft dst => 2 + dst.cycles true
  | .ret => 4
  | .retIf _ _ => 2
  | .reti => 4
  | .disableInterrupts => 1
  | .enableInterrupts => 1
  | .complement => 1
  | .swap dst => 2 + dst.cycles true
  | .rst _ => 4
  | .daa => 1
  | .setBit _ dst _ => 2 + dst.cycles true
  | .spops op => op.cycles
  | .setCarryFlag _ => 1
  | .halt => 1

/-- `src/cpu.rs` `InterruptState`. -/
inductive InterruptState where
  | disabled
  | shouldEnable
  | enabled
deriving DecidableEq, Repr

/-- `src/cpu.rs` `Cpu`. -/
structure Cpu where
  a : Nat
  b : Nat
  c : Nat
  d : Nat
  e : Nat
  h : Nat
  l : Nat
  f : Nat
  sp : Nat
  pc : Nat
  interrupt_state : InterruptState
  halted : Bool
deriving DecidableEq, Repr

/-- `Cpu::new`. -/
def Cpu.new : Cpu :=
  { a := 0, b := 0, c := 0, d := 0, e := 0, h := 0, l := 0, f := 0,
    sp := 0, pc := 0, interrupt_state := .disabled, halted := false }

/-- `Cpu::af`. -/
def Cpu.af (cpu : Cpu) : Nat := (cpu.a <<< 8) ||| cpu.f

/-- `Cpu::set_af` (the low nibble of `F` is always cleared). -/
def Cpu.setAf (cpu : Cpu) (value : Nat) : Cpu :=
  { cpu with a := (value >>> 8) % 256, f := (value % 256) &&& 0xf0 }

/-- `Cpu::bc`. -/
def Cpu.bc (cpu : Cpu) : Nat := (cpu.b <<< 8) ||| cpu.c

/-- `Cpu::set_bc`. -/
def Cpu.setBc (cpu : Cpu) (value : Nat) : Cpu :=
  { cpu with b := (value >>> 8) % 256, c := value % 256 }

/-- `Cpu::de`. -/
def Cpu.de (cpu : Cpu) : Nat := (cpu.d <<< 8) ||| cpu.e

/-- `Cpu::set_de`. -/
def Cpu.setDe (cpu : Cpu) (value : Nat) : Cpu :=
  { cpu with d := (value >>> 8) % 256, e := value % 256 }

/-- `Cpu::hl`. -/
def Cpu.hl (cpu : Cpu) : Nat := (cpu.h <<< 8) ||| cpu.l

/-- `Cpu::set_hl`. -/
def Cpu.setHl (cpu : Cpu) (value : Nat) : Cpu :=
  { cpu with h := (value >>> 8) % 256, l := value % 256 }

/-- `Cpu::get_flag`. -/
def Cpu.getFlag (cpu : Cpu) (flag : CpuFlag) : Bool :=
  cpu.f &&& flag.bit != 0

/-- `Cpu::set_flag`; `!flag.bit()` on `u8` is the 8-bit complement. -/
def Cpu.setFlag (cpu : Cpu) (flag : CpuFlag) (value : Bool) : Cpu :=
  if value then { cpu with f := cpu.f ||| flag.bit }
  else { cpu with f := cpu.f &&& (0xff ^^^ flag.bit) }

/-- Sign extension of an `i8` byte to a `u16` bit pattern
(Rust `b as i8 as u16`). -/
def i8ToU16 (b : Nat) : Nat :=
  if b % 256 < 128 then b % 256 else 0xff00 + b % 256

/-- The `Memory` trait of `src/memory/mod.rs`: a read/write interface over
some state type `σ`. `read` takes `&self` and cannot change the state. -/
structure MemIntf (σ : Type) where
  read : σ → Nat → Res MemoryError Nat
  write : σ → Nat → Nat → Res MemoryError σ

/-- `Cpu::fetch_u8`: read at `pc`, increment `pc` (wrapping). -/
def fetchU8 (M : MemIntf σ) (cpu : Cpu) (m : σ) : Res MemoryError (Nat × Cpu) :=
  match M.read m cpu.pc with
  | .ok ret => .ok (ret, { cpu with pc := (cpu.pc + 1) % 65536 })
  | .err e => .err e
  | .panic => .panic

/-- `Cpu::fetch_u16`: little-endian read of two bytes at `pc`, `pc += 2`. -/
def fetchU16 (M : MemIntf σ) (cpu : Cpu) (m : σ) : Res MemoryError (Nat × Cpu) :=
  match M.read m (cpu.pc + 1) with
  | .ok hi =>
    match M.read m cpu.pc with
    | .ok lo => .ok ((hi <<< 8) ||| lo, { cpu with pc := (cpu.pc + 2) % 65536 })
    | .err e => .err e
    | .panic => .panic
  | .err e => .err e
  | .panic => .panic
/-- Quarter `0x00..=0x3f` of the CB-prefixed opcode table of
`Cpu::fetch_instruction` (`src/cpu.rs`): rotates, shifts and swaps.
The wildcard arm is unreachable for inputs below `0x40`. -/
def decodeCBa (op2 : Nat) (cpu : Cpu) : Res InstructionError (Instruction × Cpu) :=
  match op2 with
  | 0x00 => .ok (.rotateLeft (.register .B) false, cpu)
  | 0x01 => .ok (.rotateLeft (.register .C) false, cpu)
  | 0x02 => .ok (.rotateLeft (.register .D) false, cpu)
  | 0x03 => .ok (.rotateLeft (.register .E) false, cpu)
  | 0x04 => .ok (.rotateLeft (.register .H) false, cpu)
  | 0x05 => .ok (.rotateLeft (.register .L) false, cpu)
  | 0x06 => .ok (.rotateLeft (.memoryLocationRegister .HL) false, cpu)
  | 0x07 => .ok (.rotateLeft (.register .A) false, cpu)
  | 0x08 => .ok (.rotateRight (.register .B) false, cpu)
  | 0x09 => .ok (.rotateRight (.register .C) false, cpu)
  | 0x0a => .ok (.rotateRight (.register .D) false, cpu)
  | 0x0b => .ok (.rotateRight (.register .E) false, cpu)
  | 0x0c => .ok (.rotateRight (.register .H) false, cpu)
  | 0x0d => .ok (.rotateRight (.register .L) false, cpu)
  | 0x0e => .ok (.rotateRight (.memoryLocationRegister .HL) false, cpu)
  | 0x0f => .ok (.rotateRight (.register .A) false, cpu)
  | 0x10 => .ok (.rotateLeft (.register .B) true, cpu)
  | 0x11 => .ok (.rotateLeft (.register .C) true, cpu)
  | 0x12 => .ok (.rotateLeft (.register .D) true, cpu)
  | 0x13 => .ok (.rotateLeft (.register .E) true, cpu)
  | 0x14 => .ok (.rotateLeft (.register .H) true, cpu)
  | 0x15 => .ok (.rotateLeft (.register .L) true, cpu)
  | 0x16 => .ok (.rotateLeft (.memoryLocationRegister .HL) true, cpu)
  | 0x17 => .ok (.rotateLeft (.register .A) true, cpu)
  | 0x18 => .ok (.rotateRight (.register .B) true, cpu)
  | 0x19 => .ok (.rotateRight (.register .C) true, cpu)
  | 0x1a => .ok (.rotateRight (.register .D) true, cpu)
  | 0x1b => .ok (.rotateRight (.register .E) true, cpu)
  | 0x1c => .ok (.rotateRight (.register .H) true, cpu)
  | 0x1d => .ok (.rotateRight (.register .L) true, cpu)
  | 0x1e => .ok (.rotateRight (.memoryLocationRegister .HL) true, cpu)
  | 0x1f => .ok (.rotateRight (.register .A) true, cpu)
  | 0x20 => .ok (.shiftLeft (.register .B), cpu)
  | 0x21 => .ok (.shiftLeft (.register .C), cpu)
  | 0x22 => .ok (.shiftLeft (.register .D), cpu)
  | 0x23 => .ok (.shiftLeft (.register .E), cpu)
  | 0x24 => .ok (.shiftLeft (.register .H), cpu)
  | 0x25 => .ok (.shiftLeft (.register .L), cpu)
  | 0x26 => .ok (.shiftLeft (.memoryLocationRegister .HL), cpu)
  | 0x27 => .ok (.shiftLeft (.register .A), cpu)
  | 0x28 => .ok (.shiftRight (.register .B) false, cpu)
  | 0x29 => .ok (.shiftRight (.register .C) false, cpu)
  | 0x2a => .ok (.shiftRight (.register .D) false, cpu)
  | 0x2b => .ok (.shiftRight (.register .E) false, cpu)
  | 0x2c => .ok (.shiftRight (.register .H) false, cpu)
  | 0x2d => .ok (.shiftRight (.register .L) false, cpu)
  | 0x2e => .ok (.shiftRight (.memoryLocationRegister .HL) false, cpu)
  | 0x2f => .ok (.shiftRight (.register .A) false, cpu)
  | 0x30 => .ok (.swap (.register .B), cpu)
  | 0x31 => .ok (.swap (.register .C), cpu)
  | 0x32 => .ok (.swap (.register .D), cpu)
  | 0x33 => .ok (.swap (.register .E), cpu)
  | 0x34 => .ok (.swap (.register .H), cpu)
  | 0x35 => .ok (.swap (.register .L), cpu)
  | 0x36 => .ok (.swap (.memoryLocationRegister .HL), cpu)
  | 0x37 => .ok (.swap (.register .A), cpu)
  | 0x38 => .ok (.shiftRight (.register .B) true, cpu)
  | 0x39 => .ok (.shiftRight (.register .C) true, cpu)
  | 0x3a => .ok (.shiftRight (.register .D) true, cpu)
  | 0x3b => .ok (.shiftRight (.register .E) true, cpu)
  | 0x3c => .ok (.shiftRight (.register .H) true, cpu)
  | 0x3d => .ok (.shiftRight (.register .L) true, cpu)
  | 0x3e => .ok (.shiftRight (.memoryLocationRegister .HL) true, cpu)
  | 0x3f => .ok (.shiftRight (.register .A) true, cpu)
  | _ => .panic

/-- Quarter `0x40..=0x7f` of the CB-prefixed opcode table: `BIT b, x`. -/
def decodeCBb (op2 : Nat) (cpu : Cpu) : Res InstructionError (Instruction × Cpu) :=
  match op2 with
  | 0x40 => .ok (.bit 0 (.register .B), cpu)
  | 0x41 => .ok (.bit 0 (.register .C), cpu)
  | 0x42 => .ok (.bit 0 (.register .D), cpu)
  | 0x43 => .ok (.bit 0 (.register .E), cpu)
  | 0x44 => .ok (.bit 0 (.register .H), cpu)
  | 0x45 => .ok (.bit 0 (.register .L), cpu)
  | 0x46 => .ok (.bit 0 (.memoryLocationRegister .HL), cpu)
  | 0x47 => .ok (.bit 0 (.register .A), cpu)
  | 0x48 => .ok (.bit 1 (.register .B), cpu)
  | 0x49 => .ok (.bit 1 (.register .C), cpu)
  | 0x4a => .ok (.bit 1 (.register .D), cpu)
  | 0x4b => .ok (.bit 1 (.register .E), cpu)
  | 0x4c => .ok (.bit 1 (.register .H), cpu)
  | 0x4d => .ok (.bit 1 (.register .L), cpu)
  | 0x4e => .ok (.bit 1 (.memoryLocationRegister .HL), cpu)
  | 0x4f => .ok (.bit 1 (.register .A), cpu)
  | 0x50 => .ok (.bit 2 (.register .B), cpu)
  | 0x51 => .ok (.bit 2 (.register .C), cpu)
  | 0x52 => .ok (.bit 2 (.register .D), cpu)
  | 0x53 => .ok (.bit 2 (.register .E), cpu)
  | 0x54 => .ok (.bit 2 (.register .H), cpu)
  | 0x55 => .ok (.bit 2 (.register .L), cpu)
  | 0x56 => .ok (.bit 2 (.memoryLocationRegister .HL), cpu)
  | 0x57 => .ok (.bit 2 (.register .A), cpu)
  | 0x58 => .ok (.bit 3 (.register .B), cpu)
  | 0x59 => .ok (.bit 3 (.register .C), cpu)
  | 0x5a => .ok (.bit 3 (.register .D), cpu)
  | 0x5b => .ok (.bit 3 (.register .E), cpu)
  | 0x5c => .ok (.bit 3 (.register .H), cpu)
  | 0x5d => .ok (.bit 3 (.register .L), cpu)
  | 0x5e => .ok (.bit 3 (.memoryLocationRegister .HL), cpu)
  | 0x5f => .ok (.bit 3 (.register .A), cpu)
  | 0x60 => .ok (.bit 4 (.register .B), cpu)
  | 0x61 => .ok (.bit 4 (.register .C), cpu)
  | 0x62 => .ok (.bit 4 (.register .D), cpu)
  | 0x63 => .ok (.bit 4 (.register .E), cpu)
  | 0x64 => .ok (.bit 4 (.register .H), cpu)
  | 0x65 => .ok (.bit 4 (.register .L), cpu)
  | 0x66 => .ok (.bit 4 (.memoryLocationRegister .HL), cpu)
  | 0x67 => .ok (.bit 4 (.register .A), cpu)
  | 0x68 => .ok (.bit 5 (.register .B), cpu)
  | 0x69 => .ok (.bit 5 (.register .C), cpu)
  | 0x6a => .ok (.bit 5 (.register .D), cpu)
  | 0x6b => .ok (.bit 5 (.register .E), cpu)
  | 0x6c => .ok (.bit 5 (.register .H), cpu)
  | 0x6d => .ok (.bit 5 (.register .L), cpu)
  | 0x6e => .ok (.bit 5 (.memoryLocationRegister .HL), cpu)
  | 0x6f => .ok (.bit 5 (.register .A), cpu)
  | 0x70 => .ok (.bit 6 (.register .B), cpu)
  | 0x71 => .ok (.bit 6 (.register .C), cpu)
  | 0x72 => .ok (.bit 6 (.register .D), cpu)
  | 0x73 => .ok (.bit 6 (.register .E), cpu)
  | 0x74 => .ok (.bit 6 (.register .H), cpu)
  | 0x75 => .ok (.bit 6 (.register .L), cpu)
  | 0x76 => .ok (.bit 6 (.memoryLocationRegister .HL), cpu)
  | 0x77 => .ok (.bit 6 (.register .A), cpu)
  | 0x78 => .ok (.bit 7 (.register .B), cpu)
  | 0x79 => .ok (.bit 7 (.register .C), cpu)
  | 0x7a => .ok (.bit 7 (.register .D), cpu)
  | 0x7b => .ok (.bit 7 (.register .E), cpu)
  | 0x7c => .ok (.bit 7 (.register .H), cpu)
  | 0x7d => .ok (.bit 7 (.register .L), cpu)
  | 0x7e => .ok (.bit 7 (.memoryLocationRegister .HL), cpu)
  | 0x7f => .ok (.bit 7 (.register .A), cpu)
  | _ => .panic

/-- Quarter `0x80..=0xbf` of the CB-prefixed opcode table: `RES b, x`. -/
def decodeCBc (op2 : Nat) (cpu : Cpu) : Res InstructionError (Instruction × Cpu) :=
  match op2 with
  | 0x80 => .ok (.setBit 0 (.register .B) false, cpu)
  | 0x81 => .ok (.setBit 0 (.register .C) false, cpu)
  | 0x82 => .ok (.setBit 0 (.register .D) false, cpu)
  | 0x83 => .ok (.setBit 0 (.register .E) false, cpu)
  | 0x84 => .ok (.setBit 0 (.register .H) false, cpu)
  | 0x85 => .ok (.setBit 0 (.register .L) false, cpu)
  | 0x86 => .ok (.setBit 0 (.memoryLocationRegister .HL) false, cpu)
  | 0x87 => .ok (.setBit 0 (.register .A) false, cpu)
  | 0x88 => .ok (.setBit 1 (.register .B) false, cpu)
  | 0x89 => .ok (.setBit 1 (.register .C) false, cpu)
  | 0x8a => .ok (.setBit 1 (.register .D) false, cpu)
  | 0x8b => .ok (.setBit 1 (.register .E) false, cpu)
  | 0x8c => .ok (.setBit 1 (.register .H) false, cpu)
  | 0x8d => .ok (.setBit 1 (.register .L) false, cpu)
  | 0x8e => .ok (.setBit 1 (.memoryLocationRegister .HL) false, cpu)
  | 0x8f => .ok (.setBit 1 (.register .A) false, cpu)
  | 0x90 => .ok (.setBit 2 (.register .B) false, cpu)
  | 0x91 => .ok (.setBit 2 (.register .C) false, cpu)
  | 0x92 => .ok (.setBit 2 (.register .D) false, cpu)
  | 0x93 => .ok (.setBit 2 (.register .E) false, cpu)
  | 0x94 => .ok (.setBit 2 (.register .H) false, cpu)
  | 0x95 => .ok (.setBit 2 (.register .L) false, cpu)
  | 0x96 => .ok (.setBit 2 (.memoryLocationRegister .HL) false, cpu)
  | 0x97 => .ok (.setBit 2 (.register .A) false, cpu)
  | 0x98 => .ok (.setBit 3 (.register .B) false, cpu)
  | 0x99 => .ok (.setBit 3 (.register .C) false, cpu)
  | 0x9a => .ok (.setBit 3 (.register .D) false, cpu)
  | 0x9b => .ok (.setBit 3 (.register .E) false, cpu)
  | 0x9c => .ok (.setBit 3 (.register .H) false, cpu)
  | 0x9d => .ok (.setBit 3 (.register .L) false, cpu)
  | 0x9e => .ok (.setBit 3 (.memoryLocationRegister .HL) false, cpu)
  | 0x9f => .ok (.setBit 3 (.register .A) false, cpu)
  | 0xa0 => .ok (.setBit 4 (.register .B) false, cpu)
  | 0xa1 => .ok (.setBit 4 (.register .C) false, cpu)
  | 0xa2 => .ok (.setBit 4 (.register .D) false, cpu)
  | 0xa3 => .ok (.setBit 4 (.register .E) false, cpu)
  | 0xa4 => .ok (.setBit 4 (.register .H) false, cpu)
  | 0xa5 => .ok (.setBit 4 (.register .L) false, cpu)
  | 0xa6 => .ok (.setBit 4 (.memoryLocationRegister .HL) false, cpu)
  | 0xa7 => .ok (.setBit 4 (.register .A) false, cpu)
  | 0xa8 => .ok (.setBit 5 (.register .B) false, cpu)
  | 0xa9 => .ok (.setBit 5 (.register .C) false, cpu)
  | 0xaa => .ok (.setBit 5 (.register .D) false, cpu)
  | 0xab => .ok (.setBit 5 (.register .E) false, cpu)
  | 0xac => .ok (.setBit 5 (.register .H) false, cpu)
  | 0xad => .ok (.setBit 5 (.register .L) false, cpu)
  | 0xae => .ok (.setBit 5 (.memoryLocationRegister .HL) false, cpu)
  | 0xaf => .ok (.setBit 5 (.register .A) false, cpu)
  | 0xb0 => .ok (.setBit 6 (.register .B) false, cpu)
  | 0xb1 => .ok (.setBit 6 (.register .C) false, cpu)
  | 0xb2 => .ok (.setBit 6 (.register .D) false, cpu)
  | 0xb3 => .ok (.setBit 6 (.register .E) false, cpu)
  | 0xb4 => .ok (.setBit 6 (.register .H) false, cpu)
  | 0xb5 => .ok (.setBit 6 (.register .L) false, cpu)
  | 0xb6 => .ok (.setBit 6 (.memoryLocationRegister .HL) false, cpu)
  | 0xb7 => .ok (.setBit 6 (.register .A) false, cpu)
  | 0xb8 => .ok (.setBit 7 (.register .B) false, cpu)
  | 0xb9 => .ok (.setBit 7 (.register .C) false, cpu)
  | 0xba => .ok (.setBit 7 (.register .D) false, cpu)
  | 0xbb => .ok (.setBit 7 (.register .E) false, cpu)
  | 0xbc => .ok (.setBit 7 (.register .H) false, cpu)
  | 0xbd => .ok (.setBit 7 (.register .L) false, cpu)
  | 0xbe => .ok (.setBit 7 (.memoryLocationRegister .HL) false, cpu)
  | 0xbf => .ok (.setBit 7 (.register .A) false, cpu)
  | _ => .panic

/-- Quarter `0xc0..=0xff` of the CB-prefixed opcode table: `SET b, x`. -/
def decodeCBd (op2 : Nat) (cpu : Cpu) : Res InstructionError (Instruction × Cpu) :=
  match op2 with
  | 0xc0 => .ok (.setBit 0 (.register .B) true, cpu)
  | 0xc1 => .ok (.setBit 0 (.register .C) true, cpu)
  | 0xc2 => .ok (.setBit 0 (.register .D) true, cpu)
  | 0xc3 => .ok (.setBit 0 (.register .E) true, cpu)
  | 0xc4 => .ok (.setBit 0 (.register .H) true, cpu)
  | 0xc5 => .ok (.setBit 0 (.register .L) true, cpu)
  | 0xc6 => .ok (.setBit 0 (.memoryLocationRegister .HL) true, cpu)
  | 0xc7 => .ok (.setBit 0 (.register .A) true, cpu)
  | 0xc8 => .ok (.setBit 1 (.register .B) true, cpu)
  | 0xc9 => .ok (.setBit 1 (.register .C) true, cpu)
  | 0xca => .ok (.setBit 1 (.register .D) true, cpu)
  | 0xcb => .ok (.setBit 1 (.register .E) true, cpu)
  | 0xcc => .ok (.setBit 1 (.register .H) true, cpu)
  | 0xcd => .ok (.setBit 1 (.register .L) true, cpu)
  | 0xce => .ok (.setBit 1 (.memoryLocationRegister .HL) true, cpu)
  | 0xcf => .ok (.setBit 1 (.register .A) true, cpu)
  | 0xd0 => .ok (.setBit 2 (.register .B) true, cpu)
  | 0xd1 => .ok (.setBit 2 (.register .C) true, cpu)
  | 0xd2 => .ok (.setBit 2 (.register .D) true, cpu)
  | 0xd3 => .ok (.setBit 2 (.register .E) true, cpu)
  | 0xd4 => .ok (.setBit 2 (.register .H) true, cpu)
  | 0xd5 => .ok (.setBit 2 (.register .L) true, cpu)
  | 0xd6 => .ok (.setBit 2 (.memoryLocationRegister .HL) true, cpu)
  | 0xd7 => .ok (.setBit 2 (.register .A) true, cpu)
  | 0xd8 => .ok (.setBit 3 (.register .B) true, cpu)
  | 0xd9 => .ok (.setBit 3 (.register .C) true, cpu)
  | 0xda => .ok (.setBit 3 (.register .D) true, cpu)
  | 0xdb => .ok (.setBit 3 (.register .E) true, cpu)
  | 0xdc => .ok (.setBit 3 (.register .H) true, cpu)
  | 0xdd => .ok (.setBit 3 (.register .L) true, cpu)
  | 0xde => .ok (.setBit 3 (.memoryLocationRegister .HL) true, cpu)
  | 0xdf => .ok (.setBit 3 (.register .A) true, cpu)
  | 0xe0 => .ok (.setBit 4 (.register .B) true, cpu)
  | 0xe1 => .ok (.setBit 4 (.register .C) true, cpu)
  | 0xe2 => .ok (.setBit 4 (.register .D) true, cpu)
  | 0xe3 => .ok (.setBit 4 (.register .E) true, cpu)
  | 0xe4 => .ok (.setBit 4 (.register .H) true, cpu)
  | 0xe5 => .ok (.setBit 4 (.register .L) true, cpu)
  | 0xe6 => .ok (.setBit 4 (.memoryLocationRegister .HL) true, cpu)
  | 0xe7 => .ok (.setBit 4 (.register .A) true, cpu)
  | 0xe8 => .ok (.setBit 5 (.register .B) true, cpu)
  | 0xe9 => .ok (.setBit 5 (.register .C) true, cpu)
  | 0xea => .ok (.setBit 5 (.register .D) true, cpu)
  | 0xeb => .ok (.setBit 5 (.register .E) true, cpu)
  | 0xec => .ok (.setBit 5 (.register .H) true, cpu)
  | 0xed => .ok (.setBit 5 (.register .L) true, cpu)
  | 0xee => .ok (.setBit 5 (.memoryLocationRegister .HL) true, cpu)
  | 0xef => .ok (.setBit 5 (.register .A) true, cpu)
  | 0xf0 => .ok (.setBit 6 (.register .B) true, cpu)
  | 0xf1 => .ok (.setBit 6 (.register .C) true, cpu)
  | 0xf2 => .ok (.setBit 6 (.register .D) true, cpu)
  | 0xf3 => .ok (.setBit 6 (.register .E) true, cpu)
  | 0xf4 => .ok (.setBit 6 (.register .H) true, cpu)
  | 0xf5 => .ok (.setBit 6 (.register .L) true, cpu)
  | 0xf6 => .ok (.setBit 6 (.memoryLocationRegister .HL) true, cpu)
  | 0xf7 => .ok (.setBit 6 (.register .A) true, cpu)
  | 0xf8 => .ok (.setBit 7 (.register .B) true, cpu)
  | 0xf9 => .ok (.setBit 7 (.register .C) true, cpu)
  | 0xfa => .ok (.setBit 7 (.register .D) true, cpu)
  | 0xfb => .ok (.setBit 7 (.register .E) true, cpu)
  | 0xfc => .ok (.setBit 7 (.register .H) true, cpu)
  | 0xfd => .ok (.setBit 7 (.register .L) true, cpu)
  | 0xfe => .ok (.setBit 7 (.memoryLocationRegister .HL) true, cpu)
  | 0xff => .ok (.setBit 7 (.register .A) true, cpu)
  | _ => .panic

/-- The CB-prefixed decode of `Cpu::fetch_instruction`, assembled from its
four quarters; total for every byte `op2 < 0x100`. -/
def decodeCB (op2 : Nat) (cpu : Cpu) : Res InstructionError (Instruction × Cpu) :=
  if op2 < 0x40 then decodeCBa op2 cpu
  else if op2 < 0x80 then decodeCBb op2 cpu
  else if op2 < 0xc0 then decodeCBc op2 cpu
  else decodeCBd op2 cpu

/-- Quarter `0x00..=0x3f` of the primary opcode table of
`Cpu::fetch_instruction` (`src/cpu.rs`). The wildcard arm is unreachable
for inputs below `0x40`. -/
def decodePa (M : MemIntf σ) (opcode : Nat) (cpu : Cpu) (m : σ) : Res InstructionError (Instruction × Cpu) :=
  match opcode with
  | 0x00 => .ok (.noop, cpu)
  | 0x01 =>
    match fetchU16 M cpu m with
    | .ok (v, cpu) => .ok (.load (.register .BC) (.immediate16 v), cpu)
    | .err e => .err (.memErr e)
    | .panic => .panic
  | 0x02 => .ok (.load (.memoryLocationRegister .BC) (.register .A), cpu)
  | 0x03 => .ok (.increment (.register .BC), cpu)
  | 0x04 => .ok (.increment (.register .B), cpu)
  | 0x05 => .ok (.decrement (.register .B), cpu)
  | 0x06 =>
    match fetchU8 M cpu m with
    | .ok (v, cpu) => .ok (.load (.register .B) (.immediate8 v), cpu)
    | .err e => .err (.memErr e)
    | .panic => .panic
  | 0x07 => .ok (.rotateLeftA false, cpu)
  | 0x08 =>
    match fetchU16 M cpu m with
    | .ok (v, cpu) => .ok (.load (.doubleMemoryLocationImmediate16 v) (.register .SP), cpu)
    | .err e => .err (.memErr e)
    | .panic => .panic
  | 0x09 => .ok (.add16 .HL (.register .BC), cpu)
  | 0x0a => .ok (.load (.register .A) (.memoryLocationRegister .BC), cpu)
  | 0x0b => .ok (.decrement (.register .BC), cpu)
  | 0x0c => .ok (.increment (.register .C), cpu)
  | 0x0d => .ok (.decrement (.register .C), cpu)
  | 0x0e =>
    match fetchU8 M cpu m with
    | .ok (v, cpu) => .ok (.load (.register .C) (.immediate8 v), cpu)
    | .err e => .err (.memErr e)
    | .panic => .panic
  | 0x0f => .ok (.rotateRightA false, cpu)
  | 0x10 => .ok (.stop, cpu)
  | 0x11 =>
    match fetchU16 M cpu m with
    | .ok (v, cpu) => .ok (.load (.register .DE) (.immediate16 v), cpu)
    | .err e => .err (.memErr e)
    | .panic => .panic
  | 0x12 => .ok (.load (.memoryLocationRegister .DE) (.register .A), cpu)
  | 0x13 => .ok (.increment (.register .DE), cpu)
  | 0x14 => .ok (.increment (.register .D), cpu)
  | 0x15 => .ok (.decrement (.register .D), cpu)
  | 0x16 =>
    match fetchU8 M cpu m with
    | .ok (v, cpu) => .ok (.load (.register .D) (.immediate8 v), cpu)
    | .err e => .err (.memErr e)
    | .panic => .panic
  | 0x17 => .ok (.rotateLeftA true, cpu)
  | 0x18 =>
    match fetchU8 M cpu m with
    | .ok (v, cpu) => .ok (.jumpRelative v, cpu)
    | .err e => .err (.memErr e)
    | .panic => .panic
  | 0x19 => .ok (.add16 .HL (.register .DE), cpu)
  | 0x1a => .ok (.load (.register .A) (.memoryLocationRegister .DE), cpu)
  | 0x1b => .ok (.decrement (.register .DE), cpu)
  | 0x1c => .ok (.increment (.register .E), cpu)
  | 0x1d => .ok (.decrement (.register .E), cpu)
  | 0x1e =>
    match fetchU8 M cpu m with
    | .ok (v, cpu) => .ok (.load (.register .E) (.immediate8 v), cpu)
    | .err e => .err (.memErr e)
    | .panic => .panic
  | 0x1f => .ok (.rotateRightA true, cpu)
  | 0x20 =>
    match fetchU8 M cpu m with
    | .ok (v, cpu) => .ok (.jumpRelativeIf .zero false v, cpu)
    | .err e => .err (.memErr e)
    | .panic => .panic
  | 0x21 =>
    match fetchU16 M cpu m with
    | .ok (v, cpu) => .ok (.load (.register .HL) (.immediate16 v), cpu)
    | .err e => .err (.memErr e)
    | .panic => .panic
  | 0x22 => .ok (.load (.memoryLocationRegisterIncrement .HL) (.register .A), cpu)
  | 0x23 => .ok (.increment (.register .HL), cpu)
  | 0x24 => .ok (.increment (.register .H), cpu)
  | 0x25 => .ok (.decrement (.register .H), cpu)
  | 0x26 =>
    match fetchU8 M cpu m with
    | .ok (v, cpu) => .ok (.load (.register .H) (.immediate8 v), cpu)
    | .err e => .err (.memErr e)
    | .panic => .panic
  | 0x27 => .ok (.daa, cpu)
  | 0x28 =>
    match fetchU8 M cpu m with
    | .ok (v, cpu) => .ok (.jumpRelativeIf .zero true v, cpu)
    | .err e => .err (.memErr e)
    | .panic => .panic
  | 0x29 => .ok (.add16 .HL (.register .HL), cpu)
  | 0x2a => .ok (.load (.register .A) (.memoryLocationRegisterIncrement .HL), cpu)
  | 0x2b => .ok (.decrement (.register .HL), cpu)
  | 0x2c => .ok (.increment (.register .L), cpu)
  | 0x2d => .ok (.decrement (.register .L), cpu)
  | 0x2e =>
    match fetchU8 M cpu m with
    | .ok (v, cpu) => .ok (.load (.register .L) (.immediate8 v), cpu)
    | .err e => .err (.memErr e)
    | .panic => .panic
  | 0x2f => .ok (.complement, cpu)
  | 0x30 =>
    match fetchU8 M cpu m with
    | .ok (v, cpu) => .ok (.jumpRelativeIf .carry false v, cpu)
    | .err e => .err (.memErr e)
    | .panic => .panic
  | 0x31 =>
    match fetchU16 M cpu m with
    | .ok (v, cpu) => .ok (.load (.register .SP) (.immediate16 v), cpu)
    | .err e => .err (.memErr e)
    | .panic => .panic
  | 0x32 => .ok (.load (.memoryLocationRegisterDecrement .HL) (.register .A), cpu)
  | 0x33 => .ok (.increment (.register .SP), cpu)
  | 0x34 => .ok (.increment (.memoryLocationRegister .HL), cpu)
  | 0x35 => .ok (.decrement (.memoryLocationRegister .HL), cpu)
  | 0x36 =>
    match fetchU8 M cpu m with
    | .ok (v, cpu) => .ok (.load (.memoryLocationRegister .HL) (.immediate8 v), cpu)
    | .err e => .err (.memErr e)
    | .panic => .panic
  | 0x37 => .ok (.setCarryFlag false, cpu)
  | 0x38 =>
    match fetchU8 M cpu m with
    | .ok (v, cpu) => .ok (.jumpRelativeIf .carry true v, cpu)
    | .err e => .err (.memErr e)
    | .panic => .panic
  | 0x39 => .ok (.add16 .HL (.register .SP), cpu)
  | 0x3a => .ok (.load (.register .A) (.memoryLocationRegisterDecrement .HL), cpu)
  | 0x3b => .ok (.decrement (.register .SP), cpu)
  | 0x3c => .ok (.increment (.register .A), cpu)
  | 0x3d => .ok (.decrement (.register .A), cpu)
  | 0x3e =>
    match fetchU8 M cpu m with
    | .ok (v, cpu) => .ok (.load (.register .A) (.immediate8 v), cpu)
    | .err e => .err (.memErr e)
    | .panic => .panic
  | 0x3f => .ok (.setCarryFlag true, cpu)
  | _ => .err (.invalidOpcode opcode)

/-- Quarter `0x40..=0x7f` of the primary opcode table: register loads and
`HALT`. -/
def decodePb (_M : MemIntf σ) (opcode : Nat) (cpu : Cpu) (_m : σ) : Res InstructionError (Instruction × Cpu) :=
  match opcode with
  | 0x40 => .ok (.load (.register .B) (.register .B), cpu)
  | 0x41 => .ok (.load (.register .B) (.register .C), cpu)
  | 0x42 => .ok (.load (.register .B) (.register .D), cpu)
  | 0x43 => .ok (.load (.register .B) (.register .E), cpu)
  | 0x44 => .ok (.load (.register .B) (.register .H), cpu)
  | 0x45 => .ok (.load (.register .B) (.register .L), cpu)
  | 0x46 => .ok (.load (.register .B) (.memoryLocationRegister .HL), cpu)
  | 0x47 => .ok (.load (.register .B) (.register .A), cpu)
  | 0x48 => .ok (.load (.register .C) (.register .B), cpu)
  | 0x49 => .ok (.load (.register .C) (.register .C), cpu)
  | 0x4a => .ok (.load (.register .C) (.register .D), cpu)
  | 0x4b => .ok (.load (.register .C) (.register .E), cpu)
  | 0x4c => .ok (.load (.register .C) (.register .H), cpu)
  | 0x4d => .ok (.load (.register .C) (.register .L), cpu)
  | 0x4e => .ok (.load (.register .C) (.memoryLocationRegister .HL), cpu)
  | 0x4f => .ok (.load (.register .C) (.register .A), cpu)
  | 0x50 => .ok (.load (.register .D) (.register .B), cpu)
  | 0x51 => .ok (.load (.register .D) (.register .C), cpu)
  | 0x52 => .ok (.load (.register .D) (.register .D), cpu)
  | 0x53 => .ok (.load (.register .D) (.register .E), cpu)
  | 0x54 => .ok (.load (.register .D) (.register .H), cpu)
  | 0x55 => .ok (.load (.register .D) (.register .L), cpu)
  | 0x56 => .ok (.load (.register .D) (.memoryLocationRegister .HL), cpu)
  | 0x57 => .ok (.load (.register .D) (.register .A), cpu)
  | 0x58 => .ok (.load (.register .E) (.register .B), cpu)
  | 0x59 => .ok (.load (.register .E) (.register .C), cpu)
  | 0x5a => .ok (.load (.register .E) (.register .D), cpu)
  | 0x5b => .ok (.load (.register .E) (.register .E), cpu)
  | 0x5c => .ok (.load (.register .E) (.register .H), cpu)
  | 0x5d => .ok (.load (.register .E) (.register .L), cpu)
  | 0x5e => .ok (.load (.register .E) (.memoryLocationRegister .HL), cpu)
  | 0x5f => .ok (.load (.register .E) (.register .A), cpu)
  | 0x60 => .ok (.load (.register .H) (.register .B), cpu)
  | 0x61 => .ok (.load (.register .H) (.register .C), cpu)
  | 0x62 => .ok (.load (.register .H) (.register .D), cpu)
  | 0x63 => .ok (.load (.register .H) (.register .E), cpu)
  | 0x64 => .ok (.load (.register .H) (.register .H), cpu)
  | 0x65 => .ok (.load (.register .H) (.register .L), cpu)
  | 0x66 => .ok (.load (.register .H) (.memoryLocationRegister .HL), cpu)
  | 0x67 => .ok (.load (.register .H) (.register .A), cpu)
  | 0x68 => .ok (.load (.register .L) (.register .B), cpu)
  | 0x69 => .ok (.load (.register .L) (.register .C), cpu)
  | 0x6a => .ok (.load (.register .L) (.register .D), cpu)
  | 0x6b => .ok (.load (.register .L) (.register .E), cpu)
  | 0x6c => .ok (.load (.register .L) (.register .H), cpu)
  | 0x6d => .ok (.load (.register .L) (.register .L), cpu)
  | 0x6e => .ok (.load (.register .L) (.memoryLocationRegister .HL), cpu)
  | 0x6f => .ok (.load (.register .L) (.register .A), cpu)
  | 0x70 => .ok (.load (.memoryLocationRegister .HL) (.register .B), cpu)
  | 0x71 => .ok (.load (.memoryLocationRegister .HL) (.register .C), cpu)
  | 0x72 => .ok (.load (.memoryLocationRegister .HL) (.register .D), cpu)
  | 0x73 => .ok (.load (.memoryLocationRegister .HL) (.register .E), cpu)
  | 0x74 => .ok (.load (.memoryLocationRegister .HL) (.register .H), cpu)
  | 0x75 => .ok (.load (.memoryLocationRegister .HL) (.register .L), cpu)
  | 0x76 => .ok (.halt, cpu)
  | 0x77 => .ok (.load (.memoryLocationRegister .HL) (.register .A), cpu)
  | 0x78 => .ok (.load (.register .A) (.register .B), cpu)
  | 0x79 => .ok (.load (.register .A) (.register .C), cpu)
  | 0x7a => .ok (.load (.register .A) (.register .D), cpu)
  | 0x7b => .ok (.load (.register .A) (.register .E), cpu)
  | 0x7c => .ok (.load (.register .A) (.register .H), cpu)
  | 0x7d => .ok (.load (.register .A) (.register .L), cpu)
  | 0x7e => .ok (.load (.register .A) (.memoryLocationRegister .HL), cpu)
  | 0x7f => .ok (.load (.register .A) (.register .A), cpu)
  | _ => .err (.invalidOpcode opcode)

/-- Quarter `0x80..=0xbf` of the primary opcode table: 8-bit ALU. -/
def decodePc (_M : MemIntf σ) (opcode : Nat) (cpu : Cpu) (_m : σ) : Res InstructionError (Instruction × Cpu) :=
  match opcode with
  | 0x80 => .ok (.add8 .A (.register .B) false, cpu)
  | 0x81 => .ok (.add8 .A (.register .C) false, cpu)
  | 0x82 => .ok (.add8 .A (.register .D) false, cpu)
  | 0x83 => .ok (.add8 .A (.register .E) false, cpu)
  | 0x84 => .ok (.add8 .A (.register .H) false, cpu)
  | 0x85 => .ok (.add8 .A (.register .L) false, cpu)
  | 0x86 => .ok (.add8 .A (.memoryLocationRegister .HL) false, cpu)
  | 0x87 => .ok (.add8 .A (.register .A) false, cpu)
  | 0x88 => .ok (.add8 .A (.register .B) true, cpu)
  | 0x89 => .ok (.add8 .A (.register .C) true, cpu)
  | 0x8a => .ok (.add8 .A (.register .D) true, cpu)
  | 0x8b => .ok (.add8 .A (.register .E) true, cpu)
  | 0x8c => .ok (.add8 .A (.register .H) true, cpu)
  | 0x8d => .ok (.add8 .A (.register .L) true, cpu)
  | 0x8e => .ok (.add8 .A (.memoryLocationRegister .HL) true, cpu)
  | 0x8f => .ok (.add8 .A (.register .A) true, cpu)
  | 0x90 => .ok (.subtract (.register .B) false, cpu)
  | 0x91 => .ok (.subtract (.register .C) false, cpu)
  | 0x92 => .ok (.subtract (.register .D) false, cpu)
  | 0x93 => .ok (.subtract (.register .E) false, cpu)
  | 0x94 => .ok (.subtract (.register .H) false, cpu)
  | 0x95 => .ok (.subtract (.register .L) false, cpu)
  | 0x96 => .ok (.subtract (.memoryLocationRegister .HL) false, cpu)
  | 0x97 => .ok (.subtract (.register .A) false, cpu)
  | 0x98 => .ok (.subtract (.register .B) true, cpu)
  | 0x99 => .ok (.subtract (.register .C) true, cpu)
  | 0x9a => .ok (.subtract (.register .D) true, cpu)
  | 0x9b => .ok (.subtract (.register .E) true, cpu)
  | 0x9c => .ok (.subtract (.register .H) true, cpu)
  | 0x9d => .ok (.subtract (.register .L) true, cpu)
  | 0x9e => .ok (.subtract (.memoryLocationRegister .HL) true, cpu)
  | 0x9f => .ok (.subtract (.register .A) true, cpu)
  | 0xa0 => .ok (.and_ (.register .B), cpu)
  | 0xa1 => .ok (.and_ (.register .C), cpu)
  | 0xa2 => .ok (.and_ (.register .D), cpu)
  | 0xa3 => .ok (.and_ (.register .E), cpu)
  | 0xa4 => .ok (.and_ (.register .H), cpu)
  | 0xa5 => .ok (.and_ (.register .L), cpu)
  | 0xa6 => .ok (.and_ (.memoryLocationRegister .HL), cpu)
  | 0xa7 => .ok (.and_ (.register .A), cpu)
  | 0xa8 => .ok (.xor_ (.register .B), cpu)
  | 0xa9 => .ok (.xor_ (.register .C), cpu)
  | 0xaa => .ok (.xor_ (.register .D), cpu)
  | 0xab => .ok (.xor_ (.register .E), cpu)
  | 0xac => .ok (.xor_ (.register .H), cpu)
  | 0xad => .ok (.xor_ (.register .L), cpu)
  | 0xae => .ok (.xor_ (.memoryLocationRegister .HL), cpu)
  | 0xaf => .ok (.xor_ (.register .A), cpu)
  | 0xb0 => .ok (.or_ (.register .B), cpu)
  | 0xb1 => .ok (.or_ (.register .C), cpu)
  | 0xb2 => .ok (.or_ (.register .D), cpu)
  | 0xb3 => .ok (.or_ (.register .E), cpu)
  | 0xb4 => .ok (.or_ (.register .H), cpu)
  | 0xb5 => .ok (.or_ (.register .L), cpu)
  | 0xb6 => .ok (.or_ (.memoryLocationRegister .HL), cpu)
  | 0xb7 => .ok (.or_ (.register .A), cpu)
  | 0xb8 => .ok (.compare (.register .B), cpu)
  | 0xb9 => .ok (.compare (.register .C), cpu)
  | 0xba => .ok (.compare (.register .D), cpu)
  | 0xbb => .ok (.compare (.register .E), cpu)
  | 0xbc => .ok (.compare (.register .H), cpu)
  | 0xbd => .ok (.compare (.register .L), cpu)
  | 0xbe => .ok (.compare (.memoryLocationRegister .HL), cpu)
  | 0xbf => .ok (.compare (.register .A), cpu)
  | _ => .err (.invalidOpcode opcode)

/-- Quarter `0xc0..=0xff` of the primary opcode table, including the
`0xcb` prefix dispatch; the wildcard arm yields the source's
`InvalidOpcode` error, reached exactly at the eleven undefined opcodes. -/
def decodePd (M : MemIntf σ) (opcode : Nat) (cpu : Cpu) (m : σ) : Res InstructionError (Instruction × Cpu) :=
  match opcode with
  | 0xc0 => .ok (.retIf .zero false, cpu)
  | 0xc1 => .ok (.pop .BC, cpu)
  | 0xc2 =>
    match fetchU16 M cpu m with
    | .ok (v, cpu) => .ok (.jumpIf .zero false v, cpu)
    | .err e => .err (.memErr e)
    | .panic => .panic
  | 0xc3 =>
    match fetchU16 M cpu m with
    | .ok (v, cpu) => .ok (.jump (.immediate16 v), cpu)
    | .err e => .err (.memErr e)
    | .panic => .panic
  | 0xc4 =>
    match fetchU16 M cpu m with
    | .ok (v, cpu) => .ok (.callIf .zero false v, cpu)
    | .err e => .err (.memErr e)
    | .panic => .panic
  | 0xc5 => .ok (.push .BC, cpu)
  | 0xc6 =>
    match fetchU8 M cpu m with
    | .ok (v, cpu) => .ok (.add8 .A (.immediate8 v) false, cpu)
    | .err e => .err (.memErr e)
    | .panic => .panic
  | 0xc7 => .ok (.rst 0, cpu)
  | 0xc8 => .ok (.retIf .zero true, cpu)
  | 0xc9 => .ok (.ret, cpu)
  | 0xca =>
    match fetchU16 M cpu m with
    | .ok (v, cpu) => .ok (.jumpIf .zero true v, cpu)
    | .err e => .err (.memErr e)
    | .panic => .panic
  | 0xcb =>
    match fetchU8 M cpu m with
    | .ok (op2, cpu) => decodeCB op2 cpu
    | .err e => .err (.memErr e)
    | .panic => .panic
  | 0xcc =>
    match fetchU16 M cpu m with
    | .ok (v, cpu) => .ok (.callIf .zero true v, cpu)
    | .err e => .err (.memErr e)
    | .panic => .panic
  | 0xcd =>
    match fetchU16 M cpu m with
    | .ok (v, cpu) => .ok (.call v, cpu)
    | .err e => .err (.memErr e)
    | .panic => .panic
  | 0xce =>
    match fetchU8 M cpu m with
    | .ok (v, cpu) => .ok (.add8 .A (.immediate8 v) true, cpu)
    | .err e => .err (.memErr e)
    | .panic => .panic
  | 0xcf => .ok (.rst 1, cpu)
  | 0xd0 => .ok (.retIf .carry false, cpu)
  | 0xd1 => .ok (.pop .DE, cpu)
  | 0xd2 =>
    match fetchU16 M cpu m with
    | .ok (v, cpu) => .ok (.jumpIf .carry false v, cpu)
    | .err e => .err (.memErr e)
    | .panic => .panic
  | 0xd4 =>
    match fetchU16 M cpu m with
    | .ok (v, cpu) => .ok (.callIf .carry false v, cpu)
    | .err e => .err (.memErr e)
    | .panic => .panic
  | 0xd5 => .ok (.push .DE, cpu)
  | 0xd6 =>
    match fetchU8 M cpu m with
    | .ok (v, cpu) => .ok (.subtract (.immediate8 v) false, cpu)
    | .err e => .err (.memErr e)
    | .panic => .panic
  | 0xd7 => .ok (.rst 2, cpu)
  | 0xd8 => .ok (.retIf .carry true, cpu)
  | 0xd9 => .ok (.reti, cpu)
  | 0xda =>
    match fetchU16 M cpu m with
    | .ok (v, cpu) => .ok (.jumpIf .carry true v, cpu)
    | .err e => .err (.memErr e)
    | .panic => .panic
  | 0xdc =>
    match fetchU16 M cpu m with
    | .ok (v, cpu) => .ok (.callIf .carry true v, cpu)
    | .err e => .err (.memErr e)
    | .panic => .panic
  | 0xde =>
    match fetchU8 M cpu m with
    | .ok (v, cpu) => .ok (.subtract (.immediate8 v) true, cpu)
    | .err e => .err (.memErr e)
    | .panic => .panic
  | 0xdf => .ok (.rst 3, cpu)
  | 0xe0 =>
    match fetchU8 M cpu m with
    | .ok (v, cpu) => .ok (.load (.offsetMemoryLocationImmediate8 0xff00 v) (.register .A), cpu)
    | .err e => .err (.memErr e)
    | .panic => .panic
  | 0xe1 => .ok (.pop .HL, cpu)
  | 0xe2 => .ok (.load (.offsetMemoryLocationRegister 0xff00 .C) (.register .A), cpu)
  | 0xe5 => .ok (.push .HL, cpu)
  | 0xe6 =>
    match fetchU8 M cpu m with
    | .ok (v, cpu) => .ok (.and_ (.immediate8 v), cpu)
    | .err e => .err (.memErr e)
    | .panic => .panic
  | 0xe7 => .ok (.rst 4, cpu)
  | 0xe8 =>
    match fetchU8 M cpu m with
    | .ok (v, cpu) => .ok (.spops (.addOffset v), cpu)
    | .err e => .err (.memErr e)
    | .panic => .panic
  | 0xe9 => .ok (.jump (.register .HL), cpu)
  | 0xea =>
    match fetchU16 M cpu m with
    | .ok (v, cpu) => .ok (.load (.memoryLocationImmediate16 v) (.register .A), cpu)
    | .err e => .err (.memErr e)
    | .panic => .panic
  | 0xee =>
    match fetchU8 M cpu m with
    | .ok (v, cpu) => .ok (.xor_ (.immediate8 v), cpu)
    | .err e => .err (.memErr e)
    | .panic => .panic
  | 0xef => .ok (.rst 5, cpu)
  | 0xf0 =>
    match fetchU8 M cpu m with
    | .ok (v, cpu) => .ok (.load (.register .A) (.offsetMemoryLocationImmediate8 0xff00 v), cpu)
    | .err e => .err (.memErr e)
    | .panic => .panic
  | 0xf1 => .ok (.pop .AF, cpu)
  | 0xf2 => .ok (.load (.register .A) (.offsetMemoryLocationRegister 0xff00 .C), cpu)
  | 0xf3 => .ok (.disableInterrupts, cpu)
  | 0xf5 => .ok (.push .AF, cpu)
  | 0xf6 =>
    match fetchU8 M cpu m with
    | .ok (v, cpu) => .ok (.or_ (.immediate8 v), cpu)
    | .err e => .err (.memErr e)
    | .panic => .panic
  | 0xf7 => .ok (.rst 6, cpu)
  | 0xf8 =>
    match fetchU8 M cpu m with
    | .ok (v, cpu) => .ok (.spops (.loadIntoHL v), cpu)
    | .err e => .err (.memErr e)
    | .panic => .panic
  | 0xf9 => .ok (.spops .loadFromHL, cpu)
  | 0xfa =>
    match fetchU16 M cpu m with
    | .ok (v, cpu) => .ok (.load (.register .A) (.memoryLocationImmediate16 v), cpu)
    | .err e => .err (.memErr e)
    | .panic => .panic
  | 0xfb => .ok (.enableInterrupts, cpu)
  | 0xfe =>
    match fetchU8 M cpu m with
    | .ok (v, cpu) => .ok (.compare (.immediate8 v), cpu)
    | .err e => .err (.memErr e)
    | .panic => .panic
  | 0xff => .ok (.rst 7, cpu)
  | _ => .err (.invalidOpcode opcode)

/-- `Cpu::fetch_instruction` (`src/cpu.rs`): fetch the opcode byte at `pc`
and decode it (fetching any immediate operands), assembled from the four
quarters of the source's 256-entry match. Undefined opcodes produce
`InstructionError.invalidOpcode`. -/
def fetchInstruction (M : MemIntf σ) (cpu : Cpu) (m : σ) : Res InstructionError (Instruction × Cpu) :=
  match fetchU8 M cpu m with
  | .err e => .err (.memErr e)
  | .panic => .panic
  | .ok (opcode, cpu) =>
    if opcode < 0x40 then decodePa M opcode cpu m
    else if opcode < 0x80 then decodePb M opcode cpu m
    else if opcode < 0xc0 then decodePc M opcode cpu m
    else decodePd M opcode cpu m

/-- `src/cpu.rs` `CpuError`. -/
inductive CpuError where
  | operandSizeMismatch (operand : InstructionOperand) (op : MemoryOperation)
  | immediateSizeMismatch
  | immediateWrite
  | memErr (e : MemoryError)
  | instrErr (e : InstructionError)
deriving DecidableEq, Repr

/-- Lift a memory-layer outcome into the CPU error domain (Rust's
`#[from]` conversion applied by `?`). -/
def Res.liftMem : Res MemoryError α → Res CpuError α
  | .ok a => .ok a
  | .err e => .err (.memErr e)
  | .panic => .panic

/-- Lift an instruction-fetch outcome into the CPU error domain. -/
def Res.liftInstr : Res InstructionError α → Res CpuError α
  | .ok a => .ok a
  | .err e => .err (.instrErr e)
  | .panic => .panic

/-- 8-bit wrapping add. -/
def wadd8 (x y : Nat) : Nat := (x + y) % 256

/-- 8-bit wrapping subtraction (`u8::wrapping_sub`). -/
def wsub8 (x y : Nat) : Nat := (x % 256 + 256 - y % 256) % 256

/-- 16-bit wrapping add. -/
def wadd16 (x y : Nat) : Nat := (x + y) % 65536

/-- 16-bit wrapping subtraction. -/
def wsub16 (x y : Nat) : Nat := (x % 65536 + 65536 - y % 65536) % 65536

/-- `Cpu::get_reg_u8`: 16-bit registers are an `OperandSizeMismatch`. -/
def Cpu.getRegU8 (cpu : Cpu) (reg : CpuRegister) : Res CpuError Nat :=
  match reg with
  | .A => .ok cpu.a
  | .B => .ok cpu.b
  | .C => .ok cpu.c
  | .D => .ok cpu.d
  | .E => .ok cpu.e
  | .H => .ok cpu.h
  | .L => .ok cpu.l
  | .F => .ok cpu.f
  | _ => .err (.operandSizeMismatch (.register reg) .read)

/-- `Cpu::set_reg_u8`: never fails; pair registers take the zero-extended
byte, `F` keeps only its high nibble. -/
def Cpu.setRegU8 (cpu : Cpu) (reg : CpuRegister) (value : Nat) : Cpu :=
  match reg with
  | .A => { cpu with a := value }
  | .B => { cpu with b := value }
  | .C => { cpu with c := value }
  | .D => { cpu with d := value }
  | .E => { cpu with e := value }
  | .H => { cpu with h := value }
  | .L => { cpu with l := value }
  | .F => { cpu with f := value &&& 0xf0 }
  | .AF => cpu.setAf (value % 65536)
  | .BC => cpu.setBc (value % 65536)
  | .DE => cpu.setDe (value % 65536)
  | .HL => cpu.setHl (value % 65536)
  | .SP => { cpu with sp := value % 65536 }

/-- `Cpu::get_reg_u16`: byte registers are zero-extended. -/
def Cpu.getRegU16 (cpu : Cpu) (reg : CpuRegister) : Res CpuError Nat :=
  match reg with
  | .A => .ok cpu.a
  | .B => .ok cpu.b
  | .C => .ok cpu.c
  | .D => .ok cpu.d
  | .E => .ok cpu.e
  | .H => .ok cpu.h
  | .L => .ok cpu.l
  | .F => .ok cpu.f
  | .AF => .ok cpu.af
  | .BC => .ok cpu.bc
  | .DE => .ok cpu.de
  | .HL => .ok cpu.hl
  | .SP => .ok cpu.sp

/-- `Cpu::set_reg_u16`: 8-bit registers are an `OperandSizeMismatch`. -/
def Cpu.setRegU16 (cpu : Cpu) (reg : CpuRegister) (value : Nat) : Res CpuError Cpu :=
  match reg with
  | .AF => .ok (cpu.setAf value)
  | .BC => .ok (cpu.setBc value)
  | .DE => .ok (cpu.setDe value)
  | .HL => .ok (cpu.setHl value)
  | .SP => .ok { cpu with sp := value }
  | _ => .err (.operandSizeMismatch (.register reg) .write)

/-- `Cpu::get_u8` over a `Memory`: reads never change the memory state, but
the pre/post-increment addressing modes update a register pair. -/
def getU8 (M : MemIntf σ) (cpu : Cpu) (m : σ) (operand : InstructionOperand) :
    Res CpuError (Nat × Cpu) :=
  match operand with
  | .register reg => do pure ((← cpu.getRegU8 reg), cpu)
  | .immediate8 val => .ok (val, cpu)
  | .immediate16 _ => .err .immediateSizeMismatch
  | .offsetMemoryLocationRegister offset reg => do
    let r ← cpu.getRegU16 reg
    let v ← (M.read m (wadd16 r offset)).liftMem
    pure (v, cpu)
  | .memoryLocationRegister reg => do
    let r ← cpu.getRegU16 reg
    let v ← (M.read m r).liftMem
    pure (v, cpu)
  | .memoryLocationRegisterDecrement reg => do
    let r ← cpu.getRegU16 reg
    let value ← (M.read m r).liftMem
    let r2 ← cpu.getRegU16 reg
    let cpu ← cpu.setRegU16 reg (wsub16 r2 1)
    pure (value, cpu)
  | .memoryLocationRegisterIncrement reg => do
    let r ← cpu.getRegU16 reg
    let value ← (M.read m r).liftMem
    let r2 ← cpu.getRegU16 reg
    let cpu ← cpu.setRegU16 reg (wadd16 r2 1)
    pure (value, cpu)
  | .offsetMemoryLocationImmediate8 offset address => do
    let v ← (M.read m (offset + address)).liftMem
    pure (v, cpu)
  | .memoryLocationImmediate16 address => do
    let v ← (M.read m address).liftMem
    pure (v, cpu)
  | .doubleMemoryLocationImmediate16 _ =>
    .err (.operandSizeMismatch operand .read)

/-- `Cpu::set_u8`. -/
def setU8 (M : MemIntf σ) (cpu : Cpu) (m : σ) (operand : InstructionOperand)
    (value : Nat) : Res CpuError (Cpu × σ) :=
  match operand with
  | .register reg => .ok (cpu.setRegU8 reg value, m)
  | .offsetMemoryLocationRegister offset reg => do
    let r ← cpu.getRegU16 reg
    let m ← (M.write m (wadd16 r offset) value).liftMem
    pure (cpu, m)
  | .memoryLocationRegister reg => do
    let r ← cpu.getRegU16 reg
    let m ← (M.write m r value).liftMem
    pure (cpu, m)
  | .memoryLocationRegisterDecrement reg => do
    let r ← cpu.getRegU16 reg
    let m ← (M.write m r value).liftMem
    let r2 ← cpu.getRegU16 reg
    let cpu ← cpu.setRegU16 reg (wsub16 r2 1)
    pure (cpu, m)
  | .memoryLocationRegisterIncrement reg => do
    let r ← cpu.getRegU16 reg
    let m ← (M.write m r value).liftMem
    let r2 ← cpu.getRegU16 reg
    let cpu ← cpu.setRegU16 reg (wadd16 r2 1)
    pure (cpu, m)
  | .offsetMemoryLocationImmediate8 offset address => do
    let m ← (M.write m (offset + address) value).liftMem
    pure (cpu, m)
  | .memoryLocationImmediate16 address => do
    let m ← (M.write m address value).liftMem
    pure (cpu, m)
  | .doubleMemoryLocationImmediate16 _ =>
    .err (.operandSizeMismatch operand .write)
  | .immediate8 _ => .err .immediateWrite
  | .immediate16 _ => .err .immediateWrite

/-- `Cpu::get_u16`; byte reads are zero-extended, the double-immediate
form reads little-endian (`lo + (hi << 8)`). -/
def getU16 (M : MemIntf σ) (cpu : Cpu) (m : σ) (operand : InstructionOperand) :
    Res CpuError (Nat × Cpu) :=
  match operand with
  | .register reg => do pure ((← cpu.getRegU16 reg), cpu)
  | .immediate8 val => .ok (val, cpu)
  | .immediate16 val => .ok (val, cpu)
  | .offsetMemoryLocationRegister offset reg => do
    let r ← cpu.getRegU16 reg
    let v ← (M.read m (wadd16 r offset)).liftMem
    pure (v, cpu)
  | .memoryLocationRegister reg => do
    let r ← cpu.getRegU16 reg
    let v ← (M.read m r).liftMem
    pure (v, cpu)
  | .memoryLocationRegisterDecrement reg => do
    let r ← cpu.getRegU16 reg
    let value ← (M.read m r).liftMem
    let r2 ← cpu.getRegU16 reg
    let cpu ← cpu.setRegU16 reg (wsub16 r2 1)
    pure (value, cpu)
  | .memoryLocationRegisterIncrement reg => do
    let r ← cpu.getRegU16 reg
    let value ← (M.read m r).liftMem
    let r2 ← cpu.getRegU16 reg
    let cpu ← cpu.setRegU16 reg (wadd16 r2 1)
    pure (value, cpu)
  | .offsetMemoryLocationImmediate8 offset address => do
    let v ← (M.read m (offset + address)).liftMem
    pure (v, cpu)
  | .memoryLocationImmediate16 address => do
    let v ← (M.read m address).liftMem
    pure (v, cpu)
  | .doubleMemoryLocationImmediate16 address => do
    let lo ← (M.read m address).liftMem
    let hi ← (M.read m (address + 1)).liftMem
    pure (lo + (hi <<< 8), cpu)

/-- `Cpu::set_u16`. -/
def setU16 (M : MemIntf σ) (cpu : Cpu) (m : σ) (operand : InstructionOperand)
    (value : Nat) : Res CpuError (Cpu × σ) :=
  match operand with
  | .register reg => do pure ((← cpu.setRegU16 reg value), m)
  | .doubleMemoryLocationImmediate16 address => do
    let m ← (M.write m address (value % 256)).liftMem
    let m ← (M.write m (address + 1) ((value >>> 8) % 256)).liftMem
    pure (cpu, m)
  | .immediate8 _ => .err .immediateWrite
  | .immediate16 _ => .err .immediateWrite
  | _ => .err (.operandSizeMismatch operand .write)

/-- `Cpu::pop_u16`: two reads at `sp`, incrementing (wrapping) after each. -/
def popU16 (M : MemIntf σ) (cpu : Cpu) (m : σ) : Res MemoryError (Nat × Cpu) := do
  let lo ← M.read m cpu.sp
  let sp1 := wadd16 cpu.sp 1
  let hi ← M.read m sp1
  let sp2 := wadd16 sp1 1
  pure ((hi <<< 8) ||| lo, { cpu with sp := sp2 })

/-- `Cpu::push_u16`: decrement `sp` (wrapping) and write the high byte,
then again for the low byte. -/
def pushU16 (M : MemIntf σ) (cpu : Cpu) (m : σ) (value : Nat) :
    Res MemoryError (Cpu × σ) := do
  let hi := (value >>> 8) % 256
  let lo := value % 256
  let sp1 := wsub16 cpu.sp 1
  let m ← M.write m sp1 hi
  let sp2 := wsub16 sp1 1
  let m ← M.write m sp2 lo
  pure ({ cpu with sp := sp2 }, m)

/-- `Cpu::offset_sp`: add a sign-extended byte to `SP`, computing H and C
from the XOR of the 16-bit patterns (bits 4 and 8); returns the updated
flags and the new `SP` value. -/
def Cpu.offsetSp (cpu : Cpu) (offset : Nat) : Cpu × Nat :=
  let s := cpu.sp % 65536
  let off := i8ToU16 offset
  let signedResult := (s + off) % 65536
  let cpu := cpu.setFlag .zero false
  let cpu := cpu.setFlag .subtraction false
  let cpu := cpu.setFlag .halfCarry (((s ^^^ signedResult ^^^ off) &&& 0x10) != 0)
  let cpu := cpu.setFlag .carry (((s ^^^ signedResult ^^^ off) &&& 0x100) != 0)
  (cpu, signedResult)

/-- `Cpu::subtract_a`: `A - value - carry` with the SUB/CP/SBC flag rules;
returns the updated flags and the 8-bit result. -/
def Cpu.subtractA (cpu : Cpu) (value : Nat) (carry : Bool) : Cpu × Nat :=
  let c := if carry then 1 else 0
  let result := wsub8 (wsub8 cpu.a value) c
  let cpu := cpu.setFlag .zero (result == 0)
  let cpu := cpu.setFlag .subtraction true
  let cpu := cpu.setFlag .halfCarry
    ((wsub8 (wsub8 (cpu.a &&& 0xf) (value &&& 0xf)) c) &&& 0x10 != 0)
  let cpu := cpu.setFlag .carry (cpu.a < value + c)
  (cpu, result)

/-- `Cpu::exec_instruction` (`src/cpu.rs`): first promote a pending
`ShouldEnable` interrupt state to `Enabled`, then execute the instruction,
returning the charged M-cycle count together with the updated CPU and
memory. `STOP` panics, conditional branches add their extra cycles. -/
def execInstruction (M : MemIntf σ) (cpu : Cpu) (m : σ) (instruction : Instruction) :
    Res CpuError (Nat × Cpu × σ) :=
  let cpu := if cpu.interrupt_state = .shouldEnable then
    { cpu with interrupt_state := .enabled } else cpu
  let cycles := instruction.cycles
  match instruction with
  | .noop => .ok (cycles, cpu, m)
  | .stop => .panic
  | .load dst src =>
    if dst.is16bit then do
      let (val, cpu) ← getU16 M cpu m src
      let (cpu, m) ← setU16 M cpu m dst val
      pure (cycles, cpu, m)
    else do
      let (val, cpu) ← getU8 M cpu m src
      let (cpu, m) ← setU8 M cpu m dst val
      pure (cycles, cpu, m)
  | .and_ src => do
    let (v, cpu) ← getU8 M cpu m src
    let cpu := { cpu with a := cpu.a &&& v }
    let cpu := cpu.setFlag .zero (cpu.a == 0)
    let cpu := cpu.setFlag .subtraction false
    let cpu := cpu.setFlag .halfCarry true
    let cpu := cpu.setFlag .carry false
    pure (cycles, cpu, m)
  | .or_ src => do
    let (v, cpu) ← getU8 M cpu m src
    let cpu := { cpu with a := cpu.a ||| v }
    let cpu := cpu.setFlag .zero (cpu.a == 0)
    let cpu := cpu.setFlag .subtraction false
    let cpu := cpu.setFlag .halfCarry false
    let cpu := cpu.setFlag .carry false
    pure (cycles, cpu, m)
  | .xor_ src => do
    let (v, cpu) ← getU8 M cpu m src
    let cpu := { cpu with a := cpu.a ^^^ v }
    let cpu := cpu.setFlag .zero (cpu.a == 0)
    let cpu := cpu.setFlag .subtraction false
    let cpu := cpu.setFlag .halfCarry false
    let cpu := cpu.setFlag .carry false
    pure (cycles, cpu, m)
  | .bit b src => do
    let (v, cpu) ← getU8 M cpu m src
    let set := v &&& (1 <<< b) != 0
    let cpu := cpu.setFlag .zero (!set)
    let cpu := cpu.setFlag .subtraction false
    let cpu := cpu.setFlag .halfCarry true
    pure (cycles, cpu, m)
  | .jump dst => do
    let (v, cpu) ← getU16 M cpu m dst
    pure (cycles, { cpu with pc := v }, m)
  | .jumpIf flag expected address =>
    if cpu.getFlag flag == expected then
      .ok (cycles + 1, { cpu with pc := address }, m)
    else .ok (cycles, cpu, m)
  | .jumpRelative offset =>
    .ok (cycles, { cpu with pc := wadd16 cpu.pc (i8ToU16 offset) }, m)
  | .jumpRelativeIf flag expected offset =>
    if cpu.getFlag flag == expected then
      .ok (cycles + 1, { cpu with pc := wadd16 cpu.pc (i8ToU16 offset) }, m)
    else .ok (cycles, cpu, m)
  | .increment dst =>
    if dst.is16bit then do
      let (v, cpu) ← getU16 M cpu m dst
      let (cpu, m) ← setU16 M cpu m dst (wadd16 v 1)
      pure (cycles, cpu, m)
    else do
      let (ov, cpu) ← getU8 M cpu m dst
      let val := wadd8 ov 1
      let (cpu, m) ← setU8 M cpu m dst val
      let cpu := cpu.setFlag .zero (val == 0)
      let cpu := cpu.setFlag .subtraction false
      let cpu := cpu.setFlag .halfCarry (ov &&& 0x10 != val &&& 0x10)
      pure (cycles, cpu, m)
  | .decrement dst =>
    if dst.is16bit then do
      let (v, cpu) ← getU16 M cpu m dst
      let (cpu, m) ← setU16 M cpu m dst (wsub16 v 1)
      pure (cycles, cpu, m)
    else do
      let (ov, cpu) ← getU8 M cpu m dst
      let val := wsub8 ov 1
      let (cpu, m) ← setU8 M cpu m dst val
      let cpu := cpu.setFlag .zero (val == 0)
      let cpu := cpu.setFlag .subtraction true
      let cpu := cpu.setFlag .halfCarry (ov &&& 0xf == 0)
      pure (cycles, cpu, m)
  | .call address => do
    let (cpu, m) ← (pushU16 M cpu m cpu.pc).liftMem
    pure (cycles, { cpu with pc := address }, m)
  | .callIf flag expected address =>
    if cpu.getFlag flag == expected then do
      let (cpu, m) ← (pushU16 M cpu m cpu.pc).liftMem
      pure (cycles + 3, { cpu with pc := address }, m)
    else .ok (cycles, cpu, m)
  | .push reg => do
    let value ← cpu.getRegU16 reg
    let (cpu, m) ← (pushU16 M cpu m value).liftMem
    pure (cycles, cpu, m)
  | .pop reg => do
    let (value, cpu) ← (popU16 M cpu m).liftMem
    let cpu ← cpu.setRegU16 reg value
    pure (cycles, cpu, m)
  | .rotateLeft dst useCarry => do
    let (previous, cpu) ← getU8 M cpu m dst
    let bitv := if useCarry then (if cpu.getFlag .carry then 1 else 0)
      else (previous &&& 0x80) >>> 7
    let cpu := cpu.setFlag .carry (previous &&& 0x80 != 0)
    let value := ((previous <<< 1) % 256) ||| bitv
    let (cpu, m) ← setU8 M cpu m dst value
    let cpu := cpu.setFlag .zero (value == 0)
    let cpu := cpu.setFlag .subtraction false
    let cpu := cpu.setFlag .halfCarry false
    pure (cycles, cpu, m)
  | .rotateRight dst useCarry => do
    let (previous, cpu) ← getU8 M cpu m dst
    let bitv := if useCarry then (if cpu.getFlag .carry then 1 <<< 7 else 0)
      else (previous &&& 1) <<< 7
    let cpu := cpu.setFlag .carry (previous &&& 1 != 0)
    let value := (previous >>> 1) ||| bitv
    let (cpu, m) ← setU8 M cpu m dst value
    let cpu := cpu.setFlag .zero (value == 0)
    let cpu := cpu.setFlag .subtraction false
    let cpu := cpu.setFlag .halfCarry false
    pure (cycles, cpu, m)
  | .rotateLeftA useCarry =>
    let bitv := if useCarry then (if cpu.getFlag .carry then 1 else 0)
      else (cpu.a &&& 0x80) >>> 7
    let cpu := cpu.setFlag .carry (cpu.a &&& 0x80 != 0)
    let cpu := { cpu with a := ((cpu.a <<< 1) % 256) ||| bitv }
    let cpu := cpu.setFlag .zero false
    let cpu := cpu.setFlag .subtraction false
    let cpu := cpu.setFlag .halfCarry false
    .ok (cycles, cpu, m)
  | .rotateRightA useCarry =>
    let bitv := if useCarry then (if cpu.getFlag .carry then 1 <<< 7 else 0)
      else (cpu.a &&& 1) <<< 7
    let cpu := cpu.setFlag .carry (cpu.a &&& 1 != 0)
    let cpu := { cpu with a := (cpu.a >>> 1) ||| bitv }
    let cpu := cpu.setFlag .zero false
    let cpu := cpu.setFlag .subtraction false
    let cpu := cpu.setFlag .halfCarry false
    .ok (cycles, cpu, m)
  | .shiftRight dst zero => do
    let (value, cpu) ← getU8 M cpu m dst
    let cpu := cpu.setFlag .carry (value &&& 1 != 0)
    let lastBit := if zero then 0 else value &&& (1 <<< 7)
    let result := (value >>> 1) ||| lastBit
    let (cpu, m) ← setU8 M cpu m dst result
    let cpu := cpu.setFlag .zero (result == 0)
    let cpu := cpu.setFlag .subtraction false
    let cpu := cpu.setFlag .halfCarry false
    pure (cycles, cpu, m)
  | .shiftLeft dst => do
    let (value, cpu) ← getU8 M cpu m dst
    let cpu := cpu.setFlag .carry (value &&& 0x80 != 0)
    let result := (value <<< 1) % 256
    let (cpu, m) ← setU8 M cpu m dst result
    let cpu := cpu.setFlag .zero (result == 0)
    let cpu := cpu.setFlag .subtraction false
    let cpu := cpu.setFlag .halfCarry false
    pure (cycles, cpu, m)
  | .ret => do
    let (value, cpu) ← (popU16 M cpu m).liftMem
    pure (cycles, { cpu with pc := value }, m)
  | .retIf flag expected =>
    if cpu.getFlag flag == expected then do
      let (value, cpu) ← (popU16 M cpu m).liftMem
      pure (cycles + 3, { cpu with pc := value }, m)
    else .ok (cycles, cpu, m)
  | .compare dst => do
    let (value, cpu) ← getU8 M cpu m dst
    let (cpu, _) := cpu.subtractA value false
    pure (cycles, cpu, m)
  | .reti => do
    let cpu := { cpu with interrupt_state := .enabled }
    let (value, cpu) ← (popU16 M cpu m).liftMem
    pure (cycles, { cpu with pc := value }, m)
  | .subtract src useCarry => do
    let (value, cpu) ← getU8 M cpu m src
    let (cpu, r) := cpu.subtractA value
      (if useCarry then cpu.getFlag .carry else false)
    pure (cycles, { cpu with a := r }, m)
  | .add8 dst src useCarry => do
    let carry := if useCarry then (if cpu.getFlag .carry then 1 else 0) else 0
    let (value, cpu) ← cpu.getRegU8 dst >>= fun v => pure (v, cpu)
    let (right, cpu) ← getU8 M cpu m src
    let result := (value + right + carry) % 256
    let cpu := cpu.setRegU8 dst result
    let cpu := cpu.setFlag .zero (result == 0)
    let cpu := cpu.setFlag .subtraction false
    let cpu := cpu.setFlag .halfCarry
      ((value &&& 0xf) + (right &&& 0xf) + carry > 0xf)
    let cpu := cpu.setFlag .carry (result != value + right + carry)
    pure (cycles, cpu, m)
  | .add16 dst src => do
    let value ← cpu.getRegU16 dst
    let (right, cpu) ← getU16 M cpu m src
    let result := wadd16 value right
    let cpu ← cpu.setRegU16 dst result
    let cpu := cpu.setFlag .subtraction false
    let cpu := cpu.setFlag .halfCarry
      ((value &&& 0xfff) + (right &&& 0xfff) > 0xfff)
    let cpu := cpu.setFlag .carry (result < value)
    pure (cycles, cpu, m)
  | .disableInterrupts =>
    .ok (cycles, { cpu with interrupt_state := .disabled }, m)
  | .enableInterrupts =>
    .ok (cycles, { cpu with interrupt_state := .shouldEnable }, m)
  | .complement =>
    let cpu := { cpu with a := cpu.a ^^^ 0xff }
    let cpu := cpu.setFlag .subtraction true
    let cpu := cpu.setFlag .halfCarry true
    .ok (cycles, cpu, m)
  | .swap dst => do
    let (value, cpu) ← getU8 M cpu m dst
    let result := (value >>> 4) ||| ((value &&& 0xf) <<< 4)
    let (cpu, m) ← setU8 M cpu m dst result
    let cpu := cpu.setFlag .zero (result == 0)
    let cpu := cpu.setFlag .subtraction false
    let cpu := cpu.setFlag .halfCarry false
    let cpu := cpu.setFlag .carry false
    pure (cycles, cpu, m)
  | .rst address => do
    let (cpu, m) ← (pushU16 M cpu m cpu.pc).liftMem
    pure (cycles, { cpu with pc := address * 8 }, m)
  | .daa =>
    let corr1 := if cpu.getFlag .halfCarry ||
        (!cpu.getFlag .subtraction && (cpu.a &&& 0xf > 9)) then 6 else 0
    let highCond := cpu.getFlag .carry ||
        (!cpu.getFlag .subtraction && (cpu.a > 0x99))
    let correction := corr1 + (if highCond then 0x60 else 0)
    let cpu := if highCond then cpu.setFlag .carry true else cpu
    let aNew := if cpu.getFlag .subtraction then wsub8 cpu.a correction
      else wadd8 cpu.a correction
    let cpu := { cpu with a := aNew }
    let cpu := cpu.setFlag .zero (cpu.a == 0)
    let cpu := cpu.setFlag .halfCarry false
    .ok (cycles, cpu, m)
  | .setBit b dst set => do
    let (value, cpu) ← getU8 M cpu m dst
    let value := if set then value ||| (1 <<< b)
      else value &&& (0xff ^^^ (1 <<< b))
    let (cpu, m) ← setU8 M cpu m dst value
    pure (cycles, cpu, m)
  | .spops op =>
    match op with
    | .addOffset offset =>
      let (cpu, value) := cpu.offsetSp offset
      .ok (cycles, { cpu with sp := value }, m)
    | .loadIntoHL offset =>
      let (cpu, value) := cpu.offsetSp offset
      .ok (cycles, cpu.setHl value, m)
    | .loadFromHL =>
      .ok (cycles, { cpu with sp := cpu.hl }, m)
  | .setCarryFlag toggle =>
    let cpu := cpu.setFlag .carry
      (if toggle then !cpu.getFlag .carry else true)
    let cpu := cpu.setFlag .subtraction false
    let cpu := cpu.setFlag .halfCarry false
    .ok (cycles, cpu, m)
  | .halt =>
    .ok (cycles, { cpu with halted := true }, m)

/-- `Cpu::exec_next_instruction`: fetch, then execute. -/
def execNextInstruction (M : MemIntf σ) (cpu : Cpu) (m : σ) :
    Res CpuError (Nat × Cpu × σ) := do
  let (instruction, cpu) ← (fetchInstruction M cpu m).liftInstr
  execInstruction M cpu m instruction

/-- `Cpu::process_interrupts` (`src/cpu.rs`): when IME is `Enabled` and a
requested interrupt bit is set, service the highest-priority one: push
`pc` (a push failure is unwrapped, i.e. panics), jump to its vector,
disable IME and charge 5 M-cycles. Returns
`(cycles, processed_mask, cpu, mem)`. -/
def processInterrupts (M : MemIntf σ) (cpu : Cpu) (m : σ) (interrupts : Nat) :
    Res MemoryError (Nat × Nat × Cpu × σ) :=
  if cpu.interrupt_state = .enabled then
    let picked : Option (Nat × Nat) :=
      if interrupts &&& 0x01 != 0 then some (0x01, 0x40)
      else if interrupts &&& 0x02 != 0 then some (0x02, 0x48)
      else if interrupts &&& 0x04 != 0 then some (0x04, 0x50)
      else if interrupts &&& 0x08 != 0 then some (0x08, 0x58)
      else if interrupts &&& 0x10 != 0 then some (0x10, 0x60)
      else none
    match picked with
    | none => .ok (0, 0, cpu, m)
    | some (processed, address) =>
      match pushU16 M cpu m cpu.pc with
      | .ok (cpu, m) =>
        .ok (5, processed,
          { cpu with pc := address, interrupt_state := .disabled }, m)
      | _ => .panic
  else .ok (0, 0, cpu, m)

/-- `src/timer.rs` `Timer`; `sub`, `div_sub` and `step_sub` are the
internal sub-cycle accumulators. -/
structure Timer where
  divider : Nat
  counter : Nat
  modulo : Nat
  speed : Nat
  enabled : Bool
  sub : Nat
  div_sub : Nat
  step_sub : Nat
deriving DecidableEq, Repr

/-- `Timer::new`. -/
def Timer.new : Timer :=
  { divider := 0, counter := 0, modulo := 0xff, speed := 0, enabled := false,
    sub := 0, div_sub := 0, step_sub := 0 }

/-- `Timer::cycle` (`src/timer.rs`): accumulate the M-cycles; at most one
4-M-cycle unit is consumed per call (the source uses `if`, not `while`).
The divider ticks every 16 such units; the counter, when enabled, ticks
with the speed-selected period and reloads from `modulo` on overflow,
raising the Timer interrupt. The source's `unreachable!()` arm for
`speed > 3` cannot trigger because `set_timer_control` masks the speed to
two bits; speeds `≥ 3` take the `0b11` period here. Returns the updated
timer and the new-interrupt mask. -/
def Timer.cycle (t : Timer) (cycles : Nat) : Timer × Nat :=
  let t := { t with sub := t.sub + cycles }
  if t.sub ≥ 4 then
    let t := { t with sub := t.sub - 4, div_sub := t.div_sub + 1 }
    let t := if t.div_sub ≥ 16 then
        { t with div_sub := t.div_sub - 16, divider := wadd8 t.divider 1 }
      else t
    if t.enabled then
      let t := { t with step_sub := t.step_sub + 1 }
      let div := if t.speed = 0 then 64
        else if t.speed = 1 then 1
        else if t.speed = 2 then 4
        else 16
      if t.step_sub ≥ div then
        let t := { t with step_sub := t.step_sub - div }
        if t.counter + 1 ≥ 256 then
          ({ t with counter := t.modulo }, 0x04)
        else
          ({ t with counter := t.counter + 1 }, 0)
      else (t, 0)
    else (t, 0)
  else (t, 0)

/-- `Timer::timer_control`: pack speed and the enable bit. -/
def Timer.timerControl (t : Timer) : Nat :=
  t.speed ||| (if t.enabled then 0b100 else 0)

/-- `Timer::set_timer_control`: unpack speed (2 bits) and enable (bit 2). -/
def Timer.setTimerControl (t : Timer) (value : Nat) : Timer :=
  { t with speed := value &&& 0b11, enabled := value &&& 0b100 != 0 }

namespace LcdControl

/-- `LcdControl::BG_WINDOW_ENABLE` (bit 0). -/
def BG_WINDOW_ENABLE : Nat := 1 <<< 0

/-- `LcdControl::OBJ_ENABLE` (bit 1). -/
def OBJ_ENABLE : Nat := 1 <<< 1

/-- `LcdControl::OBJ_SIZE` (bit 2). -/
def OBJ_SIZE : Nat := 1 <<< 2

/-- `LcdControl::BG_TILEMAP_AREA` (bit 3). -/
def BG_TILEMAP_AREA : Nat := 1 <<< 3

/-- `LcdControl::BG_WINDOW_TILEDATA_AREA` (bit 4). -/
def BG_WINDOW_TILEDATA_AREA : Nat := 1 <<< 4

/-- `LcdControl::WINDOW_ENABLE` (bit 5). -/
def WINDOW_ENABLE : Nat := 1 <<< 5

/-- `LcdControl::WINDOW_TILEMAP_AREA` (bit 6). -/
def WINDOW_TILEMAP_AREA : Nat := 1 <<< 6

/-- `LcdControl::LCD_ENABLE` (bit 7). -/
def LCD_ENABLE : Nat := 1 <<< 7

/-- `bitflags` truncation: only the defined bits survive a
`from_bits_truncate`; for `LcdControl` all eight bits are defined. -/
def fromBitsTruncate (v : Nat) : Nat := v &&& 0xff

end LcdControl

namespace StatInterruptSource

/-- `StatInterruptSource::HBLANK` (bit 3). -/
def HBLANK : Nat := 1 <<< 3

/-- `StatInterruptSource::VBLANK` (bit 4). -/
def VBLANK : Nat := 1 <<< 4

/-- `StatInterruptSource::OAM` (bit 5). -/
def OAM : Nat := 1 <<< 5

/-- `StatInterruptSource::LYC_LY` (bit 6). -/
def LYC_LY : Nat := 1 <<< 6

/-- `from_bits_truncate` for the four defined STAT-source bits. -/
def fromBitsTruncate (v : Nat) : Nat := v &&& 0b1111000

end StatInterruptSource

namespace Interrupts

/-- `Interrupts::VBLANK` (bit 0). -/
def VBLANK : Nat := 1 <<< 0

/-- `Interrupts::LCD_STAT` (bit 1). -/
def LCD_STAT : Nat := 1 <<< 1

/-- `Interrupts::TIMER` (bit 2). -/
def TIMER : Nat := 1 <<< 2

/-- `Interrupts::SERIAL` (bit 3). -/
def SERIAL : Nat := 1 <<< 3

/-- `Interrupts::JOYPAD` (bit 4). -/
def JOYPAD : Nat := 1 <<< 4

/-- `from_bits_truncate` for the five defined interrupt bits. -/
def fromBitsTruncate (v : Nat) : Nat := v &&& 0b11111

end Interrupts

/-- `src/gpu.rs` `GpuMode`. -/
inductive GpuMode where
  | hblank
  | vblank
  | oamRead
  | vramRead
deriving DecidableEq, Repr

/-- The `#[repr(u8)]` discriminant of `GpuMode` (`mode as u8`). -/
def GpuMode.toNat : GpuMode → Nat
  | .hblank => 0
  | .vblank => 1
  | .oamRead => 2
  | .vramRead => 3

/-- `src/gpu.rs` `Gpu`. `tiles` maps `(tile, x, y)` to the cached 2-bit
pixel value (`Tile::get`); `obj_palette0`/`obj_palette1` are the two
object palettes referenced by `src/memory/mmu.rs` at `0xff48`/`0xff49`
(the `Gpu` struct in this snapshot of `src/gpu.rs` omits the field the
bus code uses; it is modelled here so the bus routes as written).
`window_coords` is the `(WX, WY)` pair. -/
structure Gpu where
  vram : Nat → Nat
  oam : Nat → Nat
  mode_cycles : Nat
  line : Nat
  lyc : Nat
  mode : GpuMode
  scroll_x : Nat
  scroll_y : Nat
  tiles : Nat → Nat → Nat → Nat
  framebuffer : Nat → Nat
  lcd_control : Nat
  stat_interrupt_source : Nat
  bg_palette : Nat → Nat
  obj_palette0 : Nat → Nat
  obj_palette1 : Nat → Nat
  window_coords : Nat × Nat
  window_drawing : Bool
  window_line : Nat

/-- `Gpu::new` (mode starts in `HBlank`). -/
def Gpu.new : Gpu :=
  { vram := fun _ => 0, oam := fun _ => 0, mode := .hblank, mode_cycles := 0,
    line := 0, lyc := 0, scroll_x := 0, scroll_y := 0,
    tiles := fun _ _ _ => 0, framebuffer := fun _ => 0, lcd_control := 0,
    stat_interrupt_source := 0, bg_palette := fun _ => 0,
    obj_palette0 := fun _ => 0, obj_palette1 := fun _ => 0,
    window_coords := (0, 0), window_drawing := false, window_line := 0 }

/-- Membership test for a bitflags mask (`mask.contains(FLAG)`). -/
def hasFlag (mask flag : Nat) : Bool := mask &&& flag != 0

/-- `Gpu::stat`: STAT-source bits, the mode number, and the
LYC-coincidence bit. -/
def Gpu.stat (g : Gpu) : Nat :=
  let value := g.stat_interrupt_source ||| g.mode.toNat
  if g.line = g.lyc then value ||| (1 <<< 2) else value

/-- `Gpu::set_stat`. -/
def Gpu.setStat (g : Gpu) (value : Nat) : Gpu :=
  { g with stat_interrupt_source := StatInterruptSource.fromBitsTruncate value }

/-- `Gpu::scanline`. -/
def Gpu.scanline (g : Gpu) : Nat := g.line

/-- `Gpu::update_tile` (`src/gpu.rs`): re-derive the 8 pixels of the tile
row containing the touched VRAM byte, combining bit `7-x` of the low and
high bytes of the 2-byte row into a 2-bit value. -/
def Gpu.updateTile (g : Gpu) (vramAddress : Nat) : Gpu :=
  let vramAddress := vramAddress &&& (0xffff ^^^ 1)
  let tile := vramAddress / 16
  if tile ≥ 384 then g
  else
    let y := vramAddress % 16 / 2
    let row := fun (x : Nat) =>
      let bitv := 1 <<< (7 - x)
      (if g.vram vramAddress &&& bitv != 0 then 1 else 0) +
        (if g.vram (vramAddress + 1) &&& bitv != 0 then 2 else 0)
    { g with tiles := fun t x yq =>
        if t = tile ∧ yq = y ∧ x < 8 then row x else g.tiles t x yq }

/-- Functional store: the in-place array write `f[i] = v`. -/
def fnUpdate (f : Nat → Nat) (i v : Nat) : Nat → Nat :=
  fun j => if j = i then v else f j

/-- The repeated signed-tile-bank adjustment of `src/gpu.rs`: with LCDC
bit 4 clear, tile indices below 128 select the second bank (`tile += 256`). -/
def bgAdjust (lcdc tile : Nat) : Nat :=
  if !hasFlag lcdc LcdControl.BG_WINDOW_TILEDATA_AREA && tile < 128 then
    tile + 256
  else tile

/-- The 160-pixel loop of `Gpu::render_background_scanline`; `n` counts
the remaining pixels (`x = 160 - n`). The running state is the current
tile index, the x offset inside it, the tile-map column, and the
framebuffer. -/
def bgLoop (g : Gpu) (address tileY : Nat) :
    Nat → Nat → Nat → Nat → (Nat → Nat) → (Nat → Nat)
  | 0, _, _, _, fb => fb
  | n + 1, tile, tileX, lineOffset, fb =>
    let x := 160 - (n + 1)
    let fb := fnUpdate fb (x + 160 * g.line) (g.bg_palette (g.tiles tile tileX tileY))
    let tileX := tileX + 1
    if tileX = 8 then
      let tile := bgAdjust g.lcd_control (g.vram (address + lineOffset))
      bgLoop g address tileY n tile 0 ((lineOffset + 1) % 32) fb
    else
      bgLoop g address tileY n tile tileX lineOffset fb

/-- `Gpu::render_background_scanline` (`src/gpu.rs`). -/
def Gpu.renderBackgroundScanline (g : Gpu) : Gpu :=
  let address := (if hasFlag g.lcd_control LcdControl.BG_TILEMAP_AREA then
      0x1c00 else 0x1800) + (wadd8 g.line g.scroll_y) / 8 * 32
  let lineOffset := g.scroll_x / 8
  let tileY := (wadd8 g.line g.scroll_y) % 8
  let tile := bgAdjust g.lcd_control (g.vram (address + lineOffset))
  let lineOffset := (lineOffset + 1) % 32
  let tileX := g.scroll_x % 8
  { g with framebuffer := bgLoop g address tileY 160 tile tileX lineOffset g.framebuffer }

/-- The pixel loop of `Gpu::render_window_scanline`; `total` is the pixel
count `160 - real_x`, `n` the remaining pixels; the tile-map address
advances linearly. -/
def winLoop (g : Gpu) (tileY realX total : Nat) :
    Nat → Nat → Nat → Nat → (Nat → Nat) → (Nat → Nat)
  | 0, _, _, _, fb => fb
  | n + 1, tile, tileX, address, fb =>
    let x := total - (n + 1)
    let fb := fnUpdate fb (x + realX + 160 * g.line)
      (g.bg_palette (g.tiles tile tileX tileY))
    let tileX := tileX + 1
    if tileX = 8 then
      winLoop g tileY realX total n
        (bgAdjust g.lcd_control (g.vram address)) 0 (address + 1) fb
    else
      winLoop g tileY realX total n tile tileX address fb

/-- `Gpu::render_window_scanline` (`src/gpu.rs`): draws nothing before the
window's start line, while `window_drawing` is unset, or when `WX`/`WY`
are out of range; otherwise draws from `WX-7` (saturating) and bumps the
internal `window_line` counter. -/
def Gpu.renderWindowScanline (g : Gpu) : Gpu :=
  if g.line < g.window_coords.2 then g
  else if !g.window_drawing then g
  else if !(g.window_coords.1 ≤ 166) || !(g.window_coords.2 ≤ 143) then g
  else
    let address := (if hasFlag g.lcd_control LcdControl.WINDOW_TILEMAP_AREA then
        0x1c00 else 0x1800) + g.window_line / 8 * 32
    let tileY := g.window_line % 8
    let tile := bgAdjust g.lcd_control (g.vram address)
    let address := address + 1
    let realX := g.window_coords.1 - 7
    let fbNew := winLoop g tileY realX (160 - realX) (160 - realX) tile 0
      address g.framebuffer
    let g' := { g with framebuffer := fbNew }
    { g' with window_line := g'.window_line + 1 }

/-- Stable insertion for `sort_by_key` (Rust's sort is stable: an element
is placed after all earlier elements with a key `≤` its own). -/
def insertByKey (key : Nat → Nat) (i : Nat) : List Nat → List Nat
  | [] => [i]
  | j :: rest => if key j ≤ key i then j :: insertByKey key i rest
    else i :: j :: rest

/-- Stable sort by key (insertion sort), modelling `slice::sort_by_key`. -/
def sortByKey (key : Nat → Nat) : List Nat → List Nat
  | [] => []
  | i :: rest => insertByKey key i (sortByKey key rest)

/-- The 8-pixel inner loop of `Gpu::render_sprite_scanline`: pixel value 0
is transparent; negative screen positions are clipped; with the
behind-background attribute the pixel lands only where the framebuffer
holds 0. `n` counts remaining pixels (`x = 8 - n`). -/
def spriteDrawLoop (g : Gpu) (tile y : Nat) (spriteX : Int) (bgPriority : Bool) :
    Nat → (Nat → Nat) → (Nat → Nat)
  | 0, fb => fb
  | n + 1, fb =>
    let x := 8 - (n + 1)
    let pixel := g.tiles tile x y
    let fb :=
      if pixel = 0 then fb
      else if spriteX + (x : Int) < 0 then fb
      else
        let index := g.line * 160 + (spriteX + (x : Int)).toNat
        if !bgPriority || fb index = 0 then fnUpdate fb index pixel else fb
    spriteDrawLoop g tile y spriteX bgPriority n fb

/-- Draw one OAM entry of `Gpu::render_sprite_scanline`. `sprite_y` and
the in-sprite row use truncated subtraction; an OAM `y` below 16 would
underflow `usize` in the source (a debug-build panic), modelled here as
saturation. For 16-pixel sprites the tile index's low bit is forced and
the lower half selected for rows `≥ 8`. -/
def Gpu.drawSprite (g : Gpu) (largeSprites : Bool) (i : Nat)
    (fb : Nat → Nat) : Nat → Nat :=
  let tileIndex := g.oam (i * 4 + 2)
  let spriteY := g.oam (i * 4) - 16
  let spriteX : Int := (g.oam (i * 4 + 1) : Int) - 8
  let attributes := g.oam (i * 4 + 3)
  let y0 := g.line - spriteY
  let (tile, y) :=
    if largeSprites then
      if y0 ≥ 8 then ((tileIndex &&& 0xfe) + 1, y0 - 8)
      else (tileIndex &&& 0xfe, y0)
    else (tileIndex, y0)
  let bgPriority := attributes &&& (1 <<< 7) != 0
  spriteDrawLoop g tile y spriteX bgPriority 8 fb

/-- `Gpu::render_sprite_scanline` (`src/gpu.rs`): keep the OAM entries
covering this scanline, take the first ten in OAM order, stable-sort them
by x, and draw each in turn. -/
def Gpu.renderSpriteScanline (g : Gpu) : Gpu :=
  let spriteHeight := if hasFlag g.lcd_control LcdControl.OBJ_SIZE then 16 else 8
  let indices := ((List.range 40).filter fun i =>
    g.line + 16 ≥ g.oam (i * 4) ∧ g.line + 16 < g.oam (i * 4) + spriteHeight).take 10
  let indices := sortByKey (fun i => g.oam (i * 4 + 1)) indices
  let fbNew := indices.foldl
    (fun fb i => g.drawSprite (hasFlag g.lcd_control LcdControl.OBJ_SIZE) i fb)
    g.framebuffer
  { g with framebuffer := fbNew }

/-- `Gpu::render_scanline` (`src/gpu.rs`): with the LCD disabled the whole
framebuffer is cleared to 0 and nothing else runs; with the background
disabled the whole framebuffer is likewise cleared to 0 (the source's
`framebuffer.fill(0)`), otherwise the background is drawn; then the
window and the sprites are layered when enabled. -/
def Gpu.renderScanline (g : Gpu) : Gpu :=
  if !hasFlag g.lcd_control LcdControl.LCD_ENABLE then
    { g with framebuffer := fun _ => 0 }
  else
    let g := if !hasFlag g.lcd_control LcdControl.BG_WINDOW_ENABLE then
        { g with framebuffer := fun _ => 0 }
      else g.renderBackgroundScanline
    let g := if hasFlag g.lcd_control LcdControl.WINDOW_ENABLE then
        g.renderWindowScanline
      else g
    let g := if hasFlag g.lcd_control LcdControl.OBJ_ENABLE then
        g.renderSpriteScanline
      else g
    g

/-- `Gpu::cycle` (`src/gpu.rs`): add the elapsed T-cycles to `mode_cycles`
and perform at most one mode transition (HBlank ends at 204 T, VBlank
lines at 456 T, OAM search at 80 T, VRAM fetch at 172 T), raising the
matching STAT interrupts; entering VBlank on line 144 also raises the
VBlank interrupt and reports a completed frame. Line increments use the
source's `u8` arithmetic. Returns the new state, the frame-done flag and
the new-interrupt mask. -/
def Gpu.cycle (g : Gpu) (cycles : Nat) : Gpu × Bool × Nat :=
  let g := { g with mode_cycles := g.mode_cycles + cycles }
  match g.mode with
  | .hblank =>
    if g.mode_cycles ≥ 204 then
      let g := { g with mode_cycles := g.mode_cycles - 204,
                        line := wadd8 g.line 1 }
      let ints1 := if hasFlag g.stat_interrupt_source StatInterruptSource.LYC_LY
          ∧ g.lyc = g.line then Interrupts.LCD_STAT else 0
      if g.line > 143 then
        let g := { g with mode := .vblank, window_drawing := false }
        let ints2 := if hasFlag g.stat_interrupt_source StatInterruptSource.VBLANK
            then Interrupts.LCD_STAT else 0
        (g, true, ints1 ||| ints2 ||| Interrupts.VBLANK)
      else
        let g := { g with mode := .oamRead }
        let ints2 := if hasFlag g.stat_interrupt_source StatInterruptSource.OAM
            then Interrupts.LCD_STAT else 0
        (g, false, ints1 ||| ints2)
    else (g, false, 0)
  | .vblank =>
    if g.mode_cycles ≥ 456 then
      let g := { g with mode_cycles := g.mode_cycles - 456,
                        line := wadd8 g.line 1 }
      if g.line > 153 then
        let g := { g with mode := .oamRead, line := 0 }
        let ints := if (hasFlag g.stat_interrupt_source StatInterruptSource.LYC_LY
            ∧ g.lyc = g.line) ∨
            hasFlag g.stat_interrupt_source StatInterruptSource.OAM
          then Interrupts.LCD_STAT else 0
        (g, false, ints)
      else (g, false, 0)
    else (g, false, 0)
  | .oamRead =>
    if g.mode_cycles ≥ 80 then
      ({ g with mode_cycles := g.mode_cycles - 80, mode := .vramRead }, false, 0)
    else (g, false, 0)
  | .vramRead =>
    if g.mode_cycles ≥ 172 then
      let g := { g with mode_cycles := g.mode_cycles - 172, mode := .hblank }
      let g := if g.window_coords.2 = g.line then
          { g with window_drawing := true, window_line := 0 }
        else g
      let g := g.renderScanline
      let ints := if hasFlag g.stat_interrupt_source StatInterruptSource.HBLANK
          then Interrupts.LCD_STAT else 0
      (g, false, ints)
    else (g, false, 0)

/-- `src/cartridge.rs` `MBC1State`. -/
structure MBC1State where
  enable_ram : Bool
  ram_mode : Bool
  bank1 : Nat
  bank2 : Nat
deriving DecidableEq, Repr

/-- `MBC1State::new`: bank1 starts at 1. -/
def MBC1State.new : MBC1State :=
  { enable_ram := false, ram_mode := false, bank1 := 0b00001, bank2 := 0b00 }

/-- `MBC1State::rom_offset`: the `(lower, upper)` ROM window bases; in RAM
mode `bank2 << 5` also shifts the `0x0000` window. -/
def MBC1State.romOffset (st : MBC1State) : Nat × Nat :=
  let lower := if st.ram_mode then st.bank2 <<< 5 else 0
  let upper := (st.bank2 <<< 5) ||| st.bank1
  (0x4000 * lower, 0x4000 * upper)

/-- `MBC1State::ram_offset`. -/
def MBC1State.ramOffset (st : MBC1State) : Nat :=
  0x2000 * (if st.ram_mode then st.bank2 else 0)

/-- `src/cartridge.rs` `MBC3State`. -/
structure MBC3State where
  bank : Nat
  map_select : Nat
deriving DecidableEq, Repr

/-- `MBC3State::new`. -/
def MBC3State.new : MBC3State := { bank := 1, map_select := 0 }

/-- `src/cartridge.rs` `MBC`. -/
inductive MBC where
  | none
  | mbc1 (st : MBC1State)
  | mbc3 (st : MBC3State)
deriving DecidableEq, Repr

/-- `src/cartridge.rs` `Cartridge`: the ROM bytes (with their length, so
out-of-bounds indexing can panic as in Rust) and the RAM buffer. -/
structure Cartridge where
  rom : Nat → Nat
  romLen : Nat
  ram : Nat → Nat
  ramLen : Nat
  mbc : MBC

/-- `Cartridge::read_ram`: empty RAM reads as `0xff`; otherwise the
effective index is `(offset + (address & 0x1ffff)) % ram.len()` — note the
17-bit mask, which keeps the full bus address. -/
def Cartridge.readRam (c : Cartridge) (offset address : Nat) : Nat :=
  if c.ramLen = 0 then 0xff
  else c.ram ((offset + (address &&& 0x1ffff)) % c.ramLen)

/-- `Cartridge::write_ram` (same indexing; dropped when RAM is empty). -/
def Cartridge.writeRam (c : Cartridge) (offset address value : Nat) : Cartridge :=
  if c.ramLen = 0 then c
  else { c with ram := fnUpdate c.ram ((offset + (address &&& 0x1ffff)) % c.ramLen) value }

/-- `<Cartridge as Memory>::read` (`src/cartridge.rs`). With no controller
the ROM is indexed directly (an address beyond the ROM length would be an
out-of-bounds panic); the MBC windows reduce modulo the ROM length (Rust
`% 0` also panics); disabled or unselected RAM reads as `0xff`. -/
def Cartridge.read (c : Cartridge) (address : Nat) : Res MemoryError Nat :=
  match c.mbc with
  | .none => if address < c.romLen then .ok (c.rom address) else .panic
  | .mbc1 st =>
    if address ≤ 0x3fff then
      if c.romLen = 0 then .panic
      else .ok (c.rom ((st.romOffset.1 ||| (address &&& 0x3fff)) % c.romLen))
    else if address ≤ 0x7fff then
      if c.romLen = 0 then .panic
      else .ok (c.rom ((st.romOffset.2 ||| (address &&& 0x3fff)) % c.romLen))
    else if 0xa000 ≤ address ∧ address ≤ 0xbfff ∧ st.enable_ram then
      .ok (c.readRam st.ramOffset address)
    else .ok 0xff
  | .mbc3 st =>
    if address ≤ 0x3fff then
      if c.romLen = 0 then .panic
      else .ok (c.rom ((address &&& 0x3fff) % c.romLen))
    else if address ≤ 0x7fff then
      if c.romLen = 0 then .panic
      else .ok (c.rom (((0x4000 * st.bank) ||| (address &&& 0x3fff)) % c.romLen))
    else if 0xa000 ≤ address ∧ address ≤ 0xbfff ∧ st.map_select ≤ 0x03 then
      .ok (c.readRam (0x2000 * (st.map_select &&& 0b11)) address)
    else .ok 0xff

/-- `<Cartridge as Memory>::write` (`src/cartridge.rs`): bank-controller
commands and (when enabled/selected) RAM stores; always returns `Ok`. -/
def Cartridge.write (c : Cartridge) (address value : Nat) : Res MemoryError Cartridge :=
  match c.mbc with
  | .none => .ok c
  | .mbc1 st =>
    if address ≤ 0x1fff then
      .ok { c with mbc := .mbc1 { st with enable_ram := (value &&& 0xf) == 0xa } }
    else if address ≤ 0x3fff then
      .ok { c with mbc := .mbc1 { st with
        bank1 := if value &&& 0x1f = 0 then 1 else value &&& 0x1f } }
    else if address ≤ 0x5fff then
      .ok { c with mbc := .mbc1 { st with bank2 := value &&& 0b11 } }
    else if address ≤ 0x7fff then
      .ok { c with mbc := .mbc1 { st with ram_mode := value &&& 0b1 = 1 } }
    else if 0xa000 ≤ address ∧ address ≤ 0xbfff ∧ st.enable_ram then
      .ok (c.writeRam st.ramOffset address value)
    else .ok c
  | .mbc3 st =>
    if address ≤ 0x1fff then .ok c
    else if address ≤ 0x3fff then
      .ok { c with mbc := .mbc3 { st with bank := if value = 0 then 1 else value } }
    else if address ≤ 0x5fff then
      .ok { c with mbc := .mbc3 { st with map_select := value &&& 0b1111 } }
    else if 0xa000 ≤ address ∧ address ≤ 0xbfff ∧ st.map_select ≤ 0x03 then
      .ok (c.writeRam (0x2000 * (st.map_select &&& 0b11)) address value)
    else .ok c

/-- `src/memory/mmu.rs` `JoypadButton`. -/
inductive JoypadButton where
  | up | down | left | right | start | select | b | a
deriving DecidableEq, Repr

/-- `JoypadButton::enabled_bit`: the P1 selector bit for the button's
group (bit 4 directions, bit 5 the others). -/
def JoypadButton.enabledBit : JoypadButton → Nat
  | .up => 1 <<< 4
  | .down => 1 <<< 4
  | .left => 1 <<< 4
  | .right => 1 <<< 4
  | .start => 1 <<< 5
  | .select => 1 <<< 5
  | .b => 1 <<< 5
  | .a => 1 <<< 5

/-- `JoypadButton::bit`: the button's bit in the low nibble of P1. -/
def JoypadButton.bit : JoypadButton → Nat
  | .up => 1 <<< 2
  | .down => 1 <<< 3
  | .left => 1 <<< 1
  | .right => 1
  | .start => 1 <<< 3
  | .select => 1 <<< 2
  | .b => 1 <<< 1
  | .a => 1

/-- `src/memory/mmu.rs` `Mmu`. -/
structure Mmu where
  bios : Nat → Nat
  use_bios : Bool
  cart : Cartridge
  gpu : Gpu
  timer : Timer
  wram : Nat → Nat
  hram : Nat → Nat
  interrupts : Nat
  interrupts_enabled : Nat
  p1 : Nat
  pressed : List JoypadButton

/-- `Mmu::new`. -/
def Mmu.new (bios : Nat → Nat) (cart : Cartridge) (gpu : Gpu) : Mmu :=
  { bios := bios, use_bios := true, cart := cart, gpu := gpu,
    timer := Timer.new, wram := fun _ => 0, hram := fun _ => 0,
    interrupts := 0, interrupts_enabled := 0, p1 := 0b1111, pressed := [] }

/-- `pack_palette` (`src/memory/mmu.rs`): `e0 | e1<<2 | e2<<4 | e3<<6`
(each shift is `u8`, so it keeps only the low byte). -/
def packPalette (palette : Nat → Nat) : Nat :=
  (List.range 4).foldl (fun value i => value ||| ((palette i <<< (i * 2)) % 256)) 0

/-- `unpack_palette` (`src/memory/mmu.rs`): extract the four 2-bit
entries; indices past 3 keep the `[0; 4]` initialisation. -/
def unpackPalette (palette : Nat) : Nat → Nat :=
  fun i => if i < 4 then (palette &&& (0b11 <<< (i * 2))) >>> (i * 2) else 0

/-- `<Mmu as Memory>::read` (`src/memory/mmu.rs`), following the source's
match arms in order, fuelled to express the source's recursion (the
echo-RAM mirror recurses once into the work-RAM arm, so `Mmu.read`'s fuel
of 2 never runs out). The boot-ROM blob is 256 bytes, so the overlay read
is always in bounds. The fall-through arm logs and reads `0xff`. -/
def Mmu.readF : Nat → Mmu → Nat → Res MemoryError Nat
  | 0, _, _ => .panic
  | f + 1, m, address =>
  if address ≤ 0xff ∧ m.use_bios then .ok (m.bios address)
  else if address ≤ 0x7fff then m.cart.read address
  else if address ≤ 0x9fff then .ok (m.gpu.vram (address - 0x8000))
  else if address ≤ 0xbfff then m.cart.read address
  else if address ≤ 0xdfff then .ok (m.wram (address - 0xc000))
  else if address ≤ 0xfdff then Mmu.readF f m (address - 0x2000)
  else if address ≤ 0xfe9f then .ok (m.gpu.oam (address - 0xfe00))
  else if address ≤ 0xfeff then .ok 0xff
  else if address = 0xff00 then .ok m.p1
  else if address = 0xff04 then .ok m.timer.divider
  else if address = 0xff05 then .ok m.timer.counter
  else if address = 0xff06 then .ok m.timer.modulo
  else if address = 0xff07 then .ok m.timer.timerControl
  else if address = 0xff0f then .ok m.interrupts
  else if 0xff10 ≤ address ∧ address ≤ 0xff26 then .ok 0
  else if 0xff30 ≤ address ∧ address ≤ 0xff3f then .ok 0
  else if address = 0xff40 then .ok m.gpu.lcd_control
  else if address = 0xff41 then .ok m.gpu.stat
  else if address = 0xff42 then .ok m.gpu.scroll_y
  else if address = 0xff43 then .ok m.gpu.scroll_x
  else if address = 0xff44 then .ok m.gpu.scanline
  else if address = 0xff45 then .ok m.gpu.lyc
  else if address = 0xff47 then .ok (packPalette m.gpu.bg_palette)
  else if address = 0xff48 then .ok (packPalette m.gpu.obj_palette0)
  else if address = 0xff49 then .ok (packPalette m.gpu.obj_palette1)
  else if address = 0xff4a then .ok m.gpu.window_coords.2
  else if address = 0xff4b then .ok m.gpu.window_coords.1
  else if address = 0xff4d then .ok 0xff
  else if 0xff80 ≤ address ∧ address ≤ 0xfffe then .ok (m.hram (address - 0xff80))
  else if address = 0xffff then .ok m.interrupts_enabled
  else .ok 0xff

/-- `<Mmu as Memory>::read`, with enough fuel for the single mirror
recursion. -/
def Mmu.read (m : Mmu) (address : Nat) : Res MemoryError Nat :=
  Mmu.readF 2 m address


/-- The OAM-DMA copy loop of `Mmu::write` at `0xff46`: for
`i in 0..0xa0`, read `base + i` through the bus and write it (with the
supplied bus-write function) to `0xfe00 + i`, propagating failures;
`remaining` counts the iterations left (`i = 0xa0 - remaining`). -/
def Mmu.dmaLoop (wr : Mmu → Nat → Nat → Res MemoryError Mmu) (base : Nat) :
    Nat → Mmu → Res MemoryError Mmu
  | 0, m => .ok m
  | r + 1, m =>
    let i := 0xa0 - (r + 1)
    match m.read (base + i) with
    | .ok v =>
      match wr m (0xfe00 + i) v with
      | .ok m2 => Mmu.dmaLoop wr base r m2
      | .err e => .err e
      | .panic => .panic
    | .err e => .err e
    | .panic => .panic

/-- `<Mmu as Memory>::write` (`src/memory/mmu.rs`), fuelled to express the
source's recursion (the echo-RAM mirror recurses once; the OAM-DMA loop at
`0xff46` calls `write` on `0xfe00..=0xfe9f`, which lands in the direct OAM
arm, so depth 2 suffices and `Mmu.write`'s fuel of 3 never runs out).
Writes into the boot-ROM overlay are `Illegal`, `0xff44` (LY) is
`ReadOnly`, the DMA trigger asserts `value <= 0xf1` (a panic otherwise)
and block-copies `0xa0` bytes through the bus, and any non-zero write to
`0xff50` turns the overlay off. Arms follow the source order. -/
def Mmu.writeF : Nat → Mmu → Nat → Nat → Res MemoryError Mmu
  | 0, _, _, _ => .panic
  | f + 1, m, address, value =>
    if address ≤ 0xff ∧ m.use_bios then .err (.illegal address .write)
    else if address ≤ 0x7fff then
      match m.cart.write address value with
      | .ok c => .ok { m with cart := c }
      | .err e => .err e
      | .panic => .panic
    else if address ≤ 0x9fff then
      let g := { m.gpu with vram := fnUpdate m.gpu.vram (address - 0x8000) value }
      .ok { m with gpu := g.updateTile (address - 0x8000) }
    else if address ≤ 0xbfff then
      match m.cart.write address value with
      | .ok c => .ok { m with cart := c }
      | .err e => .err e
      | .panic => .panic
    else if address ≤ 0xdfff then
      .ok { m with wram := fnUpdate m.wram (address - 0xc000) value }
    else if address ≤ 0xfdff then Mmu.writeF f m (address - 0x2000) value
    else if address ≤ 0xfe9f then
      .ok { m with gpu := { m.gpu with
        oam := fnUpdate m.gpu.oam (address - 0xfe00) value } }
    else if address ≤ 0xfeff then .ok m
    else if address = 0xff00 then
      let p1 := (value &&& 0b110000) ||| 0b1111
      let p1 := m.pressed.foldl (fun p1 button =>
        if p1 &&& button.enabledBit != 0 then p1
        else p1 &&& (0xff ^^^ button.bit)) p1
      .ok { m with p1 := p1 }
    else if address = 0xff01 then .ok m
    else if address = 0xff02 then .ok m
    else if address = 0xff04 then
      .ok { m with timer := { m.timer with divider := 0, counter := 0 } }
    else if address = 0xff05 then
      .ok { m with timer := { m.timer with counter := value } }
    else if address = 0xff06 then
      .ok { m with timer := { m.timer with modulo := value } }
    else if address = 0xff07 then
      .ok { m with timer := m.timer.setTimerControl value }
    else if address = 0xff0f then
      .ok { m with interrupts := Interrupts.fromBitsTruncate value }
    else if 0xff10 ≤ address ∧ address ≤ 0xff26 then .ok m
    else if 0xff30 ≤ address ∧ address ≤ 0xff3f then .ok m
    else if address = 0xff40 then
      .ok { m with gpu := { m.gpu with
        lcd_control := LcdControl.fromBitsTruncate value } }
    else if address = 0xff41 then .ok { m with gpu := m.gpu.setStat value }
    else if address = 0xff42 then
      .ok { m with gpu := { m.gpu with scroll_y := value } }
    else if address = 0xff43 then
      .ok { m with gpu := { m.gpu with scroll_x := value } }
    else if address = 0xff44 then .err (.readOnly address)
    else if address = 0xff45 then
      .ok { m with gpu := { m.gpu with lyc := value } }
    else if address = 0xff46 then
      if value > 0xf1 then .panic
      else Mmu.dmaLoop (fun mm aa vv => Mmu.writeF f mm aa vv) (value <<< 8) 0xa0 m
    else if address = 0xff47 then
      .ok { m with gpu := { m.gpu with bg_palette := unpackPalette value } }
    else if address = 0xff48 then
      .ok { m with gpu := { m.gpu with obj_palette0 := unpackPalette value } }
    else if address = 0xff49 then
      .ok { m with gpu := { m.gpu with obj_palette1 := unpackPalette value } }
    else if address = 0xff4a then
      .ok { m with gpu := { m.gpu with
        window_coords := (m.gpu.window_coords.1, value) } }
    else if address = 0xff4b then
      .ok { m with gpu := { m.gpu with
        window_coords := (value, m.gpu.window_coords.2) } }
    else if address = 0xff4d then .ok m
    else if address = 0xff50 then
      if value ≠ 0 then .ok { m with use_bios := false } else .ok m
    else if 0xff70 ≤ address ∧ address ≤ 0xff7f then .ok m
    else if 0xff80 ≤ address ∧ address ≤ 0xfffe then
      .ok { m with hram := fnUpdate m.hram (address - 0xff80) value }
    else if address = 0xffff then
      .ok { m with interrupts_enabled := Interrupts.fromBitsTruncate value }
    else .ok m

/-- `<Mmu as Memory>::write`, with enough fuel for the source's bounded
recursion (depth two: mirror→WRAM, or DMA→OAM). -/
def Mmu.write (m : Mmu) (address value : Nat) : Res MemoryError Mmu :=
  Mmu.writeF 3 m address value

/-- The `Memory`-trait instance of the bus, used to thread the CPU's
memory accesses through `Mmu::read`/`Mmu::write`. -/
def mmuIntf : MemIntf Mmu := { read := Mmu.read, write := Mmu.write }

/-- `Mmu::step` (`src/memory/mmu.rs`): execute one instruction (or charge
4 cycles when halted — the same unit as an instruction's M-cycle count, so
the PPU below receives `4 * 4` T-cycles); advance the PPU by
`4 × cycles` T-cycles and the Timer by `cycles` M-cycles, OR their new
interrupts into the pending mask; wake a halted CPU when a masked
interrupt is pending, attempt dispatch, and on dispatch advance PPU and
Timer by the extra 5 M-cycles. Instruction errors are unwrapped (panic).
Returns the bus, the CPU and the frame-done flag. -/
def Mmu.step (m : Mmu) (cpu : Cpu) : Res MemoryError (Mmu × Cpu × Bool) :=
  let cyclesRes : Res MemoryError (Nat × Cpu × Mmu) :=
    if cpu.halted then .ok (4, cpu, m)
    else
      match execNextInstruction mmuIntf cpu m with
      | .ok r => .ok r
      | _ => .panic
  match cyclesRes with
  | .ok (cycles, cpu, m) =>
    let (g, frame, ni) := m.gpu.cycle (4 * cycles)
    let m := { m with gpu := g, interrupts := m.interrupts ||| ni }
    let (t, ni2) := m.timer.cycle cycles
    let m := { m with timer := t, interrupts := m.interrupts ||| ni2 }
    let notEnabled := (0xff ^^^ m.interrupts_enabled) &&& 0x1f
    let toProcess := m.interrupts &&& (0xff ^^^ notEnabled)
    let cpu := if toProcess != 0 then { cpu with halted := false } else cpu
    match processInterrupts mmuIntf cpu m toProcess with
    | .ok (cycles2, handled, cpu, m) =>
      let m := { m with interrupts := m.interrupts &&& (0xff ^^^ handled) }
      if cycles2 ≠ 0 then
        let (g2, frame2, ni3) := m.gpu.cycle (4 * cycles2)
        let m := { m with gpu := g2, interrupts := m.interrupts ||| ni3 }
        let (t2, ni4) := m.timer.cycle cycles2
        let m := { m with timer := t2, interrupts := m.interrupts ||| ni4 }
        .ok (m, cpu, frame || frame2)
      else .ok (m, cpu, frame)
    | .err e => .err e
    | .panic => .panic
  | .err e => .err e
  | .panic => .panic

/-- The PPU's timing-relevant state: mode, scanline and intra-mode cycle
counter. `Gpu::cycle` drives exactly these three fields (rendering only
touches the framebuffer and window bookkeeping). -/
structure PpuTiming where
  mode : GpuMode
  line : Nat
  cycles : Nat
deriving DecidableEq, Repr

/-- Project a `Gpu` onto its timing state. -/
def Gpu.timing (g : Gpu) : PpuTiming := ⟨g.mode, g.line, g.mode_cycles⟩

/-- The mode/line/cycle transition of `Gpu::cycle` on the timing
projection (same thresholds 204/456/80/172, same `u8` line increment,
same frame-done flag). -/
def timingStep (s : PpuTiming) (cycles : Nat) : PpuTiming × Bool :=
  let c := s.cycles + cycles
  match s.mode with
  | .hblank =>
    if c ≥ 204 then
      let line := wadd8 s.line 1
      if line > 143 then (⟨.vblank, line, c - 204⟩, true)
      else (⟨.oamRead, line, c - 204⟩, false)
    else (⟨s.mode, s.line, c⟩, false)
  | .vblank =>
    if c ≥ 456 then
      let line := wadd8 s.line 1
      if line > 153 then (⟨.oamRead, 0, c - 456⟩, false)
      else (⟨.vblank, line, c - 456⟩, false)
    else (⟨s.mode, s.line, c⟩, false)
  | .oamRead =>
    if c ≥ 80 then (⟨.vramRead, s.line, c - 80⟩, false)
    else (⟨s.mode, s.line, c⟩, false)
  | .vramRead =>
    if c ≥ 172 then (⟨.hblank, s.line, c - 172⟩, false)
    else (⟨s.mode, s.line, c⟩, false)

/-- Iterate the timing machine by steps of 4 T-cycles, counting the
frames reported done. -/
def modeIter : Nat → PpuTiming → Nat → PpuTiming × Nat
  | 0, s, acc => (s, acc)
  | n + 1, s, acc =>
    let (s2, f) := timingStep s 4
    modeIter n s2 (acc + if f then 1 else 0)

/-- Iterate `Gpu::cycle` by steps of 4 T-cycles (the granularity at which
`Mmu::step` always drives it), counting the frames reported done. -/
def gpuIter : Nat → Gpu → Nat → Gpu × Nat
  | 0, g, acc => (g, acc)
  | n + 1, g, acc =>
    let (g2, f, _) := g.cycle 4
    gpuIter n g2 (acc + if f then 1 else 0)

theorem renderBackground_timing (g : Gpu) :
    g.renderBackgroundScanline.timing = g.timing := by
  simp [Gpu.renderBackgroundScanline, Gpu.timing]

theorem renderWindow_timing (g : Gpu) :
    g.renderWindowScanline.timing = g.timing := by
  unfold Gpu.renderWindowScanline
  split_ifs <;> simp [Gpu.timing]

theorem renderSprite_timing (g : Gpu) :
    g.renderSpriteScanline.timing = g.timing := by
  simp [Gpu.renderSpriteScanline, Gpu.timing]

theorem renderScanline_timing (g : Gpu) : g.renderScanline.timing = g.timing := by
  unfold Gpu.renderScanline
  simp only [apply_ite Gpu.timing, renderSprite_timing, renderWindow_timing,
    renderBackground_timing, ite_self]
  split_ifs <;> simp [Gpu.timing]

theorem renderScanline_mode (g : Gpu) : g.renderScanline.mode = g.mode :=
  congrArg PpuTiming.mode (renderScanline_timing g)

theorem renderScanline_line (g : Gpu) : g.renderScanline.line = g.line :=
  congrArg PpuTiming.line (renderScanline_timing g)

theorem renderScanline_mode_cycles (g : Gpu) :
    g.renderScanline.mode_cycles = g.mode_cycles :=
  congrArg PpuTiming.cycles (renderScanline_timing g)

theorem cycle_timing (g : Gpu) (c : Nat) :
    (g.cycle c).1.timing = (timingStep g.timing c).1 ∧
      (g.cycle c).2.1 = (timingStep g.timing c).2 := by
  unfold Gpu.cycle timingStep
  cases hm : g.mode <;>
    simp only [Gpu.timing, hm] <;>
    split_ifs <;>
    simp_all [Gpu.timing, renderScanline_mode, renderScanline_line,
      renderScanline_mode_cycles]

theorem gpuIter_timing (n : Nat) : ∀ (g : Gpu) (acc : Nat),
    (gpuIter n g acc).1.timing = (modeIter n g.timing acc).1 ∧
      (gpuIter n g acc).2 = (modeIter n g.timing acc).2 := by
  induction n with
  | zero => intro g acc; exact ⟨rfl, rfl⟩
  | succ k ih =>
    intro g acc
    have hc := cycle_timing g 4
    rw [gpuIter, modeIter]
    rcases hgc : g.cycle 4 with ⟨g2, f, ints⟩
    rw [hgc] at hc
    rcases hts : timingStep g.timing 4 with ⟨s2, f2⟩
    rw [hts] at hc
    obtain ⟨h1, h2⟩ := hc
    simp only at h1 h2 ⊢
    rw [← h1, ← h2]
    exact ih g2 (acc + if f then 1 else 0)

theorem modeIter_add (a b : Nat) (s : PpuTiming) (acc : Nat) :
    modeIter (a + b) s acc =
      modeIter b (modeIter a s acc).1 (modeIter a s acc).2 := by
  induction a generalizing s acc with
  | zero => simp [modeIter]
  | succ n ih =>
    rw [Nat.succ_add]
    show modeIter (n + b).succ s acc = _
    rw [modeIter, modeIter]
    exact ih _ _

set_option maxRecDepth 40000 in
theorem modeIter_chunk0 :
    modeIter 1596 ⟨.oamRead, 0, 0⟩ 0 = (⟨.oamRead, 14, 0⟩, 0) := by decide

set_option maxRecDepth 40000 in
theorem modeIter_chunk1 :
    modeIter 1596 ⟨.oamRead, 14, 0⟩ 0 = (⟨.oamRead, 28, 0⟩, 0) := by decide

set_option maxRecDepth 40000 in
theorem modeIter_chunk2 :
    modeIter 1596 ⟨.oamRead, 28, 0⟩ 0 = (⟨.oamRead, 42, 0⟩, 0) := by decide

set_option maxRecDepth 40000 in
theorem modeIter_chunk3 :
    modeIter 1596 ⟨.oamRead, 42, 0⟩ 0 = (⟨.oamRead, 56, 0⟩, 0) := by decide

set_option maxRecDepth 40000 in
theorem modeIter_chunk4 :
    modeIter 1596 ⟨.oamRead, 56, 0⟩ 0 = (⟨.oamRead, 70, 0⟩, 0) := by decide

set_option maxRecDepth 40000 in
theorem modeIter_chunk5 :
    modeIter 1596 ⟨.oamRead, 70, 0⟩ 0 = (⟨.oamRead, 84, 0⟩, 0) := by decide

set_option maxRecDepth 40000 in
theorem modeIter_chunk6 :
    modeIter 1596 ⟨.oamRead, 84, 0⟩ 0 = (⟨.oamRead, 98, 0⟩, 0) := by decide

set_option maxRecDepth 40000 in
theorem modeIter_chunk7 :
    modeIter 1596 ⟨.oamRead, 98, 0⟩ 0 = (⟨.oamRead, 112, 0⟩, 0) := by decide

set_option maxRecDepth 40000 in
theorem modeIter_chunk8 :
    modeIter 1596 ⟨.oamRead, 112, 0⟩ 0 = (⟨.oamRead, 126, 0⟩, 0) := by decide

set_option maxRecDepth 40000 in
theorem modeIter_chunk9 :
    modeIter 1596 ⟨.oamRead, 126, 0⟩ 0 = (⟨.oamRead, 140, 0⟩, 0) := by decide

set_option maxRecDepth 40000 in
theorem modeIter_chunk10 :
    modeIter 1596 ⟨.oamRead, 140, 0⟩ 0 = (⟨.oamRead, 0, 0⟩, 1) := by decide

theorem modeIter_17556 :
    modeIter 17556 ⟨.oamRead, 0, 0⟩ 0 = (⟨.oamRead, 0, 0⟩, 1) := by
  have s1 := modeIter_add 1596 15960 ⟨.oamRead, 0, 0⟩ 0
  rw [modeIter_chunk0] at s1
  have s2 := modeIter_add 1596 14364 ⟨.oamRead, 14, 0⟩ 0
  rw [modeIter_chunk1] at s2
  have s3 := modeIter_add 1596 12768 ⟨.oamRead, 28, 0⟩ 0
  rw [modeIter_chunk2] at s3
  have s4 := modeIter_add 1596 11172 ⟨.oamRead, 42, 0⟩ 0
  rw [modeIter_chunk3] at s4
  have s5 := modeIter_add 1596 9576 ⟨.oamRead, 56, 0⟩ 0
  rw [modeIter_chunk4] at s5
  have s6 := modeIter_add 1596 7980 ⟨.oamRead, 70, 0⟩ 0
  rw [modeIter_chunk5] at s6
  have s7 := modeIter_add 1596 6384 ⟨.oamRead, 84, 0⟩ 0
  rw [modeIter_chunk6] at s7
  have s8 := modeIter_add 1596 4788 ⟨.oamRead, 98, 0⟩ 0
  rw [modeIter_chunk7] at s8
  have s9 := modeIter_add 1596 3192 ⟨.oamRead, 112, 0⟩ 0
  rw [modeIter_chunk8] at s9
  have s10 := modeIter_add 1596 1596 ⟨.oamRead, 126, 0⟩ 0
  rw [modeIter_chunk9] at s10
  simp only at s1 s2 s3 s4 s5 s6 s7 s8 s9 s10
  rw [show (17556 : Nat) = 1596 + 15960 from rfl]
  rw [s1, show (15960 : Nat) = 1596 + 14364 from rfl]
  rw [s2, show (14364 : Nat) = 1596 + 12768 from rfl]
  rw [s3, show (12768 : Nat) = 1596 + 11172 from rfl]
  rw [s4, show (11172 : Nat) = 1596 + 9576 from rfl]
  rw [s5, show (9576 : Nat) = 1596 + 7980 from rfl]
  rw [s6, show (7980 : Nat) = 1596 + 6384 from rfl]
  rw [s7, show (6384 : Nat) = 1596 + 4788 from rfl]
  rw [s8, show (4788 : Nat) = 1596 + 3192 from rfl]
  rw [s9, show (3192 : Nat) = 1596 + 1596 from rfl]
  rw [s10]
  exact modeIter_chunk10

/-- The reference table `OPCODE_CYCLES` from the tests in
`src/instruction.rs`. -/
def OPCODE_CYCLES : List Nat := [
  1, 3, 2, 2, 1, 1, 2, 1, 5, 2, 2, 2, 1, 1, 2, 1, 0, 3, 2, 2, 1, 1, 2, 1, 3, 2, 2, 2, 1, 1, 2, 1,
  2, 3, 2, 2, 1, 1, 2, 1, 2, 2, 2, 2, 1, 1, 2, 1, 2, 3, 2, 2, 3, 3, 3, 1, 2, 2, 2, 2, 1, 1, 2, 1,
  1, 1, 1, 1, 1, 1, 2, 1, 1, 1, 1, 1, 1, 1, 2, 1, 1, 1, 1, 1, 1, 1, 2, 1, 1, 1, 1, 1, 1, 1, 2, 1,
  1, 1, 1, 1, 1, 1, 2, 1, 1, 1, 1, 1, 1, 1, 2, 1, 2, 2, 2, 2, 2, 2, 1, 2, 1, 1, 1, 1, 1, 1, 2, 1,
  1, 1, 1, 1, 1, 1, 2, 1, 1, 1, 1, 1, 1, 1, 2, 1, 1, 1, 1, 1, 1, 1, 2, 1, 1, 1, 1, 1, 1, 1, 2, 1,
  1, 1, 1, 1, 1, 1, 2, 1, 1, 1, 1, 1, 1, 1, 2, 1, 1, 1, 1, 1, 1, 1, 2, 1, 1, 1, 1, 1, 1, 1, 2, 1,
  2, 3, 3, 4, 3, 4, 2, 4, 2, 4, 3, 0, 3, 6, 2, 4, 2, 3, 3, 0, 3, 4, 2, 4, 2, 4, 3, 0, 3, 0, 2, 4,
  3, 3, 2, 0, 0, 4, 2, 4, 4, 1, 4, 0, 0, 0, 2, 4, 3, 3, 2, 1, 0, 4, 2, 4, 3, 2, 4, 1, 0, 0, 2, 4]

/-- The reference table `EXTENDED_OPCODE_CYCLES` from the tests in
`src/instruction.rs`. -/
def EXTENDED_OPCODE_CYCLES : List Nat := [
  2, 2, 2, 2, 2, 2, 4, 2, 2, 2, 2, 2, 2, 2, 4, 2, 2, 2, 2, 2, 2, 2, 4, 2, 2, 2, 2, 2, 2, 2, 4, 2,
  2, 2, 2, 2, 2, 2, 4, 2, 2, 2, 2, 2, 2, 2, 4, 2, 2, 2, 2, 2, 2, 2, 4, 2, 2, 2, 2, 2, 2, 2, 4, 2,
  2, 2, 2, 2, 2, 2, 3, 2, 2, 2, 2, 2, 2, 2, 3, 2, 2, 2, 2, 2, 2, 2, 3, 2, 2, 2, 2, 2, 2, 2, 3, 2,
  2, 2, 2, 2, 2, 2, 3, 2, 2, 2, 2, 2, 2, 2, 3, 2, 2, 2, 2, 2, 2, 2, 3, 2, 2, 2, 2, 2, 2, 2, 3, 2,
  2, 2, 2, 2, 2, 2, 4, 2, 2, 2, 2, 2, 2, 2, 4, 2, 2, 2, 2, 2, 2, 2, 4, 2, 2, 2, 2, 2, 2, 2, 4, 2,
  2, 2, 2, 2, 2, 2, 4, 2, 2, 2, 2, 2, 2, 2, 4, 2, 2, 2, 2, 2, 2, 2, 4, 2, 2, 2, 2, 2, 2, 2, 4, 2,
  2, 2, 2, 2, 2, 2, 4, 2, 2, 2, 2, 2, 2, 2, 4, 2, 2, 2, 2, 2, 2, 2, 4, 2, 2, 2, 2, 2, 2, 2, 4, 2,
  2, 2, 2, 2, 2, 2, 4, 2, 2, 2, 2, 2, 2, 2, 4, 2, 2, 2, 2, 2, 2, 2, 4, 2, 2, 2, 2, 2, 2, 2, 4, 2]

/-- The eleven primary opcodes the decoder has no arm for. -/
def invalidOpcodes : List Nat :=
  [0xd3, 0xdb, 0xdd, 0xe3, 0xe4, 0xeb, 0xec, 0xed, 0xf4, 0xfc, 0xfd]

/-- A memory whose every cell holds the same byte (the decoder test's
memory stream, specialised to the opcode byte). -/
def constMem : MemIntf (Nat → Nat) :=
  { read := fun m a => .ok (m a), write := fun m _ _ => .ok m }

/-- Decode a single primary opcode from a memory returning that byte. -/
def decodeByte (b : Nat) : Res InstructionError (Instruction × Cpu) :=
  fetchInstruction constMem Cpu.new (fun _ => b)

/-- Decode the CB-prefixed opcode `b`: the memory returns `0xcb` at `pc`
and `b` afterwards. -/
def decodeCBByte (b : Nat) : Res InstructionError (Instruction × Cpu) :=
  fetchInstruction constMem Cpu.new (fun a => if a = 0 then 0xcb else b)

/-- The M-cycle cost of a successful decode. -/
def cyclesOfDecode : Res InstructionError (Instruction × Cpu) → Option Nat
  | .ok (i, _) => some i.cycles
  | _ => none

/-- C1 (counterexample): the claim fails at the prefix byte `0xcb` — its
`OPCODE_CYCLES` entry is 0 and it is not among the eleven undefined
opcodes, yet decoding from a memory returning `0xcb` yields a CB-prefixed
instruction costing 2 M-cycles (the source's cycle test explicitly skips
`0xcb`). -/
theorem claim_C1_counterexample :
    cyclesOfDecode (decodeByte 0xcb) = some 2 ∧
      OPCODE_CYCLES.getD 0xcb 99 = 0 ∧ 0xcb ∉ invalidOpcodes := by decide

set_option maxRecDepth 200000 in
/-- C1 (amended): for every primary opcode other than the `0xcb` prefix
byte, decoding from a memory returning that byte yields an instruction
whose `cycles()` equals the `OPCODE_CYCLES` entry; the eleven undefined
opcodes decode to `InvalidOpcode` and have table entry 0; and every
CB-prefixed opcode decodes to an instruction whose `cycles()` equals the
`EXTENDED_OPCODE_CYCLES` entry. -/
theorem claim_C1 :
    (∀ b, b < 256 → b ∉ invalidOpcodes → b ≠ 0xcb →
      cyclesOfDecode (decodeByte b) = some (OPCODE_CYCLES.getD b 0)) ∧
    (∀ b ∈ invalidOpcodes,
      decodeByte b = .err (.invalidOpcode b) ∧ OPCODE_CYCLES.getD b 1 = 0) ∧
    (∀ b, b < 256 →
      cyclesOfDecode (decodeCBByte b) = some (EXTENDED_OPCODE_CYCLES.getD b 0)) := by
  decide

/-- C1 (witness): the amended theorem applied at the concrete opcodes
`0x00` (NOP, 1 M-cycle), `0xd3` (undefined) and CB `0x06` (RLC (HL),
4 M-cycles). -/
theorem claim_C1_witness :
    cyclesOfDecode (decodeByte 0x00) = some (OPCODE_CYCLES.getD 0x00 0) ∧
      decodeByte 0xd3 = .err (.invalidOpcode 0xd3) ∧
      cyclesOfDecode (decodeCBByte 0x06) = some (EXTENDED_OPCODE_CYCLES.getD 0x06 0) :=
  ⟨claim_C1.1 0x00 (by decide) (by decide) (by decide),
    (claim_C1.2.1 0xd3 (by decide)).1,
    claim_C1.2.2 0x06 (by decide)⟩

/-- Read the three timing fields off a `Gpu` whose projection is known. -/
theorem timing_fields {g : Gpu} {s : PpuTiming} (h : g.timing = s) :
    g.mode = s.mode ∧ g.line = s.line ∧ g.mode_cycles = s.cycles := by
  rw [← h]; exact ⟨rfl, rfl, rfl⟩

/-- C7: starting from line 0 / mode `OamRead` / `mode_cycles` 0, driving
the PPU for 17556 steps of 4 T-cycles (= 70224 T-cycles, the granularity
at which `Mmu::step` always drives it) reports `frame_done` exactly once
and returns the mode/line/mode_cycles state to the starting value,
whatever the rest of the PPU state is. -/
theorem claim_C7 (g : Gpu) (h1 : g.mode = .oamRead) (h2 : g.line = 0)
    (h3 : g.mode_cycles = 0) :
    (gpuIter 17556 g 0).1.mode = .oamRead ∧ (gpuIter 17556 g 0).1.line = 0 ∧
      (gpuIter 17556 g 0).1.mode_cycles = 0 ∧ (gpuIter 17556 g 0).2 = 1 := by
  have ht : g.timing = ⟨.oamRead, 0, 0⟩ := by simp [Gpu.timing, h1, h2, h3]
  have h := gpuIter_timing 17556 g 0
  rw [ht, modeIter_17556] at h
  obtain ⟨ha, hb⟩ := h
  obtain ⟨f1, f2, f3⟩ := timing_fields ha
  exact ⟨f1, f2, f3, hb⟩

/-- C7 (witness): the frame-loop theorem applied to the freshly
constructed PPU put in `OamRead`. -/
theorem claim_C7_witness :
    (gpuIter 17556 { Gpu.new with mode := .oamRead } 0).1.mode = .oamRead ∧
      (gpuIter 17556 { Gpu.new with mode := .oamRead } 0).1.line = 0 ∧
      (gpuIter 17556 { Gpu.new with mode := .oamRead } 0).1.mode_cycles = 0 ∧
      (gpuIter 17556 { Gpu.new with mode := .oamRead } 0).2 = 1 :=
  claim_C7 { Gpu.new with mode := .oamRead } rfl rfl rfl

set_option maxRecDepth 10000 in
/-- C9: for every byte, packing the unpacked palette returns the byte,
and unpacking the packed unpacked palette matches the unpacked palette at
each of the four entries. -/
theorem claim_C9 :
    ∀ b, b < 256 →
      packPalette (unpackPalette b) = b ∧
      ∀ i, i < 4 →
        unpackPalette (packPalette (unpackPalette b)) i = unpackPalette b i := by
  decide

/-- C9 (witness): the palette round-trip at byte `0xe4`. -/
theorem claim_C9_witness :
    packPalette (unpackPalette 0xe4) = 0xe4 ∧
      unpackPalette (packPalette (unpackPalette 0xe4)) 2 = unpackPalette 0xe4 2 :=
  ⟨(claim_C9 0xe4 (by decide)).1, (claim_C9 0xe4 (by decide)).2 2 (by decide)⟩

/-- A no-controller cartridge with a 32 KiB zeroed ROM and no RAM, used
for concrete bus states. -/
def cart0 : Cartridge :=
  { rom := fun _ => 0, romLen := 0x8000, ram := fun _ => 0, ramLen := 0,
    mbc := .none }

/-- C4: writing any value to `0xFF04` (DIV) through the MMU zeroes the
divider AND the counter (TIMA) — not the internal sub-cycle accumulators —
and leaves every other field of the bus untouched. -/
theorem claim_C4 (m : Mmu) (v : Nat) :
    Mmu.write m 0xff04 v =
      .ok { m with timer := { m.timer with divider := 0, counter := 0 } } := by
  simp [Mmu.write, Mmu.writeF]

/-- Extract the timer from a successful bus write. -/
def timerOf : Res MemoryError Mmu → Timer
  | .ok m => m.timer
  | _ => Timer.new

/-- A concrete bus whose timer holds `counter = 5` and accumulator
`div_sub = 3`. -/
def mC4 : Mmu :=
  { Mmu.new (fun _ => 0) cart0 Gpu.new with
    timer := { Timer.new with counter := 5, div_sub := 3 } }

/-- C4 (counterexample): the claim as stated is false — a DIV write
zeroes TIMA (the claim says it is unchanged: it was 5) and leaves the
internal accumulator at 3 (the claim says it is reset to 0). -/
theorem claim_C4_counterexample :
    (timerOf (Mmu.write mC4 0xff04 0)).counter = 0 ∧ mC4.timer.counter = 5 ∧
      (timerOf (Mmu.write mC4 0xff04 0)).div_sub = 3 := by decide

theorem small_or_small {x y : Nat} (hx : x < 32) (hy : y < 32) : x ||| y < 32 :=
  Nat.or_lt_two_pow (n := 5) hx hy

theorem small_bits : ∀ x, x < 32 → x &&& 0xe0 = 0 ∧ x &&& 0xff = x := by decide

theorem gpu_cycle_ints_lt (g : Gpu) (c : Nat) : (g.cycle c).2.2 < 32 := by
  unfold Gpu.cycle
  cases hm : g.mode <;> simp only [hm] <;> split_ifs <;> simp [Interrupts.LCD_STAT,
    Interrupts.VBLANK]

theorem timer_cycle_ints_lt (t : Timer) (c : Nat) : (t.cycle c).2 < 32 := by
  unfold Timer.cycle
  dsimp only
  split_ifs <;> simp

theorem processInterrupts_zero (M : MemIntf σ) (cpu : Cpu) (m : σ) :
    processInterrupts M cpu m 0 = .ok (0, 0, cpu, m) := by
  unfold processInterrupts
  split_ifs <;> simp_all

set_option maxHeartbeats 1600000 in
/-- C2 (amended): a halted CPU spends 4 M-cycles idle — `Mmu::step`
advances the PPU by 16 T-cycles (not 4) and the Timer by 4 M-cycles (not
1) — whereas a non-halted CPU advances the PPU by `4 × cycles` T-cycles
and the Timer by `cycles` M-cycles; in both cases the new interrupts of
PPU and Timer are ORed into the pending mask before dispatch is
attempted. Stated with interrupt dispatch masked off
(`interrupts_enabled = 0`) so that the pre-dispatch state is the final
one; the pending mask is assumed within its 5-bit `bitflags` range. -/
theorem claim_C2 :
    (∀ (m : Mmu) (cpu : Cpu), cpu.halted = true → m.interrupts_enabled = 0 →
      m.interrupts < 32 →
      Mmu.step m cpu = .ok ({ m with
          gpu := (m.gpu.cycle 16).1,
          timer := (m.timer.cycle 4).1,
          interrupts := (m.interrupts ||| (m.gpu.cycle 16).2.2) |||
            (m.timer.cycle 4).2 },
        cpu, (m.gpu.cycle 16).2.1)) ∧
    (∀ (m : Mmu) (cpu : Cpu) (c : Nat) (cpu2 : Cpu) (m2 : Mmu),
      cpu.halted = false →
      execNextInstruction mmuIntf cpu m = .ok (c, cpu2, m2) →
      m2.interrupts_enabled = 0 → m2.interrupts < 32 →
      Mmu.step m cpu = .ok ({ m2 with
          gpu := (m2.gpu.cycle (4 * c)).1,
          timer := (m2.timer.cycle c).1,
          interrupts := (m2.interrupts ||| (m2.gpu.cycle (4 * c)).2.2) |||
            (m2.timer.cycle c).2 },
        cpu2, (m2.gpu.cycle (4 * c)).2.1)) := by
  constructor
  · intro m cpu hhalt hIE hint
    have hg := gpu_cycle_ints_lt m.gpu 16
    have ht := timer_cycle_ints_lt m.timer 4
    unfold Mmu.step
    rw [hhalt]
    have h16 : 4 * 4 = 16 := by norm_num
    simp only [if_true, h16]
    rcases hgc : m.gpu.cycle 16 with ⟨g, frame, ni⟩
    rcases htc : m.timer.cycle 4 with ⟨t, ni2⟩
    rw [hgc] at hg
    rw [htc] at ht
    simp only [hIE]
    have hX : (m.interrupts ||| ni) ||| ni2 < 32 :=
      small_or_small (small_or_small hint hg) ht
    have hzero : ((m.interrupts ||| ni) ||| ni2) &&&
        (0xff ^^^ ((0xff ^^^ 0) &&& 0x1f)) = 0 := by
      have := (small_bits _ hX).1
      simpa using this
    have hmask : ((m.interrupts ||| ni) ||| ni2) &&& 0xff =
        (m.interrupts ||| ni) ||| ni2 := (small_bits _ hX).2
    simp only [hzero, processInterrupts_zero]
    simp [hmask]
  · intro m cpu c cpu2 m2 hhalt hexec hIE hint
    have hg := gpu_cycle_ints_lt m2.gpu (4 * c)
    have ht := timer_cycle_ints_lt m2.timer c
    unfold Mmu.step
    rw [hhalt, hexec]
    simp only [Bool.false_eq_true, if_false]
    rcases hgc : m2.gpu.cycle (4 * c) with ⟨g, frame, ni⟩
    rcases htc : m2.timer.cycle c with ⟨t, ni2⟩
    rw [hgc] at hg
    rw [htc] at ht
    simp only [hIE]
    have hX : (m2.interrupts ||| ni) ||| ni2 < 32 :=
      small_or_small (small_or_small hint hg) ht
    have hzero : ((m2.interrupts ||| ni) ||| ni2) &&&
        (0xff ^^^ ((0xff ^^^ 0) &&& 0x1f)) = 0 := by
      have := (small_bits _ hX).1
      simpa using this
    have hmask : ((m2.interrupts ||| ni) ||| ni2) &&& 0xff =
        (m2.interrupts ||| ni) ||| ni2 := (small_bits _ hX).2
    simp only [hzero, processInterrupts_zero]
    simp [hmask]

/-- Extract the bus from a successful step. -/
def stepMmu : Res MemoryError (Mmu × Cpu × Bool) → Mmu
  | .ok (m, _, _) => m
  | _ => Mmu.new (fun _ => 0) cart0 Gpu.new

/-- A fresh bus over the zero boot ROM and `cart0`. -/
def mHalt : Mmu := Mmu.new (fun _ => 0) cart0 Gpu.new

/-- A freshly reset CPU in the halted state. -/
def cpuHalt : Cpu := { Cpu.new with halted := true }

/-- C2 (counterexample): stepping a halted CPU advances the PPU's
`mode_cycles` from 0 to 16 (the claim says 4 T-cycles) and consumes a
full 4-M-cycle timer unit (`div_sub` becomes 1; one M-cycle would leave
it at 0). -/
theorem claim_C2_counterexample :
    (stepMmu (Mmu.step mHalt cpuHalt)).gpu.mode_cycles = 16 ∧
      mHalt.gpu.mode_cycles = 0 ∧
      (stepMmu (Mmu.step mHalt cpuHalt)).timer.div_sub = 1 ∧
      mHalt.timer.div_sub = 0 := by decide

/-- C2 (witness): the amended step theorem applied to the fresh halted
bus, and to a non-halted CPU executing the NOP at address 0. -/
theorem claim_C2_witness :
    (Mmu.step mHalt cpuHalt = .ok ({ mHalt with
        gpu := (mHalt.gpu.cycle 16).1,
        timer := (mHalt.timer.cycle 4).1,
        interrupts := (mHalt.interrupts ||| (mHalt.gpu.cycle 16).2.2) |||
          (mHalt.timer.cycle 4).2 },
      cpuHalt, (mHalt.gpu.cycle 16).2.1)) ∧
    (Mmu.step mHalt Cpu.new = .ok ({ mHalt with
        gpu := (mHalt.gpu.cycle (4 * 1)).1,
        timer := (mHalt.timer.cycle 1).1,
        interrupts := (mHalt.interrupts ||| (mHalt.gpu.cycle (4 * 1)).2.2) |||
          (mHalt.timer.cycle 1).2 },
      { Cpu.new with pc := 1 }, (mHalt.gpu.cycle (4 * 1)).2.1)) :=
  ⟨claim_C2.1 mHalt cpuHalt rfl rfl (by decide),
    claim_C2.2 mHalt Cpu.new 1 { Cpu.new with pc := 1 } mHalt rfl rfl rfl
      (by decide)⟩

/-- The boot-ROM image for the EI-delay scenario: `EI` at address 0
followed by `NOP`s. -/
def biosC3 : Nat → Nat := fun a => if a = 0 then 0xfb else 0

/-- The EI-delay bus: pending `IF = 0x01` (VBlank) and `IE = 0x01`. -/
def mC3 : Mmu :=
  { Mmu.new biosC3 cart0 Gpu.new with interrupts := 1, interrupts_enabled := 1 }

/-- The EI-delay CPU: freshly reset, stack in HRAM. -/
def cpuC3 : Cpu := { Cpu.new with sp := 0xfffe }

/-- Iterate `Mmu::step`, propagating failures. -/
def stepN : Nat → Mmu → Cpu → Res MemoryError (Mmu × Cpu × Bool)
  | 0, m, cpu => .ok (m, cpu, false)
  | n + 1, m, cpu =>
    match Mmu.step m cpu with
    | .ok (m2, cpu2, _) => stepN n m2 cpu2
    | .err e => .err e
    | .panic => .panic

/-- The program counter after a successful step sequence. -/
def pcOf : Res MemoryError (Mmu × Cpu × Bool) → Option Nat
  | .ok (_, cpu, _) => some cpu.pc
  | _ => none

/-- The IME state after a successful step sequence. -/
def istateOf : Res MemoryError (Mmu × Cpu × Bool) → Option InterruptState
  | .ok (_, cpu, _) => some cpu.interrupt_state
  | _ => none

/-- The pending-interrupt mask after a successful step sequence. -/
def intsOf : Res MemoryError (Mmu × Cpu × Bool) → Option Nat
  | .ok (m, _, _) => some m.interrupts
  | _ => none

/-- C3 (counterexample): in the `EI; NOP; NOP` scenario with IF=IE=0x01,
the VBlank interrupt is dispatched at the end of the step that executes
the FIRST `NOP` — after two steps the CPU already sits at the 0x0040
vector — contradicting the claim that dispatch happens only after the
second `NOP`. -/
theorem claim_C3_counterexample :
    pcOf (stepN 2 mC3 cpuC3) = some 0x40 ∧
      istateOf (stepN 2 mC3 cpuC3) = some .disabled ∧
      intsOf (stepN 2 mC3 cpuC3) = some 0 := by decide

/-- C3 (amended): executing `EI; NOP; NOP` with IME=Disabled, IF=0x01,
IE=0x01: the step executing `EI` does not dispatch (the CPU proceeds to
the first NOP with IME in `ShouldEnable`); IME becomes `Enabled` at the
start of the next instruction, so the VBlank interrupt is dispatched at
the end of the step executing the FIRST `NOP` (pc = 0x0040, IME cleared,
IF bit consumed) — one instruction earlier than the claim states. -/
theorem claim_C3 :
    pcOf (stepN 1 mC3 cpuC3) = some 1 ∧
      istateOf (stepN 1 mC3 cpuC3) = some .shouldEnable ∧
      intsOf (stepN 1 mC3 cpuC3) = some 1 ∧
      pcOf (stepN 2 mC3 cpuC3) = some 0x40 ∧
      istateOf (stepN 2 mC3 cpuC3) = some .disabled ∧
      intsOf (stepN 2 mC3 cpuC3) = some 0 := by decide

set_option maxHeartbeats 800000 in
/-- C5 (amended): for an MBC1 cartridge with RAM enabled and a non-empty
RAM buffer, a read or write in `0xA000..=0xBFFF` uses the effective
offset `(ram_offset + (address & 0x1ffff)) % ram_len` — the mask is 17
bits wide, so the **full bus address** (including its `0xA000` base)
enters the modulo, not just `address & 0x1FFF`; with RAM disabled reads
return `0xFF` and writes leave the cartridge unchanged. For 8 KiB RAM the
two formulas agree (`0xA000` is a multiple of `0x2000`), but not for
larger RAM sizes. -/
theorem claim_C5 :
    (∀ (c : Cartridge) (st : MBC1State) (a v : Nat),
      c.mbc = .mbc1 st → st.enable_ram = true → 0 < c.ramLen →
      0xa000 ≤ a → a ≤ 0xbfff →
      c.read a = .ok (c.ram ((st.ramOffset + (a &&& 0x1ffff)) % c.ramLen)) ∧
      c.write a v = .ok { c with
        ram := fnUpdate c.ram ((st.ramOffset + (a &&& 0x1ffff)) % c.ramLen) v }) ∧
    (∀ (c : Cartridge) (st : MBC1State) (a v : Nat),
      c.mbc = .mbc1 st → st.enable_ram = false →
      0xa000 ≤ a → a ≤ 0xbfff →
      c.read a = .ok 0xff ∧ c.write a v = .ok c) := by
  constructor
  · intro c st a v hmbc hen hlen h1 h2
    constructor
    · unfold Cartridge.read
      simp only [hmbc]
      rw [if_neg (by omega), if_neg (by omega), if_pos ⟨h1, h2, hen⟩]
      unfold Cartridge.readRam
      rw [if_neg (by omega)]
    · unfold Cartridge.write
      simp only [hmbc]
      rw [if_neg (by omega), if_neg (by omega), if_neg (by omega),
        if_neg (by omega), if_pos ⟨h1, h2, hen⟩]
      unfold Cartridge.writeRam
      rw [if_neg (by omega), hmbc]
  · intro c st a v hmbc hen h1 h2
    constructor
    · unfold Cartridge.read
      simp only [hmbc]
      rw [if_neg (by omega), if_neg (by omega), if_neg (by simp [hen])]
    · unfold Cartridge.write
      simp only [hmbc]
      rw [if_neg (by omega), if_neg (by omega), if_neg (by omega),
        if_neg (by omega), if_neg (by simp [hen])]

/-- An MBC1 cartridge with 8 KiB RAM, RAM enabled. -/
def cartW5 : Cartridge :=
  { rom := fun _ => 0, romLen := 0x8000, ram := fun _ => 0, ramLen := 0x2000,
    mbc := .mbc1 { MBC1State.new with enable_ram := true } }

/-- C5 (witness): the amended RAM-window theorem applied to `cartW5` at
address `0xA123`, and the disabled case applied to a fresh MBC1 cart. -/
theorem claim_C5_witness :
    (Cartridge.read cartW5 0xa123 =
      .ok (cartW5.ram ((MBC1State.ramOffset { MBC1State.new with enable_ram := true } +
        (0xa123 &&& 0x1ffff)) % cartW5.ramLen))) ∧
    Cartridge.read { cartW5 with mbc := .mbc1 MBC1State.new } 0xa123 = .ok 0xff :=
  ⟨(claim_C5.1 cartW5 { MBC1State.new with enable_ram := true } 0xa123 0 rfl rfl
      (by decide) (by decide) (by decide)).1,
    (claim_C5.2 { cartW5 with mbc := .mbc1 MBC1State.new } MBC1State.new 0xa123 0
      rfl rfl (by decide) (by decide)).1⟩

/-- An MBC1 cartridge with 32 KiB RAM in RAM-banking mode, `bank2 = 0`,
RAM enabled; the RAM holds 1 at index `0x2000` and 0 elsewhere. -/
def cartC5 : Cartridge :=
  { rom := fun _ => 0, romLen := 0x8000,
    ram := fun i => if i = 0x2000 then 1 else 0, ramLen := 0x8000,
    mbc := .mbc1 { enable_ram := true, ram_mode := true, bank1 := 1, bank2 := 0 } }

/-- C5 (counterexample): with 32 KiB RAM, mode flag set and `bank2 = 0`,
the claim's offset for address `0xA000` is
`(0 * 0x2000 + (0xA000 & 0x1FFF)) % 0x8000 = 0`, holding 0 — but the code
reads RAM index `(0 + 0xA000) % 0x8000 = 0x2000`, holding 1. -/
theorem claim_C5_counterexample :
    Cartridge.read cartC5 0xa000 = .ok 1 ∧
      cartC5.ram ((0 * 0x2000 + (0xa000 &&& 0x1fff)) % cartC5.ramLen) = 0 := by
  decide

/-- C6 (amended): rendering a scanline with the LCD on and LCDC bit 0
(BG enable) clear — window and sprite layers off — fills the **entire**
framebuffer with colour index 0 (the source's `framebuffer.fill(0)`), not
just the current line, and not with `bg_palette[0]`. -/
theorem claim_C6 (g : Gpu)
    (hLcd : hasFlag g.lcd_control LcdControl.LCD_ENABLE = true)
    (hBg : hasFlag g.lcd_control LcdControl.BG_WINDOW_ENABLE = false)
    (hWin : hasFlag g.lcd_control LcdControl.WINDOW_ENABLE = false)
    (hObj : hasFlag g.lcd_control LcdControl.OBJ_ENABLE = false) :
    g.renderScanline = { g with framebuffer := fun _ => 0 } := by
  unfold Gpu.renderScanline
  simp [hLcd, hBg, hWin, hObj]

/-- A PPU state on line 0 with only the LCD-enable bit set,
`bg_palette[0] = 3`, and one lit pixel on line 1 of the framebuffer. -/
def gC6 : Gpu :=
  { Gpu.new with
    lcd_control := 0x80
    bg_palette := fun i => if i = 0 then 3 else 0
    framebuffer := fun i => if i = 200 then 2 else 0 }

/-- C6 (witness): the amended theorem applied to `gC6`. -/
theorem claim_C6_witness :
    gC6.renderScanline = { gC6 with framebuffer := fun _ => 0 } :=
  claim_C6 gC6 (by decide) (by decide) (by decide) (by decide)

/-- C6 (counterexample): rendering line 0 of `gC6` zeroes pixel 200 —
which lies on line 1, refuting "all other lines unchanged" (it held 2) —
and writes 0, not `bg_palette[0] = 3`, at pixel 0 of the rendered line. -/
theorem claim_C6_counterexample :
    (Gpu.renderScanline gC6).framebuffer 200 = 0 ∧ gC6.framebuffer 200 = 2 ∧
      (Gpu.renderScanline gC6).framebuffer 0 = 0 ∧ gC6.bg_palette 0 = 3 ∧
      gC6.line = 0 := by decide

/-- Apply a list of `(address, value)` bus writes in order; a rejected
write (error or panic) leaves the state unchanged, as the source's write
arms return their error before mutating. -/
def Mmu.applyWrites (m : Mmu) : List (Nat × Nat) → Mmu
  | [] => m
  | (a, v) :: rest =>
    match m.write a v with
    | .ok m2 => Mmu.applyWrites m2 rest
    | _ => Mmu.applyWrites m rest

theorem cart_write_ok (c : Cartridge) (a v : Nat) :
    ∃ c2, c.write a v = .ok c2 := by
  unfold Cartridge.write
  cases hm : c.mbc <;> simp only [hm] <;> (try split_ifs) <;> exact ⟨_, rfl⟩

theorem dmaLoop_bios_off (wr : Mmu → Nat → Nat → Res MemoryError Mmu)
    (hwr : ∀ m a v m2, m.use_bios = false → wr m a v = .ok m2 →
      m2.use_bios = false) :
    ∀ (r : Nat) (base : Nat) (m m2 : Mmu), m.use_bios = false →
      Mmu.dmaLoop wr base r m = .ok m2 → m2.use_bios = false := by
  intro r
  induction r with
  | zero =>
    intro base m m2 hb h
    rw [Mmu.dmaLoop] at h
    cases h
    exact hb
  | succ k ih =>
    intro base m m2 hb h
    rw [Mmu.dmaLoop] at h
    split at h
    · rename_i v hrd
      split at h
      · rename_i mm hwrr
        exact ih base mm m2 (hwr m _ v mm hb hwrr) h
      · simp at h
      · simp at h
    · simp at h
    · simp at h

theorem ok_use_bios {x m2 : Mmu} (h : Res.ok (ε := MemoryError) x = .ok m2)
    (hx : x.use_bios = false) : m2.use_bios = false := by
  cases h; exact hx

set_option maxHeartbeats 6400000 in
theorem writeF_bios_off : ∀ (fuel : Nat) (m : Mmu) (a v : Nat) (m2 : Mmu),
    m.use_bios = false → Mmu.writeF fuel m a v = .ok m2 →
    m2.use_bios = false := by
  intro fuel
  induction fuel with
  | zero => intro m a v m2 _ h; rw [Mmu.writeF] at h; exact Res.noConfusion h
  | succ f ih =>
    intro m a v m2 hb h
    rw [Mmu.writeF] at h
    by_cases hc : a ≤ 0xff ∧ m.use_bios = true
    · rw [if_pos hc] at h; exact Res.noConfusion h
    rw [if_neg hc] at h
    by_cases hc : a ≤ 0x7fff
    · rw [if_pos hc] at h
      cases hcw : m.cart.write a v <;> rw [hcw] at h
      · exact ok_use_bios h hb
      · exact Res.noConfusion h
      · exact Res.noConfusion h
    rw [if_neg hc] at h
    by_cases hc : a ≤ 0x9fff
    · rw [if_pos hc] at h; exact ok_use_bios h hb
    rw [if_neg hc] at h
    by_cases hc : a ≤ 0xbfff
    · rw [if_pos hc] at h
      cases hcw : m.cart.write a v <;> rw [hcw] at h
      · exact ok_use_bios h hb
      · exact Res.noConfusion h
      · exact Res.noConfusion h
    rw [if_neg hc] at h
    by_cases hc : a ≤ 0xdfff
    · rw [if_pos hc] at h; exact ok_use_bios h hb
    rw [if_neg hc] at h
    by_cases hc : a ≤ 0xfdff
    · rw [if_pos hc] at h; exact ih m (a - 0x2000) v m2 hb h
    rw [if_neg hc] at h
    by_cases hc : a ≤ 0xfe9f
    · rw [if_pos hc] at h; exact ok_use_bios h hb
    rw [if_neg hc] at h
    by_cases hc : a ≤ 0xfeff
    · rw [if_pos hc] at h; exact ok_use_bios h hb
    rw [if_neg hc] at h
    by_cases hc : a = 0xff00
    · rw [if_pos hc] at h; exact ok_use_bios h hb
    rw [if_neg hc] at h
    by_cases hc : a = 0xff01
    · rw [if_pos hc] at h; exact ok_use_bios h hb
    rw [if_neg hc] at h
    by_cases hc : a = 0xff02
    · rw [if_pos hc] at h; exact ok_use_bios h hb
    rw [if_neg hc] at h
    by_cases hc : a = 0xff04
    · rw [if_pos hc] at h; exact ok_use_bios h hb
    rw [if_neg hc] at h
    by_cases hc : a = 0xff05
    · rw [if_pos hc] at h; exact ok_use_bios h hb
    rw [if_neg hc] at h
    by_cases hc : a = 0xff06
    · rw [if_pos hc] at h; exact ok_use_bios h hb
    rw [if_neg hc] at h
    by_cases hc : a = 0xff07
    · rw [if_pos hc] at h; exact ok_use_bios h hb
    rw [if_neg hc] at h
    by_cases hc : a = 0xff0f
    · rw [if_pos hc] at h; exact ok_use_bios h hb
    rw [if_neg hc] at h
    by_cases hc : 0xff10 ≤ a ∧ a ≤ 0xff26
    · rw [if_pos hc] at h; exact ok_use_bios h hb
    rw [if_neg hc] at h
    by_cases hc : 0xff30 ≤ a ∧ a ≤ 0xff3f
    · rw [if_pos hc] at h; exact ok_use_bios h hb
    rw [if_neg hc] at h
    by_cases hc : a = 0xff40
    · rw [if_pos hc] at h; exact ok_use_bios h hb
    rw [if_neg hc] at h
    by_cases hc : a = 0xff41
    · rw [if_pos hc] at h; exact ok_use_bios h hb
    rw [if_neg hc] at h
    by_cases hc : a = 0xff42
    · rw [if_pos hc] at h; exact ok_use_bios h hb
    rw [if_neg hc] at h
    by_cases hc : a = 0xff43
    · rw [if_pos hc] at h; exact ok_use_bios h hb
    rw [if_neg hc] at h
    by_cases hc : a = 0xff44
    · rw [if_pos hc] at h; exact Res.noConfusion h
    rw [if_neg hc] at h
    by_cases hc : a = 0xff45
    · rw [if_pos hc] at h; exact ok_use_bios h hb
    rw [if_neg hc] at h
    by_cases hc : a = 0xff46
    · rw [if_pos hc] at h
      by_cases hv1 : v > 0xf1
      · rw [if_pos hv1] at h; exact Res.noConfusion h
      · rw [if_neg hv1] at h
        exact dmaLoop_bios_off _ (fun mm aa vv mm2 hbb hh => ih mm aa vv mm2 hbb hh)
          0xa0 (v <<< 8) m m2 hb h
    rw [if_neg hc] at h
    by_cases hc : a = 0xff47
    · rw [if_pos hc] at h; exact ok_use_bios h hb
    rw [if_neg hc] at h
    by_cases hc : a = 0xff48
    · rw [if_pos hc] at h; exact ok_use_bios h hb
    rw [if_neg hc] at h
    by_cases hc : a = 0xff49
    · rw [if_pos hc] at h; exact ok_use_bios h hb
    rw [if_neg hc] at h
    by_cases hc : a = 0xff4a
    · rw [if_pos hc] at h; exact ok_use_bios h hb
    rw [if_neg hc] at h
    by_cases hc : a = 0xff4b
    · rw [if_pos hc] at h; exact ok_use_bios h hb
    rw [if_neg hc] at h
    by_cases hc : a = 0xff4d
    · rw [if_pos hc] at h; exact ok_use_bios h hb
    rw [if_neg hc] at h
    by_cases hc : a = 0xff50
    · rw [if_pos hc] at h
      by_cases hv0 : v ≠ 0
      · rw [if_pos hv0] at h; exact ok_use_bios h rfl
      · rw [if_neg hv0] at h; exact ok_use_bios h hb
    rw [if_neg hc] at h
    by_cases hc : 0xff70 ≤ a ∧ a ≤ 0xff7f
    · rw [if_pos hc] at h; exact ok_use_bios h hb
    rw [if_neg hc] at h
    by_cases hc : 0xff80 ≤ a ∧ a ≤ 0xfffe
    · rw [if_pos hc] at h; exact ok_use_bios h hb
    rw [if_neg hc] at h
    by_cases hc : a = 0xffff
    · rw [if_pos hc] at h; exact ok_use_bios h hb
    rw [if_neg hc] at h
    exact ok_use_bios h hb

theorem applyWrites_bios_off (ws : List (Nat × Nat)) :
    ∀ (m : Mmu), m.use_bios = false →
      (Mmu.applyWrites m ws).use_bios = false := by
  induction ws with
  | nil => intro m hb; exact hb
  | cons p rest ih =>
    intro m hb
    rcases p with ⟨a, v⟩
    rw [Mmu.applyWrites]
    cases hw : m.write a v with
    | ok m2 => exact ih m2 (writeF_bios_off 3 m a v m2 hb hw)
    | err e => exact ih m hb
    | panic => exact ih m hb

theorem read0_cart_of_bios_off (m : Mmu) (hb : m.use_bios = false) :
    m.read 0 = m.cart.read 0 := by
  unfold Mmu.read
  show Mmu.readF (1 + 1) m 0 = _
  rw [Mmu.readF]
  rw [if_neg (by rintro ⟨-, hh⟩; rw [hb] at hh; exact Bool.false_ne_true hh),
    if_pos (by omega)]

/-- C8: after the first non-zero write to `0xFF50` the boot-ROM overlay
is off, it stays off through ANY later sequence of bus writes (including
writes of 0 or anything else to `0xFF50`), a read of `0x0000` in every
such state is served by the cartridge, and for a no-controller cartridge
with a non-empty ROM that is its byte 0. -/
theorem claim_C8 (m : Mmu) (v : Nat) (hv : v ≠ 0) (ws : List (Nat × Nat)) :
    Mmu.write m 0xff50 v = .ok { m with use_bios := false } ∧
      (Mmu.applyWrites { m with use_bios := false } ws).use_bios = false ∧
      Mmu.read (Mmu.applyWrites { m with use_bios := false } ws) 0 =
        Cartridge.read (Mmu.applyWrites { m with use_bios := false } ws).cart 0 ∧
      (∀ c : Cartridge, c.mbc = .none → 0 < c.romLen →
        Cartridge.read c 0 = .ok (c.rom 0)) := by
  refine ⟨?_, applyWrites_bios_off ws _ rfl,
    read0_cart_of_bios_off _ (applyWrites_bios_off ws _ rfl), ?_⟩
  · unfold Mmu.write
    show Mmu.writeF (2 + 1) m 0xff50 v = _
    rw [Mmu.writeF]
    simp only [show ¬(0xff50 ≤ 0xff ∧ m.use_bios = true) from by rintro ⟨hh, -⟩; omega]
    norm_num
    intro h0
    exact absurd h0 hv
  · intro c hmbc hlen
    unfold Cartridge.read
    simp only [hmbc]
    exact if_pos hlen

/-- C8 (witness): turn the overlay off on the fresh bus with `v = 1`,
then write 0 back to `0xFF50`; the overlay stays off and address 0 reads
from the cartridge (`cart0`'s byte 0). -/
theorem claim_C8_witness :
    Mmu.write mHalt 0xff50 1 = .ok { mHalt with use_bios := false } ∧
      (Mmu.applyWrites { mHalt with use_bios := false } [(0xff50, 0)]).use_bios
        = false ∧
      Mmu.read (Mmu.applyWrites { mHalt with use_bios := false } [(0xff50, 0)]) 0 =
        Cartridge.read (Mmu.applyWrites { mHalt with use_bios := false }
          [(0xff50, 0)]).cart 0 ∧
      (∀ c : Cartridge, c.mbc = .none → 0 < c.romLen →
        Cartridge.read c 0 = .ok (c.rom 0)) :=
  claim_C8 mHalt 1 (by decide) [(0xff50, 0)]

/-! ## C10: error behaviour of the bus -/

/-- A well-formed cartridge for bus purposes: every cartridge read the
MMU can issue (addresses below `0xc000` outside the VRAM window) succeeds
— i.e. no out-of-bounds ROM indexing and no `% 0`. -/
def CartOk (c : Cartridge) : Prop :=
  ∀ x, x < 0xc000 → (0x8000 ≤ x ∧ x ≤ 0x9fff) ∨ (Cartridge.read c x).isOk = true

theorem not_isOk_err (e : ε) : ¬((Res.err (α := α) e).isOk = true) :=
  fun hh => Bool.false_ne_true hh

theorem not_isOk_panic : ¬((Res.panic (ε := ε) (α := α)).isOk = true) :=
  fun hh => Bool.false_ne_true hh

theorem isOk_exists {x : Res ε α} (h : x.isOk = true) : ∃ y, x = .ok y := by
  cases x with
  | ok y => exact ⟨y, rfl⟩
  | err e => exact absurd h (not_isOk_err e)
  | panic => exact absurd h not_isOk_panic

/-- `Cartridge::read` never constructs a `MemoryError` (it can only
succeed or panic on a bad index). -/
theorem cart_read_no_err (c : Cartridge) (a : Nat) :
    (Cartridge.read c a).isErr = false := by
  unfold Cartridge.read
  cases hm : c.mbc <;> simp only [hm] <;> (try split_ifs) <;> rfl

/-- An `Ok` outcome is in particular not an `Err`. -/
theorem isOk_not_isErr {x : Res ε α} (h : x.isOk = true) : x.isErr = false := by
  cases x with
  | ok y => rfl
  | err e => exact absurd h (not_isOk_err e)
  | panic => rfl

/-- Reads in `0xc000..=0xdfff` land in the work-RAM arm. -/
theorem readF_wram (f : Nat) (m : Mmu) (a : Nat) (hf : 1 ≤ f)
    (h1 : 0xc000 ≤ a) (h2 : a ≤ 0xdfff) :
    Mmu.readF f m a = .ok (m.wram (a - 0xc000)) := by
  obtain ⟨k, rfl⟩ : ∃ k, f = k + 1 := ⟨f - 1, by omega⟩
  rw [Mmu.readF, if_neg (by rintro ⟨hh, -⟩; omega), if_neg (by omega),
    if_neg (by omega), if_neg (by omega), if_pos h2]

/-- For a well-formed cartridge, `Mmu::read` always returns `Ok` (the
echo-RAM mirror recursion lands in work RAM, so the fuel suffices). -/
theorem read_isOk (m : Mmu) (a : Nat) (hc : CartOk m.cart) :
    (Mmu.read m a).isOk = true := by
  have hun : Mmu.read m a = Mmu.readF (1 + 1) m a := rfl
  rw [hun, Mmu.readF]
  by_cases hcnd : a ≤ 0xff ∧ m.use_bios = true
  · rw [if_pos hcnd]; rfl
  rw [if_neg hcnd]
  by_cases hcnd : a ≤ 0x7fff
  · rw [if_pos hcnd]
    exact (hc a (by omega)).resolve_left (by omega)
  rw [if_neg hcnd]
  by_cases hcnd : a ≤ 0x9fff
  · rw [if_pos hcnd]; rfl
  rw [if_neg hcnd]
  by_cases hcnd : a ≤ 0xbfff
  · rw [if_pos hcnd]
    exact (hc a (by omega)).resolve_left (by omega)
  rw [if_neg hcnd]
  by_cases hcnd : a ≤ 0xdfff
  · rw [if_pos hcnd]; rfl
  rw [if_neg hcnd]
  by_cases hcnd : a ≤ 0xfdff
  · rw [if_pos hcnd, readF_wram 1 m (a - 0x2000) (by omega) (by omega) (by omega)]
    rfl
  rw [if_neg hcnd]
  by_cases hcnd : a ≤ 0xfe9f
  · rw [if_pos hcnd]; rfl
  rw [if_neg hcnd]
  by_cases hcnd : a ≤ 0xfeff
  · rw [if_pos hcnd]; rfl
  rw [if_neg hcnd]
  by_cases hcnd : a = 0xff00
  · rw [if_pos hcnd]; rfl
  rw [if_neg hcnd]
  by_cases hcnd : a = 0xff04
  · rw [if_pos hcnd]; rfl
  rw [if_neg hcnd]
  by_cases hcnd : a = 0xff05
  · rw [if_pos hcnd]; rfl
  rw [if_neg hcnd]
  by_cases hcnd : a = 0xff06
  · rw [if_pos hcnd]; rfl
  rw [if_neg hcnd]
  by_cases hcnd : a = 0xff07
  · rw [if_pos hcnd]; rfl
  rw [if_neg hcnd]
  by_cases hcnd : a = 0xff0f
  · rw [if_pos hcnd]; rfl
  rw [if_neg hcnd]
  by_cases hcnd : 0xff10 ≤ a ∧ a ≤ 0xff26
  · rw [if_pos hcnd]; rfl
  rw [if_neg hcnd]
  by_cases hcnd : 0xff30 ≤ a ∧ a ≤ 0xff3f
  · rw [if_pos hcnd]; rfl
  rw [if_neg hcnd]
  by_cases hcnd : a = 0xff40
  · rw [if_pos hcnd]; rfl
  rw [if_neg hcnd]
  by_cases hcnd : a = 0xff41
  · rw [if_pos hcnd]; rfl
  rw [if_neg hcnd]
  by_cases hcnd : a = 0xff42
  · rw [if_pos hcnd]; rfl
  rw [if_neg hcnd]
  by_cases hcnd : a = 0xff43
  · rw [if_pos hcnd]; rfl
  rw [if_neg hcnd]
  by_cases hcnd : a = 0xff44
  · rw [if_pos hcnd]; rfl
  rw [if_neg hcnd]
  by_cases hcnd : a = 0xff45
  · rw [if_pos hcnd]; rfl
  rw [if_neg hcnd]
  by_cases hcnd : a = 0xff47
  · rw [if_pos hcnd]; rfl
  rw [if_neg hcnd]
  by_cases hcnd : a = 0xff48
  · rw [if_pos hcnd]; rfl
  rw [if_neg hcnd]
  by_cases hcnd : a = 0xff49
  · rw [if_pos hcnd]; rfl
  rw [if_neg hcnd]
  by_cases hcnd : a = 0xff4a
  · rw [if_pos hcnd]; rfl
  rw [if_neg hcnd]
  by_cases hcnd : a = 0xff4b
  · rw [if_pos hcnd]; rfl
  rw [if_neg hcnd]
  by_cases hcnd : a = 0xff4d
  · rw [if_pos hcnd]; rfl
  rw [if_neg hcnd]
  by_cases hcnd : 0xff80 ≤ a ∧ a ≤ 0xfffe
  · rw [if_pos hcnd]; rfl
  rw [if_neg hcnd]
  by_cases hcnd : a = 0xffff
  · rw [if_pos hcnd]; rfl
  rw [if_neg hcnd]
  rfl

/-- Writes in `0xc000..=0xdfff` land in the work-RAM arm. -/
theorem writeF_wram (f : Nat) (m : Mmu) (a v : Nat) (hf : 1 ≤ f)
    (h1 : 0xc000 ≤ a) (h2 : a ≤ 0xdfff) :
    Mmu.writeF f m a v = .ok { m with wram := fnUpdate m.wram (a - 0xc000) v } := by
  obtain ⟨k, rfl⟩ : ∃ k, f = k + 1 := ⟨f - 1, by omega⟩
  rw [Mmu.writeF, if_neg (by rintro ⟨hh, -⟩; omega), if_neg (by omega),
    if_neg (by omega), if_neg (by omega), if_pos h2]

/-- Writes in `0xfe00..=0xfe9f` land in the OAM arm. -/
theorem writeF_oam (f : Nat) (m : Mmu) (a v : Nat) (hf : 1 ≤ f)
    (h1 : 0xfe00 ≤ a) (h2 : a ≤ 0xfe9f) :
    Mmu.writeF f m a v =
      .ok { m with gpu := { m.gpu with
        oam := fnUpdate m.gpu.oam (a - 0xfe00) v } } := by
  obtain ⟨k, rfl⟩ : ∃ k, f = k + 1 := ⟨f - 1, by omega⟩
  rw [Mmu.writeF, if_neg (by rintro ⟨hh, -⟩; omega), if_neg (by omega),
    if_neg (by omega), if_neg (by omega), if_neg (by omega), if_neg (by omega),
    if_pos h2]

/-- The OAM-DMA copy loop always succeeds for a well-formed cartridge:
every read goes through `Mmu::read` (which is `Ok`) and every write lands
in the OAM arm. -/
theorem dmaLoop_isOk (fw base : Nat) (hfw : 1 ≤ fw) :
    ∀ (r : Nat) (m : Mmu), CartOk m.cart →
      (Mmu.dmaLoop (fun mm aa vv => Mmu.writeF fw mm aa vv) base r m).isOk
        = true := by
  intro r
  induction r with
  | zero => intro m _; rfl
  | succ k ih =>
    intro m hcm
    rw [Mmu.dmaLoop]
    split
    · rename_i v2 hrd
      rw [writeF_oam fw m (0xfe00 + (0xa0 - (k + 1))) v2 hfw (by omega) (by omega)]
      apply ih
      exact hcm
    · rename_i e hrd
      exact absurd (hrd ▸ read_isOk m (base + (0xa0 - (k + 1))) hcm) (not_isOk_err e)
    · rename_i hrd
      exact absurd (hrd ▸ read_isOk m (base + (0xa0 - (k + 1))) hcm) not_isOk_panic

/-- Both error-behaviour facts for an `Ok`-valued write arm. -/
theorem okBranch {x : Mmu} {a v : Nat} {ub : Bool}
    (h1 : ¬((a ≤ 0xff ∧ ub = true) ∨ a = 0xff44))
    (h2 : ¬(a = 0xff46 ∧ 0xf1 < v)) :
    ((Res.ok (ε := MemoryError) x).isErr = true ↔
        ((a ≤ 0xff ∧ ub = true) ∨ a = 0xff44)) ∧
      (Res.ok (ε := MemoryError) x = .panic ↔ (a = 0xff46 ∧ 0xf1 < v)) :=
  ⟨iff_of_false (fun hh => Bool.false_ne_true hh) h1,
   iff_of_false (fun hh => Res.noConfusion hh) h2⟩

/-- The exact error/panic behaviour of `Mmu::write` for a well-formed
cartridge: an error iff the boot-ROM overlay is written or `0xff44` (LY),
a panic iff the DMA trigger's `assert!(value <= 0xf1)` fails. -/
theorem write_spec (m : Mmu) (a v : Nat) (hc : CartOk m.cart) :
    ((Mmu.write m a v).isErr = true ↔
        ((a ≤ 0xff ∧ m.use_bios = true) ∨ a = 0xff44)) ∧
      (Mmu.write m a v = .panic ↔ (a = 0xff46 ∧ 0xf1 < v)) := by
  have hun : Mmu.write m a v = Mmu.writeF (2 + 1) m a v := rfl
  rw [hun, Mmu.writeF]
  by_cases hbios : a ≤ 0xff ∧ m.use_bios = true
  · rw [if_pos hbios]
    exact ⟨iff_of_true rfl (Or.inl hbios),
      iff_of_false (fun hh => Res.noConfusion hh)
        (by rintro ⟨hh, -⟩; have := hbios.1; omega)⟩
  rw [if_neg hbios]
  by_cases hcnd : a ≤ 0x7fff
  · rw [if_pos hcnd]
    rcases cart_write_ok m.cart a v with ⟨c2, hc2⟩
    rw [hc2]
    exact okBranch (by rintro (hh | hh); exacts [hbios hh, by omega])
      (by rintro ⟨hh, -⟩; omega)
  rw [if_neg hcnd]
  by_cases hcnd : a ≤ 0x9fff
  · rw [if_pos hcnd]
    exact okBranch (by rintro (hh | hh); exacts [hbios hh, by omega])
      (by rintro ⟨hh, -⟩; omega)
  rw [if_neg hcnd]
  by_cases hcnd : a ≤ 0xbfff
  · rw [if_pos hcnd]
    rcases cart_write_ok m.cart a v with ⟨c2, hc2⟩
    rw [hc2]
    exact okBranch (by rintro (hh | hh); exacts [hbios hh, by omega])
      (by rintro ⟨hh, -⟩; omega)
  rw [if_neg hcnd]
  by_cases hcnd : a ≤ 0xdfff
  · rw [if_pos hcnd]
    exact okBranch (by rintro (hh | hh); exacts [hbios hh, by omega])
      (by rintro ⟨hh, -⟩; omega)
  rw [if_neg hcnd]
  by_cases hcnd : a ≤ 0xfdff
  · rw [if_pos hcnd]
    rw [writeF_wram 2 m (a - 0x2000) v (by omega) (by omega) (by omega)]
    exact okBranch (by rintro (hh | hh); exacts [hbios hh, by omega])
      (by rintro ⟨hh, -⟩; omega)
  rw [if_neg hcnd]
  by_cases hcnd : a ≤ 0xfe9f
  · rw [if_pos hcnd]
    exact okBranch (by rintro (hh | hh); exacts [hbios hh, by omega])
      (by rintro ⟨hh, -⟩; omega)
  rw [if_neg hcnd]
  by_cases hcnd : a ≤ 0xfeff
  · rw [if_pos hcnd]
    exact okBranch (by rintro (hh | hh); exacts [hbios hh, by omega])
      (by rintro ⟨hh, -⟩; omega)
  rw [if_neg hcnd]
  by_cases hcnd : a = 0xff00
  · rw [if_pos hcnd]
    exact okBranch (by rintro (hh | hh); exacts [hbios hh, by omega])
      (by rintro ⟨hh, -⟩; omega)
  rw [if_neg hcnd]
  by_cases hcnd : a = 0xff01
  · rw [if_pos hcnd]
    exact okBranch (by rintro (hh | hh); exacts [hbios hh, by omega])
      (by rintro ⟨hh, -⟩; omega)
  rw [if_neg hcnd]
  by_cases hcnd : a = 0xff02
  · rw [if_pos hcnd]
    exact okBranch (by rintro (hh | hh); exacts [hbios hh, by omega])
      (by rintro ⟨hh, -⟩; omega)
  rw [if_neg hcnd]
  by_cases hcnd : a = 0xff04
  · rw [if_pos hcnd]
    exact okBranch (by rintro (hh | hh); exacts [hbios hh, by omega])
      (by rintro ⟨hh, -⟩; omega)
  rw [if_neg hcnd]
  by_cases hcnd : a = 0xff05
  · rw [if_pos hcnd]
    exact okBranch (by rintro (hh | hh); exacts [hbios hh, by omega])
      (by rintro ⟨hh, -⟩; omega)
  rw [if_neg hcnd]
  by_cases hcnd : a = 0xff06
  · rw [if_pos hcnd]
    exact okBranch (by rintro (hh | hh); exacts [hbios hh, by omega])
      (by rintro ⟨hh, -⟩; omega)
  rw [if_neg hcnd]
  by_cases hcnd : a = 0xff07
  · rw [if_pos hcnd]
    exact okBranch (by rintro (hh | hh); exacts [hbios hh, by omega])
      (by rintro ⟨hh, -⟩; omega)
  rw [if_neg hcnd]
  by_cases hcnd : a = 0xff0f
  · rw [if_pos hcnd]
    exact okBranch (by rintro (hh | hh); exacts [hbios hh, by omega])
      (by rintro ⟨hh, -⟩; omega)
  rw [if_neg hcnd]
  by_cases hcnd : 0xff10 ≤ a ∧ a ≤ 0xff26
  · rw [if_pos hcnd]
    exact okBranch (by rintro (hh | hh); exacts [hbios hh, by omega])
      (by rintro ⟨hh, -⟩; omega)
  rw [if_neg hcnd]
  by_cases hcnd : 0xff30 ≤ a ∧ a ≤ 0xff3f
  · rw [if_pos hcnd]
    exact okBranch (by rintro (hh | hh); exacts [hbios hh, by omega])
      (by rintro ⟨hh, -⟩; omega)
  rw [if_neg hcnd]
  by_cases hcnd : a = 0xff40
  · rw [if_pos hcnd]
    exact okBranch (by rintro (hh | hh); exacts [hbios hh, by omega])
      (by rintro ⟨hh, -⟩; omega)
  rw [if_neg hcnd]
  by_cases hcnd : a = 0xff41
  · rw [if_pos hcnd]
    exact okBranch (by rintro (hh | hh); exacts [hbios hh, by omega])
      (by rintro ⟨hh, -⟩; omega)
  rw [if_neg hcnd]
  by_cases hcnd : a = 0xff42
  · rw [if_pos hcnd]
    exact okBranch (by rintro (hh | hh); exacts [hbios hh, by omega])
      (by rintro ⟨hh, -⟩; omega)
  rw [if_neg hcnd]
  by_cases hcnd : a = 0xff43
  · rw [if_pos hcnd]
    exact okBranch (by rintro (hh | hh); exacts [hbios hh, by omega])
      (by rintro ⟨hh, -⟩; omega)
  rw [if_neg hcnd]
  by_cases hcnd : a = 0xff44
  · rw [if_pos hcnd]
    exact ⟨iff_of_true rfl (Or.inr hcnd),
      iff_of_false (fun hh => Res.noConfusion hh) (by rintro ⟨hh, -⟩; omega)⟩
  rw [if_neg hcnd]
  by_cases hcnd : a = 0xff45
  · rw [if_pos hcnd]
    exact okBranch (by rintro (hh | hh); exacts [hbios hh, by omega])
      (by rintro ⟨hh, -⟩; omega)
  rw [if_neg hcnd]
  by_cases hcnd : a = 0xff46
  · rw [if_pos hcnd]
    by_cases hv1 : v > 0xf1
    · rw [if_pos hv1]
      exact ⟨iff_of_false (fun hh => Bool.false_ne_true hh)
          (by rintro (hh | hh); exacts [hbios hh, by omega]),
        iff_of_true rfl ⟨hcnd, hv1⟩⟩
    · rw [if_neg hv1]
      rcases isOk_exists (dmaLoop_isOk 2 (v <<< 8) (by omega) 0xa0 m hc)
        with ⟨m2, hm2⟩
      rw [hm2]
      exact ⟨iff_of_false (fun hh => Bool.false_ne_true hh)
          (by rintro (hh | hh); exacts [hbios hh, by omega]),
        iff_of_false (fun hh => Res.noConfusion hh) (by rintro ⟨-, hh⟩; omega)⟩
  rw [if_neg hcnd]
  by_cases hcnd : a = 0xff47
  · rw [if_pos hcnd]
    exact okBranch (by rintro (hh | hh); exacts [hbios hh, by omega])
      (by rintro ⟨hh, -⟩; omega)
  rw [if_neg hcnd]
  by_cases hcnd : a = 0xff48
  · rw [if_pos hcnd]
    exact okBranch (by rintro (hh | hh); exacts [hbios hh, by omega])
      (by rintro ⟨hh, -⟩; omega)
  rw [if_neg hcnd]
  by_cases hcnd : a = 0xff49
  · rw [if_pos hcnd]
    exact okBranch (by rintro (hh | hh); exacts [hbios hh, by omega])
      (by rintro ⟨hh, -⟩; omega)
  rw [if_neg hcnd]
  by_cases hcnd : a = 0xff4a
  · rw [if_pos hcnd]
    exact okBranch (by rintro (hh | hh); exacts [hbios hh, by omega])
      (by rintro ⟨hh, -⟩; omega)
  rw [if_neg hcnd]
  by_cases hcnd : a = 0xff4b
  · rw [if_pos hcnd]
    exact okBranch (by rintro (hh | hh); exacts [hbios hh, by omega])
      (by rintro ⟨hh, -⟩; omega)
  rw [if_neg hcnd]
  by_cases hcnd : a = 0xff4d
  · rw [if_pos hcnd]
    exact okBranch (by rintro (hh | hh); exacts [hbios hh, by omega])
      (by rintro ⟨hh, -⟩; omega)
  rw [if_neg hcnd]
  by_cases hcnd : a = 0xff50
  · rw [if_pos hcnd]
    by_cases hv0 : v ≠ 0
    · rw [if_pos hv0]
      exact okBranch (by rintro (hh | hh); exacts [hbios hh, by omega])
        (by rintro ⟨hh, -⟩; omega)
    · rw [if_neg hv0]
      exact okBranch (by rintro (hh | hh); exacts [hbios hh, by omega])
        (by rintro ⟨hh, -⟩; omega)
  rw [if_neg hcnd]
  by_cases hcnd : 0xff70 ≤ a ∧ a ≤ 0xff7f
  · rw [if_pos hcnd]
    exact okBranch (by rintro (hh | hh); exacts [hbios hh, by omega])
      (by rintro ⟨hh, -⟩; omega)
  rw [if_neg hcnd]
  by_cases hcnd : 0xff80 ≤ a ∧ a ≤ 0xfffe
  · rw [if_pos hcnd]
    exact okBranch (by rintro (hh | hh); exacts [hbios hh, by omega])
      (by rintro ⟨hh, -⟩; omega)
  rw [if_neg hcnd]
  by_cases hcnd : a = 0xffff
  · rw [if_pos hcnd]
    exact okBranch (by rintro (hh | hh); exacts [hbios hh, by omega])
      (by rintro ⟨hh, -⟩; omega)
  rw [if_neg hcnd]
  exact okBranch (by rintro (hh | hh); exacts [hbios hh, by omega])
    (by rintro ⟨hh, -⟩; omega)

/-- An MBC1 cartridge with a 16 KiB ROM and no RAM. -/
def cartW10 : Cartridge :=
  { rom := fun _ => 0, romLen := 0x4000, ram := fun _ => 0, ramLen := 0,
    mbc := .mbc1 MBC1State.new }

theorem cartW10_ok : CartOk cartW10 := by
  intro x _
  right
  unfold Cartridge.read
  simp only [show cartW10.mbc = MBC.mbc1 MBC1State.new from rfl]
  split_ifs <;> first | rfl | (rename_i h; exact absurd h (by decide))

/-- A fresh bus over `cartW10`. -/
def mW10 : Mmu := Mmu.new (fun _ => 0) cartW10 Gpu.new

/-- C10: for any bus whose cartridge never fails its own reads, `Mmu::read`
never returns a `MemoryError` and always returns `Ok`; `Mmu::write` returns
an error exactly on boot-ROM-overlay writes (`Illegal`) and on `0xff44`/LY
(`ReadOnly`) — but, contrary to the claim's "`Ok` for every other address",
it panics exactly when the OAM-DMA trigger `0xff46` is written with a value
above `0xf1` (the source's `assert!(value <= 0xf1)`). -/
theorem claim_C10 (m : Mmu) (a v : Nat) (hc : CartOk m.cart) :
    (Mmu.read m a).isErr = false ∧
      (Mmu.read m a).isOk = true ∧
      ((Mmu.write m a v).isErr = true ↔
        ((a ≤ 0xff ∧ m.use_bios = true) ∨ a = 0xff44)) ∧
      (Mmu.write m a v = .panic ↔ (a = 0xff46 ∧ 0xf1 < v)) :=
  ⟨isOk_not_isErr (read_isOk m a hc), read_isOk m a hc,
    (write_spec m a v hc).1, (write_spec m a v hc).2⟩

/-- C10 (witness): on a fresh bus over the MBC1 cartridge, address `0` is
overlay-covered, so the read succeeds and the write errors. -/
theorem claim_C10_witness :
    (Mmu.read mW10 0).isErr = false ∧
      (Mmu.read mW10 0).isOk = true ∧
      ((Mmu.write mW10 0 0).isErr = true ↔
        (((0 : Nat) ≤ 0xff ∧ mW10.use_bios = true) ∨ (0 : Nat) = 0xff44)) ∧
      (Mmu.write mW10 0 0 = .panic ↔ ((0 : Nat) = 0xff46 ∧ 0xf1 < 0)) :=
  claim_C10 mW10 0 0 cartW10_ok

/-- C10 (counterexample to the unqualified claim): writing `0xf2` to the
DMA trigger `0xff46` panics (failed `assert!`) even though `0xff46` is
neither an overlay address nor `0xff44`; and a read of `0xa000` on the
no-controller 32 KiB cartridge is an out-of-bounds panic, so `read` does
not return `Ok` for every address either. -/
theorem claim_C10_counterexample :
    Mmu.write mHalt 0xff46 0xf2 = .panic ∧
      Mmu.read mHalt 0xa000 = .panic ∧
      ¬(((0xff46 : Nat) ≤ 0xff ∧ mHalt.use_bios = true) ∨
        (0xff46 : Nat) = 0xff44) := by
  refine ⟨rfl, rfl, ?_⟩
  decide

end GB
